import Mathlib

/-!
Verification development for the `re-sound` SoundBank (`.bnk`) codec.

The Rust source under `src/bnk` is shallowly embedded here:

* a byte stream is a `List Nat` of bytes together with a cursor position
  (`Rd` for readers, `Wr` for seekable writers, both mirroring
  `std::io::Cursor`);
* every fallible I/O action is a state-passing function into `Except`;
* machine integers are `Nat`s; wrapping subtraction of `u32`/`usize`
  quantities (the Rust code subtracts unchecked) is made explicit via
  `wsub`;
* Rust loops whose trip count is not structurally bounded take a fuel
  argument; top-level entry points supply `data.length + 1`, which is
  always sufficient because every iteration consumes input.

Every definition is translated from the Rust source, field by field and
branch by branch; theorems about the claims of the specification follow
at the end of the file.
-/

set_option maxRecDepth 10000

namespace ReSound

/-- Errors of the codec, mirroring `BnkError` in `src/bnk/mod.rs`.  IO
errors are collapsed to the only error an in-memory cursor can produce,
end of stream (`ioEof`).  Errors coming from the binrw-derived decoders
(`binrw::Error`) are represented by `binrwNoVariantMatch` (an enum byte
matched no variant) and `binrwAssertFail` (the explicit assertion failure
raised by the playlist-forest decoder).  `outOfFuel` is an artifact of the
fuel-based embedding of unbounded loops and never occurs when the fuel
exceeds the input length.  `indexOob` models an out-of-bounds `Vec` index
(a Rust panic). -/
inductive BnkErr where
  | ioEof : BnkErr
  | missingDidx : BnkErr
  | unknownHircEntryType : Nat → Nat → BnkErr
  | unknownSoundType : Nat → Nat → BnkErr
  | unknownEventActionScope : Nat → Nat → BnkErr
  | badDataSize : String → Nat → Nat → Nat → BnkErr
  | binrwNoVariantMatch : Nat → BnkErr
  | binrwAssertFail : Nat → String → BnkErr
  | outOfFuel : BnkErr
  | indexOob : BnkErr
  | panicUnreachable : BnkErr
deriving DecidableEq

/-- A readable, seekable in-memory byte stream: the contents and the
cursor position (`std::io::Cursor` over the input bytes). -/
structure Rd where
  data : List Nat
  pos : Nat
deriving DecidableEq

/-- The reader monad: `io::Read + io::Seek` actions that may fail. -/
def M (α : Type) : Type := Rd → Except BnkErr (α × Rd)

instance : Monad M where
  pure a := fun rd => .ok (a, rd)
  bind x f := fun rd =>
    match x rd with
    | .ok (a, rd') => f a rd'
    | .error e => .error e

/-- Raise an error (an early `return Err(..)` in the Rust code). -/
def merr {α : Type} (e : BnkErr) : M α := fun _ => .error e

/-- The `Option::ok_or(err)?` pattern: unwrap or raise. -/
def okOr {α : Type} (o : Option α) (e : BnkErr) : M α :=
  match o with
  | some a => pure a
  | none => merr e

/-- `Read::read_exact` into a buffer of `n` bytes: succeeds exactly when
`n` bytes remain, and consumes them. -/
def readBytes (n : Nat) : M (List Nat) := fun rd =>
  if rd.pos + n ≤ rd.data.length then
    .ok ((rd.data.drop rd.pos).take n, ⟨rd.data, rd.pos + n⟩)
  else
    .error .ioEof

/-- Little-endian value of a byte list. -/
def leN : List Nat → Nat
  | [] => 0
  | b :: bs => b + 256 * leN bs

/-- `read_u8`. -/
def readU8 : M Nat := do
  let bs ← readBytes 1
  pure (leN bs)

/-- `read_u16::<LE>` (also used for the raw bytes of an `i16`). -/
def readU16 : M Nat := do
  let bs ← readBytes 2
  pure (leN bs)

/-- `read_u32::<LE>` (also used for the raw bytes of `i32` and `f32`
fields, which the codec never interprets numerically). -/
def readU32 : M Nat := do
  let bs ← readBytes 4
  pure (leN bs)

/-- An 8-byte little-endian read (raw bytes of an `f64` field). -/
def readU64 : M Nat := do
  let bs ← readBytes 8
  pure (leN bs)

/-- `Seek::seek(SeekFrom::Start p)` (never fails on a cursor). -/
def mseek (p : Nat) : M Unit := fun rd => .ok ((), ⟨rd.data, p⟩)

/-- `Seek::stream_position()`. -/
def mtell : M Nat := fun rd => .ok (rd.pos, rd)

/-- Run a parser `n` times and collect the results (the
`read_vec_fn` / `#[br(count = n)]` pattern). -/
def mreplicate {α : Type} : Nat → M α → M (List α)
  | 0, _ => pure []
  | n + 1, p => do
    let a ← p
    let as ← mreplicate n p
    pure (a :: as)

/-- Wrapping subtraction of `w`-bit unsigned machine integers, as
performed by release-mode Rust when the Rust source subtracts without a
guard. -/
def wsub (w a b : Nat) : Nat :=
  if b ≤ a then a - b else a + (2 ^ w - b)

/-- Little-endian byte encoding of `v` on `w` bytes (the effect of
`write_uN::<LE>`). -/
def natLE : Nat → Nat → List Nat
  | 0, _ => []
  | w + 1, v => v % 256 :: natLE w (v / 256)

/-- A writable, seekable in-memory byte buffer: `std::io::Cursor` over a
`Vec<u8>`.  Writing past the end extends the buffer (zero-filling any gap
opened by a seek beyond the end), writing inside it overwrites. -/
structure Wr where
  buf : List Nat
  pos : Nat
deriving DecidableEq

/-- The in-place effect of `Write::write_all bs` at position `p`. -/
def writeAt (buf : List Nat) (p : Nat) (bs : List Nat) : List Nat :=
  buf.take p ++ List.replicate (p - buf.length) 0 ++ bs ++ buf.drop (p + bs.length)

/-- The writer monad: `io::Write + io::Seek` actions that may fail. -/
def W (α : Type) : Type := Wr → Except BnkErr (α × Wr)

instance : Monad W where
  pure a := fun w => .ok (a, w)
  bind x f := fun w =>
    match x w with
    | .ok (a, w') => f a w'
    | .error e => .error e

/-- Raise an error on the writer side. -/
def werr {α : Type} (e : BnkErr) : W α := fun _ => .error e

/-- `Write::write_all`. -/
def wbytes (bs : List Nat) : W Unit := fun w =>
  .ok ((), ⟨writeAt w.buf w.pos bs, w.pos + bs.length⟩)

/-- `write_u8` (the value is truncated to a byte, as by an `as u8`
cast). -/
def wU8 (v : Nat) : W Unit := wbytes [v % 256]

/-- `write_u32::<LE>`. -/
def wU32 (v : Nat) : W Unit := wbytes (natLE 4 v)

/-- `Seek::seek(SeekFrom::Start p)` on the writer. -/
def wseek (p : Nat) : W Unit := fun w => .ok ((), ⟨w.buf, p⟩)

/-- `Seek::stream_position()` on the writer. -/
def wtell : W Nat := fun w => .ok (w.pos, w)

/-- Lift a pure `Except` computation (such as `fix_values`) into the
writer monad, propagating its error with `?`. -/
def wliftE {α : Type} (x : Except BnkErr α) : W α := fun w =>
  match x with
  | .ok a => .ok (a, w)
  | .error e => .error e

/-! ### Data model: enums (`src/bnk/hirc.rs`, `src/bnk/hirc/common.rs`,
`src/bnk/hirc/music_track.rs`) -/

/-- `HircSoundType` (closed `u8` enum handled by the binrw derive). -/
inductive HircSoundType where
  | sfx
  | voice
deriving DecidableEq

def HircSoundType.fromRepr : Nat → Option HircSoundType
  | 0 => some .sfx
  | 1 => some .voice
  | _ => none

def HircSoundType.toNat : HircSoundType → Nat
  | .sfx => 0
  | .voice => 1

/-- `HircEventActionScope` (closed enum, `strum::FromRepr`). -/
inductive HircEventActionScope where
  | switchOrTrigger
  | global
  | gameObject
  | state
  | all
  | allExcept
deriving DecidableEq

def HircEventActionScope.fromRepr : Nat → Option HircEventActionScope
  | 1 => some .switchOrTrigger
  | 2 => some .global
  | 3 => some .gameObject
  | 4 => some .state
  | 5 => some .all
  | 6 => some .allExcept
  | _ => none

def HircEventActionScope.toNat : HircEventActionScope → Nat
  | .switchOrTrigger => 1
  | .global => 2
  | .gameObject => 3
  | .state => 4
  | .all => 5
  | .allExcept => 6

/-- `HircEventActionType` (open enum: unrecognised bytes are preserved in
an `unknown` variant). -/
inductive HircEventActionType where
  | stop | pause | resume | play | trigger | mute | unMute
  | setVoicePitch | resetVoicePitch | setVpoceVolume | resetVoiceVolume
  | setBusVolume | resetBusVolume | setVoiceLowPassFilter
  | resetVoiceLowPassFilter | enableState | disableState | setState
  | setGameParameter | resetGameParameter | setSwitch | toggleBypass
  | resetBypassEffect | break_ | seek
  | unknown : Nat → HircEventActionType
deriving DecidableEq

def HircEventActionType.fromRepr (v : Nat) : HircEventActionType :=
  match v with
  | 1 => .stop | 2 => .pause | 3 => .resume | 4 => .play | 5 => .trigger
  | 6 => .mute | 7 => .unMute | 8 => .setVoicePitch | 9 => .resetVoicePitch
  | 10 => .setVpoceVolume | 11 => .resetVoiceVolume | 12 => .setBusVolume
  | 13 => .resetBusVolume | 14 => .setVoiceLowPassFilter
  | 15 => .resetVoiceLowPassFilter | 16 => .enableState | 17 => .disableState
  | 18 => .setState | 19 => .setGameParameter | 20 => .resetGameParameter
  | 21 => .setSwitch | 22 => .toggleBypass | 23 => .resetBypassEffect
  | 24 => .break_ | 25 => .seek
  | _ => .unknown v

def HircEventActionType.as_u8 : HircEventActionType → Nat
  | .stop => 1 | .pause => 2 | .resume => 3 | .play => 4 | .trigger => 5
  | .mute => 6 | .unMute => 7 | .setVoicePitch => 8 | .resetVoicePitch => 9
  | .setVpoceVolume => 10 | .resetVoiceVolume => 11 | .setBusVolume => 12
  | .resetBusVolume => 13 | .setVoiceLowPassFilter => 14
  | .resetVoiceLowPassFilter => 15 | .enableState => 16 | .disableState => 17
  | .setState => 18 | .setGameParameter => 19 | .resetGameParameter => 20
  | .setSwitch => 21 | .toggleBypass => 22 | .resetBypassEffect => 23
  | .break_ => 24 | .seek => 25
  | .unknown v => v

/-- `HircEventActionParameterType` (open enum). -/
inductive HircEventActionParameterType where
  | delay
  | paramPlay
  | probability
  | unknown : Nat → HircEventActionParameterType
deriving DecidableEq

def HircEventActionParameterType.fromRepr (v : Nat) : HircEventActionParameterType :=
  match v with
  | 0x0E => .delay
  | 0x0F => .paramPlay
  | 0x10 => .probability
  | _ => .unknown v

def HircEventActionParameterType.as_u8 : HircEventActionParameterType → Nat
  | .delay => 0x0E
  | .paramPlay => 0x0F
  | .probability => 0x10
  | .unknown v => v

/-- `HircEntryType` (open enum; tag 19 does not exist). -/
inductive HircEntryType where
  | settings | sound | eventAction | event | randomOrSequenceContainer
  | switchContainer | actorMixer | audioBus | blendContainer | musicSegment
  | musicTrack | musicSwitchContainer | musicRanSeqCntr | attenuation
  | dialogueEvent | motionBus | motionFx | effect | auxiliaryBus
  | unknown : Nat → HircEntryType
deriving DecidableEq

def HircEntryType.fromRepr : Nat → Option HircEntryType
  | 1 => some .settings
  | 2 => some .sound
  | 3 => some .eventAction
  | 4 => some .event
  | 5 => some .randomOrSequenceContainer
  | 6 => some .switchContainer
  | 7 => some .actorMixer
  | 8 => some .audioBus
  | 9 => some .blendContainer
  | 10 => some .musicSegment
  | 11 => some .musicTrack
  | 12 => some .musicSwitchContainer
  | 13 => some .musicRanSeqCntr
  | 14 => some .attenuation
  | 15 => some .dialogueEvent
  | 16 => some .motionBus
  | 17 => some .motionFx
  | 18 => some .effect
  | 20 => some .auxiliaryBus
  | _ => none

def HircEntryType.as_u8 : HircEntryType → Nat
  | .settings => 1 | .sound => 2 | .eventAction => 3 | .event => 4
  | .randomOrSequenceContainer => 5 | .switchContainer => 6
  | .actorMixer => 7 | .audioBus => 8 | .blendContainer => 9
  | .musicSegment => 10 | .musicTrack => 11 | .musicSwitchContainer => 12
  | .musicRanSeqCntr => 13 | .attenuation => 14 | .dialogueEvent => 15
  | .motionBus => 16 | .motionFx => 17 | .effect => 18
  | .auxiliaryBus => 20
  | .unknown v => v

/-- `AkPathMode` (closed enum, binrw `repr(u8)`). -/
inductive AkPathMode where
  | stepSequence
  | stepRandom
  | continuousSequence
  | continuousRandom
  | stepSequencePickNewPath
  | stepRandomPickNewPath
deriving DecidableEq

def AkPathMode.fromRepr : Nat → Option AkPathMode
  | 0 => some .stepSequence
  | 1 => some .stepRandom
  | 2 => some .continuousSequence
  | 3 => some .continuousRandom
  | 4 => some .stepSequencePickNewPath
  | 5 => some .stepRandomPickNewPath
  | _ => none

def AkPathMode.toNat : AkPathMode → Nat
  | .stepSequence => 0
  | .stepRandom => 1
  | .continuousSequence => 2
  | .continuousRandom => 3
  | .stepSequencePickNewPath => 4
  | .stepRandomPickNewPath => 5

/-- `AkMusicTrackType` (closed enum, binrw `repr(u8)`). -/
inductive AkMusicTrackType where
  | normal
  | random
  | sequence
  | switch
deriving DecidableEq

def AkMusicTrackType.fromRepr : Nat → Option AkMusicTrackType
  | 0 => some .normal
  | 1 => some .random
  | 2 => some .sequence
  | 3 => some .switch
  | _ => none

def AkMusicTrackType.toNat : AkMusicTrackType → Nat
  | .normal => 0
  | .random => 1
  | .sequence => 2
  | .switch => 3

/-! ### Data model: structures.  Scalar fields hold the raw little-endian
value of the field (`f32`/`f64`/`i16`/`i32` fields are never interpreted
numerically by the codec, only round-tripped, so they are kept as their
raw unsigned value). -/

/-- `AkPathVertex` (`common.rs`). -/
structure AkPathVertex where
  vertex_x : Nat
  vertex_y : Nat
  vertex_z : Nat
  duration : Nat
deriving DecidableEq

/-- `AkPathListItemOffset` (`common.rs`). -/
structure AkPathListItemOffset where
  vertices_offset : Nat
  num_vertices : Nat
deriving DecidableEq

/-- `Ak3DAutomationParams` (`common.rs`). -/
structure Ak3DAutomationParams where
  x_range : Nat
  y_range : Nat
  z_range : Nat
deriving DecidableEq

/-- `PositioningParams` (`common.rs`). -/
structure PositioningParams where
  bits_positioning : Nat
  bits_3d : Nat
  is_dynamic : Nat
  e_path_mode : AkPathMode
  transition_time : Nat
  vertices : List AkPathVertex
  play_list_items : List AkPathListItemOffset
  params : List Ak3DAutomationParams
deriving DecidableEq

/-- `NodeInitialFxParams` (`common.rs`). -/
structure NodeInitialFxParams where
  is_override_parent_fx : Nat
  num_fx : Nat
deriving DecidableEq

/-- `AkPropBundleElem` (`common.rs`). -/
structure AkPropBundleElem where
  p_id : Nat
  p_value : Nat
deriving DecidableEq

/-- `AkPropBundle` (`common.rs`). -/
structure AkPropBundle where
  num_props : Nat
  props : List AkPropBundleElem
deriving DecidableEq

/-- `NodeInitialParams` (`common.rs`). -/
structure NodeInitialParams where
  ak_prop_bundle1 : AkPropBundle
  ak_prop_bundle2 : AkPropBundle
deriving DecidableEq

/-- `AuxParams` (`common.rs`): `aux_ids` is present on the wire only when
bit 3 of `by_bit_vector` is set. -/
structure AuxParams where
  by_bit_vector : Nat
  aux_ids : List Nat
  reflections_aux_bus : Nat
deriving DecidableEq

/-- `AdvSettingsParams` (`common.rs`). -/
structure AdvSettingsParams where
  by_bit_vector : Nat
  virtual_queue_behavior : Nat
  max_num_instance : Nat
  below_threshold_behavior : Nat
  by_bit_vector2 : Nat
deriving DecidableEq

/-- `AkStatePropertyInfo` (`common.rs`). -/
structure AkStatePropertyInfo where
  property_id : Nat
  accum_type : Nat
  in_db : Nat
deriving DecidableEq

/-- `AkState` (`common.rs`). -/
structure AkState where
  state_id : Nat
  state_instance_id : Nat
deriving DecidableEq

/-- `AkStateGroupChunk` (`common.rs`). -/
structure AkStateGroupChunk where
  state_group_id : Nat
  state_sync_type : Nat
  num_states : Nat
  states : List AkState
deriving DecidableEq

/-- `StateChunk` (`common.rs`). -/
structure StateChunk where
  num_state_props : Nat
  state_props : List AkStatePropertyInfo
  num_state_groups : Nat
  state_groups : List AkStateGroupChunk
deriving DecidableEq

/-- `AkRTPCGraphPoint` (`common.rs`). -/
structure AkRTPCGraphPoint where
  from_ : Nat
  to_ : Nat
  interp : Nat
deriving DecidableEq

/-- `InitialRTPCCurve` (`common.rs`). -/
structure InitialRTPCCurve where
  rtpc_id : Nat
  rtpc_type : Nat
  rtpc_accum : Nat
  param_id : Nat
  rtpc_curve_id : Nat
  e_scaling : Nat
  size : Nat
  rtpc_mgr : List AkRTPCGraphPoint
deriving DecidableEq

/-- `InitialRTPC` (`common.rs`). -/
structure InitialRTPC where
  num_curves : Nat
  curves : List InitialRTPCCurve
deriving DecidableEq

/-- `NodeBaseParams` (`common.rs`). -/
structure NodeBaseParams where
  node_initial_fx_params : NodeInitialFxParams
  is_override_parent_metadata : Nat
  num_fx : Nat
  override_attachment_params : Nat
  override_bus_id : Nat
  direct_parent_id : Nat
  by_bit_vector : Nat
  node_initial_params : NodeInitialParams
  positioning_params : PositioningParams
  aux_params : AuxParams
  adv_settings_params : AdvSettingsParams
  state_chunk : StateChunk
  initial_rtpc : InitialRTPC
deriving DecidableEq

/-- `Children` (`music_segment.rs`). -/
structure Children where
  num_children : Nat
  children : List Nat
deriving DecidableEq

/-- `AkMeterInfo` (`music_segment.rs`). -/
structure AkMeterInfo where
  grid_period : Nat
  grid_offset : Nat
  tempo : Nat
  time_sig_num_beats_bar : Nat
  time_sig_beat_value : Nat
deriving DecidableEq

/-- `CAkStinger` (`music_segment.rs`). -/
structure CAkStinger where
  trigger_id : Nat
  segment_id : Nat
  sync_play_at : Nat
  cue_filter_hash : Nat
  dont_repeat_time : Nat
  num_segment_look_ahead : Nat
deriving DecidableEq

/-- `MusicNodeParams` (`music_segment.rs`). -/
structure MusicNodeParams where
  flags : Nat
  node_base_params : NodeBaseParams
  children : Children
  ak_meter_info : AkMeterInfo
  meter_info_flag : Nat
  num_stingers : Nat
  stingers : List CAkStinger
deriving DecidableEq

/-- `AkMusicMarkerWwise` (`music_segment.rs`); `marker_name` is the byte
content of a null-terminated `binrw::NullString` (terminator not
included). -/
structure AkMusicMarkerWwise where
  id : Nat
  position : Nat
  marker_name : List Nat
deriving DecidableEq

/-- `MusicSegmentInitialValues` (`music_segment.rs`). -/
structure MusicSegmentInitialValues where
  music_node_params : MusicNodeParams
  duration : Nat
  num_markers : Nat
  markers : List AkMusicMarkerWwise
deriving DecidableEq

/-- `HircMusicSegment` (`music_segment.rs`). -/
structure HircMusicSegment where
  music_segment_initial_values : MusicSegmentInitialValues
deriving DecidableEq

/-- `AkMediaInformation` (`music_track.rs`). -/
structure AkMediaInformation where
  source_id : Nat
  in_memory_media_size : Nat
  source_bits : Nat
deriving DecidableEq

/-- `AkBankSourceData` (`music_track.rs`). -/
structure AkBankSourceData where
  plugin_id : Nat
  stream_type : Nat
  media_information : AkMediaInformation
deriving DecidableEq

/-- `AkTrackSrcInfo` (`music_track.rs`). -/
structure AkTrackSrcInfo where
  track_id : Nat
  source_id : Nat
  event_id : Nat
  play_at : Nat
  begin_trim_offset : Nat
  end_trim_offset : Nat
  src_duration : Nat
deriving DecidableEq

/-- `AkClipAutomation` (`music_track.rs`). -/
structure AkClipAutomation where
  clip_index : Nat
  auto_type : Nat
  graph_points_count : Nat
  graph_points : List AkRTPCGraphPoint
deriving DecidableEq

/-- `TrackSwitchAssoc` (`music_track.rs`). -/
structure TrackSwitchAssoc where
  switch_assoc : Nat
deriving DecidableEq

/-- `SwitchParams` (`music_track.rs`). -/
structure SwitchParams where
  group_type : Nat
  group_id : Nat
  default_switch : Nat
  num_switch_assoc : Nat
  switch_assoc : List TrackSwitchAssoc
deriving DecidableEq

/-- `FadeParams` (`music_track.rs`). -/
structure FadeParams where
  transition_time : Nat
  fade_curve : Nat
  fade_offset : Nat
deriving DecidableEq

/-- `TransParams` (`music_track.rs`). -/
structure TransParams where
  src_fade_params : FadeParams
  sync_type : Nat
  cue_filter_hash : Nat
  dest_fade_params : FadeParams
deriving DecidableEq

/-- `MusicTrackInitialValues` (`music_track.rs`): `num_sub_track` is on
the wire only when the playlist is non-empty; the switch/transition
parameter blocks only when `track_type == Switch`. -/
structure MusicTrackInitialValues where
  flags : Nat
  num_sources : Nat
  sources : List AkBankSourceData
  num_playlist_items : Nat
  playlist : List AkTrackSrcInfo
  num_sub_track : Nat
  num_clip_automations : Nat
  clip_automations : List AkClipAutomation
  node_base_params : NodeBaseParams
  track_type : AkMusicTrackType
  switch_params : Option SwitchParams
  trans_params : Option TransParams
  look_ahead_time : Nat
deriving DecidableEq

/-- `HircMusicTrack` (`music_track.rs`). -/
structure HircMusicTrack where
  music_track_initial_values : MusicTrackInitialValues
deriving DecidableEq

/-- `AkMusicTransSrcRule` (`music_ran_sec_cntr.rs`). -/
structure AkMusicTransSrcRule where
  transition_time : Nat
  fade_curve : Nat
  fade_offset : Nat
  sync_type : Nat
  cue_filter_hash : Nat
  play_post_exit : Nat
deriving DecidableEq

/-- `AkMusicTransDstRule` (`music_ran_sec_cntr.rs`). -/
structure AkMusicTransDstRule where
  transition_time : Nat
  fade_curve : Nat
  fade_offset : Nat
  cue_filter_hash : Nat
  jump_to_id : Nat
  jump_to_type : Nat
  entry_type : Nat
  play_pre_entry : Nat
  dest_match_source_cue_name : Nat
deriving DecidableEq

/-- `AkMusicTransitionRule` (`music_ran_sec_cntr.rs`). -/
structure AkMusicTransitionRule where
  num_src : Nat
  src_id : Nat
  num_dst : Nat
  dst_id : Nat
  src_rule : AkMusicTransSrcRule
  dst_rule : AkMusicTransDstRule
  alloc_trans_object_flag : Nat
deriving DecidableEq

/-- `MusicTransNodeParams` (`music_ran_sec_cntr.rs`). -/
structure MusicTransNodeParams where
  music_node_params : MusicNodeParams
  num_rules : Nat
  rules : List AkMusicTransitionRule
deriving DecidableEq

/-- `AkMusicRanSeqPlaylistItem` (`music_ran_sec_cntr.rs`): a recursive
tree node; `play_list` holds `num_children` children on the wire. -/
inductive AkMusicRanSeqPlaylistItem where
  | mk
      (segment_id : Nat)
      (play_list_item_id : Nat)
      (num_children : Nat)
      (rs_type : Nat)
      (loop_ : Nat)
      (loop_min : Nat)
      (loop_max : Nat)
      (weight : Nat)
      (avoid_repeat_count : Nat)
      (is_using_weight : Nat)
      (is_shuffle : Nat)
      (play_list : List AkMusicRanSeqPlaylistItem)

def AkMusicRanSeqPlaylistItem.play_list : AkMusicRanSeqPlaylistItem → List AkMusicRanSeqPlaylistItem
  | .mk _ _ _ _ _ _ _ _ _ _ _ pl => pl

mutual

/-- `get_num_recursive` (`music_ran_sec_cntr.rs`): 1 for the item itself
plus the recursive count of every child. -/
def get_num_recursive : AkMusicRanSeqPlaylistItem → Nat
  | .mk _ _ _ _ _ _ _ _ _ _ _ pl => 1 + get_num_recursive_list pl

/-- Sum of `get_num_recursive` over a child list. -/
def get_num_recursive_list : List AkMusicRanSeqPlaylistItem → Nat
  | [] => 0
  | p :: ps => get_num_recursive p + get_num_recursive_list ps

end

/-- `MusicRanSecCntrInitialValues` (`music_ran_sec_cntr.rs`). -/
structure MusicRanSecCntrInitialValues where
  music_trans_node_params : MusicTransNodeParams
  num_play_list_items : Nat
  play_list_items : List AkMusicRanSeqPlaylistItem

/-- `HircMusicRanSecCntr` (`music_ran_sec_cntr.rs`). -/
structure HircMusicRanSecCntr where
  music_ran_sec_cntr_initial_values : MusicRanSecCntrInitialValues

/-- `HircUnmanagedEntry` (`hirc.rs`): the opaque pass-through payload. -/
structure HircUnmanagedEntry where
  data : List Nat
deriving DecidableEq

/-- `HircSound` (`hirc.rs`, binrw-derived). -/
structure HircSound where
  _unk1 : Nat
  _unk2 : Nat
  state : Nat
  audio_id : Nat
  source_id : Nat
  sound_type : HircSoundType
  _unk3 : Nat
  _unk4 : Nat
  game_object_id : Nat
  data : List Nat
deriving DecidableEq

/-- `HircEventAction` (`hirc.rs`). -/
structure HircEventAction where
  scope : HircEventActionScope
  action_type : HircEventActionType
  game_object_id : Nat
  _unk1 : Nat
  parameter_count : Nat
  parameter_types : List HircEventActionParameterType
  parameters : List Nat
  _unk2 : Nat
  data : List Nat
deriving DecidableEq

/-- `HircEntryPayload` (`hirc.rs`). -/
inductive HircEntryPayload where
  | settings : HircUnmanagedEntry → HircEntryPayload
  | sound : HircSound → HircEntryPayload
  | eventAction : HircEventAction → HircEntryPayload
  | event : List Nat → HircEntryPayload
  | randomOrSequenceContainer : HircUnmanagedEntry → HircEntryPayload
  | switchContainer : HircUnmanagedEntry → HircEntryPayload
  | actorMixer : HircUnmanagedEntry → HircEntryPayload
  | audioBus : HircUnmanagedEntry → HircEntryPayload
  | blendContainer : HircUnmanagedEntry → HircEntryPayload
  | musicSegment : HircMusicSegment → HircEntryPayload
  | musicTrack : HircMusicTrack → HircEntryPayload
  | musicSwitchContainer : HircUnmanagedEntry → HircEntryPayload
  | musicRanSeqCntr : HircMusicRanSecCntr → HircEntryPayload
  | attenuation : HircUnmanagedEntry → HircEntryPayload
  | dialogueEvent : HircUnmanagedEntry → HircEntryPayload
  | motionBus : HircUnmanagedEntry → HircEntryPayload
  | motionFx : HircUnmanagedEntry → HircEntryPayload
  | effect : HircUnmanagedEntry → HircEntryPayload
  | auxiliaryBus : HircUnmanagedEntry → HircEntryPayload
  | unknown : HircUnmanagedEntry → HircEntryPayload

/-- `HircEntry` (`hirc.rs`). -/
structure HircEntry where
  entry_type : HircEntryType
  length : Nat
  id : Nat
  payload : HircEntryPayload

/-- `DidxEntry` (`mod.rs`). -/
structure DidxEntry where
  id : Nat
  offset : Nat
  length : Nat
deriving DecidableEq

/-- `SectionPayload` (`mod.rs`). -/
inductive SectionPayload where
  | bkhd : Nat → Nat → List Nat → SectionPayload
  | didx : List DidxEntry → SectionPayload
  | hirc : List HircEntry → SectionPayload
  | data : List (List Nat) → SectionPayload
  | unk : List Nat → SectionPayload

/-- `Section` (`mod.rs`). -/
structure Section where
  magic : List Nat
  section_length : Nat
  payload : SectionPayload

/-- `Bnk` (`mod.rs`). -/
structure Bnk where
  sections : List Section

/-! ### Decoders (`BinRead` implementations and `from_reader` functions) -/

/-- Read an `AkPathMode` byte (binrw `repr(u8)` derive: any byte outside
the declared variants is a no-variant-match error). -/
def AkPathMode.read : M AkPathMode := do
  let p ← mtell
  let v ← readU8
  okOr (AkPathMode.fromRepr v) (.binrwNoVariantMatch p)

/-- Read an `AkMusicTrackType` byte (binrw `repr(u8)` derive). -/
def AkMusicTrackType.read : M AkMusicTrackType := do
  let p ← mtell
  let v ← readU8
  okOr (AkMusicTrackType.fromRepr v) (.binrwNoVariantMatch p)

def AkPathVertex.read : M AkPathVertex := do
  let vertex_x ← readU32
  let vertex_y ← readU32
  let vertex_z ← readU32
  let duration ← readU32
  pure ⟨vertex_x, vertex_y, vertex_z, duration⟩

def AkPathListItemOffset.read : M AkPathListItemOffset := do
  let vertices_offset ← readU32
  let num_vertices ← readU32
  pure ⟨vertices_offset, num_vertices⟩

def Ak3DAutomationParams.read : M Ak3DAutomationParams := do
  let x_range ← readU32
  let y_range ← readU32
  let z_range ← readU32
  pure ⟨x_range, y_range, z_range⟩

/-- `PositioningParams::read_options` (`common.rs`): the secondary
`bits_3d` byte is read only when bit 0 and bit 1 of `bits_positioning`
are both set; the automation block only when bits 5-6 are nonzero.
`has_dynamic` is the constant `false` in the modelled container version,
so `is_dynamic` is never read. -/
def PositioningParams.read_options : M PositioningParams := do
  let bits_positioning ← readU8
  -- bits_positioning & 0x1 != 0
  let has_positioning := bits_positioning % 2 != 0
  -- (bits_positioning >> 1) & 1 != 0
  let has_3d := bits_positioning / 2 % 2 != 0
  let bits_3d ← if has_positioning && has_3d then readU8 else pure 0
  -- (bits_positioning >> 5) & 3
  let e3d_position_type := bits_positioning / 32 % 4
  let has_automation := e3d_position_type != 0
  let is_dynamic := 0
  if has_automation then do
    let e_path_mode ← AkPathMode.read
    let transition_time ← readU32
    let num_vertices ← readU32
    let vertices ← mreplicate num_vertices AkPathVertex.read
    let num_play_list_items ← readU32
    let play_list_items ← mreplicate num_play_list_items AkPathListItemOffset.read
    let params ← mreplicate num_play_list_items Ak3DAutomationParams.read
    pure ⟨bits_positioning, bits_3d, is_dynamic, e_path_mode, transition_time,
          vertices, play_list_items, params⟩
  else
    pure ⟨bits_positioning, bits_3d, is_dynamic, .stepSequence, 0, [], [], []⟩

def NodeInitialFxParams.read : M NodeInitialFxParams := do
  let is_override_parent_fx ← readU8
  let num_fx ← readU8
  pure ⟨is_override_parent_fx, num_fx⟩

def AkPropBundleElem.read : M AkPropBundleElem := do
  let p_id ← readU8
  let p_value ← readU32
  pure ⟨p_id, p_value⟩

def AkPropBundle.read : M AkPropBundle := do
  let num_props ← readU8
  let props ← mreplicate num_props AkPropBundleElem.read
  pure ⟨num_props, props⟩

def NodeInitialParams.read : M NodeInitialParams := do
  let ak_prop_bundle1 ← AkPropBundle.read
  let ak_prop_bundle2 ← AkPropBundle.read
  pure ⟨ak_prop_bundle1, ak_prop_bundle2⟩

/-- `AuxParams` (binrw): `aux_ids` is read only when bit 3 of
`by_bit_vector` is set, otherwise it defaults to zeroes. -/
def AuxParams.read : M AuxParams := do
  let by_bit_vector ← readU8
  -- by_bit_vector & (1 << 3) != 0
  let aux_ids ← if by_bit_vector / 8 % 2 != 0 then mreplicate 4 readU32
                else pure [0, 0, 0, 0]
  let reflections_aux_bus ← readU32
  pure ⟨by_bit_vector, aux_ids, reflections_aux_bus⟩

def AdvSettingsParams.read : M AdvSettingsParams := do
  let by_bit_vector ← readU8
  let virtual_queue_behavior ← readU8
  let max_num_instance ← readU16
  let below_threshold_behavior ← readU8
  let by_bit_vector2 ← readU8
  pure ⟨by_bit_vector, virtual_queue_behavior, max_num_instance,
        below_threshold_behavior, by_bit_vector2⟩

def AkStatePropertyInfo.read : M AkStatePropertyInfo := do
  let property_id ← readU8
  let accum_type ← readU8
  let in_db ← readU8
  pure ⟨property_id, accum_type, in_db⟩

def AkState.read : M AkState := do
  let state_id ← readU32
  let state_instance_id ← readU32
  pure ⟨state_id, state_instance_id⟩

def AkStateGroupChunk.read : M AkStateGroupChunk := do
  let state_group_id ← readU32
  let state_sync_type ← readU8
  let num_states ← readU8
  let states ← mreplicate num_states AkState.read
  pure ⟨state_group_id, state_sync_type, num_states, states⟩

def StateChunk.read : M StateChunk := do
  let num_state_props ← readU8
  let state_props ← mreplicate num_state_props AkStatePropertyInfo.read
  let num_state_groups ← readU8
  let state_groups ← mreplicate num_state_groups AkStateGroupChunk.read
  pure ⟨num_state_props, state_props, num_state_groups, state_groups⟩

def AkRTPCGraphPoint.read : M AkRTPCGraphPoint := do
  let from_ ← readU32
  let to_ ← readU32
  let interp ← readU32
  pure ⟨from_, to_, interp⟩

def InitialRTPCCurve.read : M InitialRTPCCurve := do
  let rtpc_id ← readU32
  let rtpc_type ← readU8
  let rtpc_accum ← readU8
  let param_id ← readU8
  let rtpc_curve_id ← readU32
  let e_scaling ← readU8
  let size ← readU16
  let rtpc_mgr ← mreplicate size AkRTPCGraphPoint.read
  pure ⟨rtpc_id, rtpc_type, rtpc_accum, param_id, rtpc_curve_id, e_scaling,
        size, rtpc_mgr⟩

def InitialRTPC.read : M InitialRTPC := do
  let num_curves ← readU16
  let curves ← mreplicate num_curves InitialRTPCCurve.read
  pure ⟨num_curves, curves⟩

def NodeBaseParams.read : M NodeBaseParams := do
  let node_initial_fx_params ← NodeInitialFxParams.read
  let is_override_parent_metadata ← readU8
  let num_fx ← readU8
  let override_attachment_params ← readU8
  let override_bus_id ← readU32
  let direct_parent_id ← readU32
  let by_bit_vector ← readU8
  let node_initial_params ← NodeInitialParams.read
  let positioning_params ← PositioningParams.read_options
  let aux_params ← AuxParams.read
  let adv_settings_params ← AdvSettingsParams.read
  let state_chunk ← StateChunk.read
  let initial_rtpc ← InitialRTPC.read
  pure ⟨node_initial_fx_params, is_override_parent_metadata, num_fx,
        override_attachment_params, override_bus_id, direct_parent_id,
        by_bit_vector, node_initial_params, positioning_params, aux_params,
        adv_settings_params, state_chunk, initial_rtpc⟩

def Children.read : M Children := do
  let num_children ← readU32
  let children ← mreplicate num_children readU32
  pure ⟨num_children, children⟩

def AkMeterInfo.read : M AkMeterInfo := do
  let grid_period ← readU64
  let grid_offset ← readU64
  let tempo ← readU32
  let time_sig_num_beats_bar ← readU8
  let time_sig_beat_value ← readU8
  pure ⟨grid_period, grid_offset, tempo, time_sig_num_beats_bar,
        time_sig_beat_value⟩

def CAkStinger.read : M CAkStinger := do
  let trigger_id ← readU32
  let segment_id ← readU32
  let sync_play_at ← readU32
  let cue_filter_hash ← readU32
  let dont_repeat_time ← readU32
  let num_segment_look_ahead ← readU32
  pure ⟨trigger_id, segment_id, sync_play_at, cue_filter_hash,
        dont_repeat_time, num_segment_look_ahead⟩

def MusicNodeParams.read : M MusicNodeParams := do
  let flags ← readU8
  let node_base_params ← NodeBaseParams.read
  let children ← Children.read
  let ak_meter_info ← AkMeterInfo.read
  let meter_info_flag ← readU8
  let num_stingers ← readU32
  let stingers ← mreplicate num_stingers CAkStinger.read
  pure ⟨flags, node_base_params, children, ak_meter_info, meter_info_flag,
        num_stingers, stingers⟩

/-- `binrw::NullString`: bytes until (and consuming) a null terminator. -/
def readNullString : Nat → M (List Nat)
  | 0 => merr .outOfFuel
  | fuel + 1 => do
    let b ← readU8
    if b = 0 then pure []
    else do
      let rest ← readNullString fuel
      pure (b :: rest)

def AkMusicMarkerWwise.read (fuel : Nat) : M AkMusicMarkerWwise := do
  let id ← readU32
  let position ← readU64
  let marker_name ← readNullString fuel
  pure ⟨id, position, marker_name⟩

def MusicSegmentInitialValues.read (fuel : Nat) : M MusicSegmentInitialValues := do
  let music_node_params ← MusicNodeParams.read
  let duration ← readU64
  let num_markers ← readU32
  let markers ← mreplicate num_markers (AkMusicMarkerWwise.read fuel)
  pure ⟨music_node_params, duration, num_markers, markers⟩

/-- `HircMusicSegment::from_reader` (`music_segment.rs`): decode the
initial values, then require the bytes consumed to equal
`length - 4` on pain of `BadDataSize`. -/
def HircMusicSegment.from_reader (fuel length : Nat) : M HircMusicSegment := do
  let start_pos ← mtell
  let music_segment_initial_values ← MusicSegmentInitialValues.read fuel
  let end_pos ← mtell
  let read_size := end_pos - start_pos
  if read_size ≠ wsub 64 length 4 then
    merr (.badDataSize "MusicSegment" (wsub 64 length 4) read_size start_pos)
  else
    pure ⟨music_segment_initial_values⟩

def AkMediaInformation.read : M AkMediaInformation := do
  let source_id ← readU32
  let in_memory_media_size ← readU32
  let source_bits ← readU8
  pure ⟨source_id, in_memory_media_size, source_bits⟩

def AkBankSourceData.read : M AkBankSourceData := do
  let plugin_id ← readU32
  let stream_type ← readU8
  let media_information ← AkMediaInformation.read
  pure ⟨plugin_id, stream_type, media_information⟩

def AkTrackSrcInfo.read : M AkTrackSrcInfo := do
  let track_id ← readU32
  let source_id ← readU32
  let event_id ← readU32
  let play_at ← readU64
  let begin_trim_offset ← readU64
  let end_trim_offset ← readU64
  let src_duration ← readU64
  pure ⟨track_id, source_id, event_id, play_at, begin_trim_offset,
        end_trim_offset, src_duration⟩

def AkClipAutomation.read : M AkClipAutomation := do
  let clip_index ← readU32
  let auto_type ← readU32
  let graph_points_count ← readU32
  let graph_points ← mreplicate graph_points_count AkRTPCGraphPoint.read
  pure ⟨clip_index, auto_type, graph_points_count, graph_points⟩

def TrackSwitchAssoc.read : M TrackSwitchAssoc := do
  let switch_assoc ← readU32
  pure ⟨switch_assoc⟩

def SwitchParams.read : M SwitchParams := do
  let group_type ← readU8
  let group_id ← readU32
  let default_switch ← readU32
  let num_switch_assoc ← readU32
  let switch_assoc ← mreplicate num_switch_assoc TrackSwitchAssoc.read
  pure ⟨group_type, group_id, default_switch, num_switch_assoc, switch_assoc⟩

def FadeParams.read : M FadeParams := do
  let transition_time ← readU32
  let fade_curve ← readU32
  let fade_offset ← readU32
  pure ⟨transition_time, fade_curve, fade_offset⟩

def TransParams.read : M TransParams := do
  let src_fade_params ← FadeParams.read
  let sync_type ← readU32
  let cue_filter_hash ← readU32
  let dest_fade_params ← FadeParams.read
  pure ⟨src_fade_params, sync_type, cue_filter_hash, dest_fade_params⟩

/-- `MusicTrackInitialValues` (binrw, `music_track.rs`): `num_sub_track`
is read only when the playlist is non-empty; switch/transition parameter
blocks only when `track_type == Switch`. -/
def MusicTrackInitialValues.read : M MusicTrackInitialValues := do
  let flags ← readU8
  let num_sources ← readU32
  let sources ← mreplicate num_sources AkBankSourceData.read
  let num_playlist_items ← readU32
  let playlist ← mreplicate num_playlist_items AkTrackSrcInfo.read
  let num_sub_track ← if num_playlist_items > 0 then readU32 else pure 0
  let num_clip_automations ← readU32
  let clip_automations ← mreplicate num_clip_automations AkClipAutomation.read
  let node_base_params ← NodeBaseParams.read
  let track_type ← AkMusicTrackType.read
  let switch_params ←
    if track_type = AkMusicTrackType.switch then do
      let sp ← SwitchParams.read
      pure (some sp)
    else pure none
  let trans_params ←
    if track_type = AkMusicTrackType.switch then do
      let tp ← TransParams.read
      pure (some tp)
    else pure none
  let look_ahead_time ← readU32
  pure ⟨flags, num_sources, sources, num_playlist_items, playlist,
        num_sub_track, num_clip_automations, clip_automations,
        node_base_params, track_type, switch_params, trans_params,
        look_ahead_time⟩

/-- `HircMusicTrack::from_reader` (`music_track.rs`). -/
def HircMusicTrack.from_reader (length : Nat) : M HircMusicTrack := do
  let pos_start ← mtell
  let music_track_initial_values ← MusicTrackInitialValues.read
  let pos_end ← mtell
  let read_size := pos_end - pos_start
  if read_size ≠ wsub 64 length 4 then
    merr (.badDataSize "MusicTrackInitialValues" (wsub 64 length 4) read_size pos_start)
  else
    pure ⟨music_track_initial_values⟩

def AkMusicTransSrcRule.read : M AkMusicTransSrcRule := do
  let transition_time ← readU32
  let fade_curve ← readU32
  let fade_offset ← readU32
  let sync_type ← readU32
  let cue_filter_hash ← readU32
  let play_post_exit ← readU8
  pure ⟨transition_time, fade_curve, fade_offset, sync_type,
        cue_filter_hash, play_post_exit⟩

def AkMusicTransDstRule.read : M AkMusicTransDstRule := do
  let transition_time ← readU32
  let fade_curve ← readU32
  let fade_offset ← readU32
  let cue_filter_hash ← readU32
  let jump_to_id ← readU32
  let jump_to_type ← readU16
  let entry_type ← readU16
  let play_pre_entry ← readU8
  let dest_match_source_cue_name ← readU8
  pure ⟨transition_time, fade_curve, fade_offset, cue_filter_hash,
        jump_to_id, jump_to_type, entry_type, play_pre_entry,
        dest_match_source_cue_name⟩

def AkMusicTransitionRule.read : M AkMusicTransitionRule := do
  let num_src ← readU32
  let src_id ← readU32
  let num_dst ← readU32
  let dst_id ← readU32
  let src_rule ← AkMusicTransSrcRule.read
  let dst_rule ← AkMusicTransDstRule.read
  let alloc_trans_object_flag ← readU8
  pure ⟨num_src, src_id, num_dst, dst_id, src_rule, dst_rule,
        alloc_trans_object_flag⟩

def MusicTransNodeParams.read : M MusicTransNodeParams := do
  let music_node_params ← MusicNodeParams.read
  let num_rules ← readU32
  let rules ← mreplicate num_rules AkMusicTransitionRule.read
  pure ⟨music_node_params, num_rules, rules⟩

/-- `AkMusicRanSeqPlaylistItem` (binrw): scalar header, then
`num_children` children decoded inline, depth-first. -/
def AkMusicRanSeqPlaylistItem.read : Nat → M AkMusicRanSeqPlaylistItem
  | 0 => merr .outOfFuel
  | fuel + 1 => do
    let segment_id ← readU32
    let play_list_item_id ← readU32
    let num_children ← readU32
    let rs_type ← readU32
    let loop_ ← readU16
    let loop_min ← readU16
    let loop_max ← readU16
    let weight ← readU32
    let avoid_repeat_count ← readU16
    let is_using_weight ← readU8
    let is_shuffle ← readU8
    let play_list ← mreplicate num_children (AkMusicRanSeqPlaylistItem.read fuel)
    pure (.mk segment_id play_list_item_id num_children rs_type loop_
        loop_min loop_max weight avoid_repeat_count is_using_weight
        is_shuffle play_list)

/-- The playlist-forest loop of `MusicRanSecCntrInitialValues::read_options`
(`music_ran_sec_cntr.rs`, lines 88-105): decode one top-level subtree,
compute `num = get_num_recursive(item)` for that subtree alone, and
compare `num` with the stored `num_play_list_items`: less - keep reading,
equal - stop, greater - assertion failure. -/
def readPlaylistItems (num_play_list_items : Nat) :
    Nat → List AkMusicRanSeqPlaylistItem → M (List AkMusicRanSeqPlaylistItem)
  | 0, _ => merr .outOfFuel
  | fuel + 1, acc => do
    let play_list_item ← AkMusicRanSeqPlaylistItem.read (fuel + 1)
    let num := get_num_recursive play_list_item
    let acc' := acc ++ [play_list_item]
    if num < num_play_list_items then
      readPlaylistItems num_play_list_items fuel acc'
    else if num = num_play_list_items then
      pure acc'
    else do
      let p ← mtell
      merr (.binrwAssertFail p " num_play_list_items is larger than expected")

/-- `MusicRanSecCntrInitialValues::read_options`. -/
def MusicRanSecCntrInitialValues.read_options (fuel : Nat) :
    M MusicRanSecCntrInitialValues := do
  let music_trans_node_params ← MusicTransNodeParams.read
  let num_play_list_items ← readU32
  let play_list_items ← readPlaylistItems num_play_list_items fuel []
  pure ⟨music_trans_node_params, num_play_list_items, play_list_items⟩

/-- `HircMusicRanSecCntr::from_reader` (`music_ran_sec_cntr.rs`). -/
def HircMusicRanSecCntr.from_reader (fuel length : Nat) : M HircMusicRanSecCntr := do
  let pos_start ← mtell
  let music_ran_sec_cntr_initial_values ← MusicRanSecCntrInitialValues.read_options fuel
  let pos_end ← mtell
  let read_size := pos_end - pos_start
  if read_size ≠ wsub 64 length 4 then
    merr (.badDataSize "MusicRanSecCntrInitialValues" (wsub 64 length 4) read_size pos_start)
  else
    pure ⟨music_ran_sec_cntr_initial_values⟩

/-- `HircUnmanagedEntry::from_reader` (`hirc.rs`): read exactly
`data_length - 4` opaque bytes. -/
def HircUnmanagedEntry.from_reader (data_length : Nat) : M HircUnmanagedEntry := do
  let data ← readBytes (wsub 64 data_length 4)
  pure ⟨data⟩

/-- `HircSound` (binrw derive with `data_length` import): fixed 27-byte
header (including the `sound_type` enum byte at offset 17) followed by
`data_length - 31` opaque bytes (`u32` arithmetic). -/
def HircSound.read_args (data_length : Nat) : M HircSound := do
  let _unk1 ← readU32
  let _unk2 ← readU8
  let state ← readU32
  let audio_id ← readU32
  let source_id ← readU32
  let stpos ← mtell
  let stv ← readU8
  let sound_type ← okOr (HircSoundType.fromRepr stv) (.binrwNoVariantMatch stpos)
  let _unk3 ← readU32
  let _unk4 ← readU8
  let game_object_id ← readU32
  let data ← readBytes (wsub 32 data_length 31)
  pure ⟨_unk1, _unk2, state, audio_id, source_id, sound_type, _unk3, _unk4,
        game_object_id, data⟩

/-- The `EventAction` arm of `HircEntry::from_reader` (`hirc.rs`,
lines 62-101). -/
def HircEventAction.from_reader (length : Nat) : M HircEventAction := do
  let scope_v ← readU8
  let p ← mtell
  let scope ← okOr (HircEventActionScope.fromRepr scope_v) (.unknownEventActionScope p scope_v)
  let action_type_v ← readU8
  let action_type := HircEventActionType.fromRepr action_type_v
  let game_object_id ← readU32
  let _unk1 ← readU8
  let parameter_count ← readU8
  let parameter_types ← mreplicate parameter_count (do
    let v ← readU8
    pure (HircEventActionParameterType.fromRepr v))
  let parameters ← readBytes parameter_count
  let _unk2 ← readU8
  let data ← readBytes (wsub 64 (wsub 64 length 13) (parameter_count * 2))
  pure ⟨scope, action_type, game_object_id, _unk1, parameter_count,
        parameter_types, parameters, _unk2, data⟩

/-- `HircEntry::from_reader` (`hirc.rs`): length and id, then the
kind-dispatched payload. -/
def HircEntry.from_reader (fuel : Nat) (entry_type : HircEntryType) : M HircEntry := do
  let length ← readU32
  let id ← readU32
  let payload ←
    match entry_type with
    | .settings => do
      let e ← HircUnmanagedEntry.from_reader length
      pure (HircEntryPayload.settings e)
    | .sound => do
      let s ← HircSound.read_args length
      pure (HircEntryPayload.sound s)
    | .eventAction => do
      let a ← HircEventAction.from_reader length
      pure (HircEntryPayload.eventAction a)
    | .event => do
      let action_count ← readU8
      let action_ids ← mreplicate action_count readU32
      pure (HircEntryPayload.event action_ids)
    | .randomOrSequenceContainer => do
      let e ← HircUnmanagedEntry.from_reader length
      pure (HircEntryPayload.randomOrSequenceContainer e)
    | .switchContainer => do
      let e ← HircUnmanagedEntry.from_reader length
      pure (HircEntryPayload.switchContainer e)
    | .actorMixer => do
      let e ← HircUnmanagedEntry.from_reader length
      pure (HircEntryPayload.actorMixer e)
    | .audioBus => do
      let e ← HircUnmanagedEntry.from_reader length
      pure (HircEntryPayload.audioBus e)
    | .blendContainer => do
      let e ← HircUnmanagedEntry.from_reader length
      pure (HircEntryPayload.blendContainer e)
    | .musicSegment => do
      let v ← HircMusicSegment.from_reader fuel length
      pure (HircEntryPayload.musicSegment v)
    | .musicTrack => do
      let v ← HircMusicTrack.from_reader length
      pure (HircEntryPayload.musicTrack v)
    | .musicSwitchContainer => do
      let e ← HircUnmanagedEntry.from_reader length
      pure (HircEntryPayload.musicSwitchContainer e)
    | .musicRanSeqCntr => do
      let v ← HircMusicRanSecCntr.from_reader fuel length
      pure (HircEntryPayload.musicRanSeqCntr v)
    | .attenuation => do
      let e ← HircUnmanagedEntry.from_reader length
      pure (HircEntryPayload.attenuation e)
    | .dialogueEvent => do
      let e ← HircUnmanagedEntry.from_reader length
      pure (HircEntryPayload.dialogueEvent e)
    | .motionBus => do
      let e ← HircUnmanagedEntry.from_reader length
      pure (HircEntryPayload.motionBus e)
    | .motionFx => do
      let e ← HircUnmanagedEntry.from_reader length
      pure (HircEntryPayload.motionFx e)
    | .effect => do
      let e ← HircUnmanagedEntry.from_reader length
      pure (HircEntryPayload.effect e)
    | .auxiliaryBus => do
      let e ← HircUnmanagedEntry.from_reader length
      pure (HircEntryPayload.auxiliaryBus e)
    | .unknown _ => do
      let e ← HircUnmanagedEntry.from_reader length
      pure (HircEntryPayload.unknown e)
  pure ⟨entry_type, length, id, payload⟩

/-- The entry loop of the HIRC section decoder: read a kind byte (falling
back to `Unknown` for unrecognised tags), then the entry. -/
def readHircEntries (fuel : Nat) : Nat → M (List HircEntry)
  | 0 => pure []
  | n + 1 => do
    let entry_type_v ← readU8
    let entry_type := (HircEntryType.fromRepr entry_type_v).getD (.unknown entry_type_v)
    let e ← HircEntry.from_reader fuel entry_type
    let rest ← readHircEntries fuel n
    pure (e :: rest)

def DidxEntry.read : M DidxEntry := do
  let id ← readU32
  let offset ← readU32
  let length ← readU32
  pure ⟨id, offset, length⟩

/-- `Section::from_reader` (`mod.rs`): called for every magic except
`DATA` (which `Bnk::from_reader` handles separately; reaching the `DATA`
arm here is the `unreachable!` panic). -/
def Section.from_reader (fuel : Nat) (magic : List Nat) : M Section := do
  let section_length ← readU32
  if magic = [66, 75, 72, 68] then do -- BKHD
    let version ← readU32
    let id ← readU32
    let unknown ← readBytes (wsub 64 section_length 8)
    pure ⟨magic, section_length, .bkhd version id unknown⟩
  else if magic = [68, 73, 68, 88] then do -- DIDX
    let entry_count := section_length / 12
    let entries ← mreplicate entry_count DidxEntry.read
    pure ⟨magic, section_length, .didx entries⟩
  else if magic = [72, 73, 82, 67] then do -- HIRC
    let count ← readU32
    let entries ← readHircEntries fuel count
    pure ⟨magic, section_length, .hirc entries⟩
  else if magic = [68, 65, 84, 65] then -- DATA
    merr .panicUnreachable
  else do
    let data ← readBytes section_length
    pure ⟨magic, section_length, .unk data⟩

/-- `find_map` over the sections decoded so far, mirroring the search for
the first `Didx` payload in the `DATA` arm of `Bnk::from_reader`. -/
def firstDidxEntries? (sections : List Section) : Option (List DidxEntry) :=
  sections.findSome? fun sec =>
    match sec.payload with
    | .didx entries => some entries
    | _ => none

/-- The per-entry blob reads of the `DATA` arm: seek to
`data_start_pos + entry.offset` and read `entry.length` bytes. -/
def readDataBlobs (data_start_pos : Nat) : List DidxEntry → M (List (List Nat))
  | [] => pure []
  | entry :: rest => do
    mseek (data_start_pos + entry.offset)
    let d ← readBytes entry.length
    let ds ← readDataBlobs data_start_pos rest
    pure (d :: ds)

/-- The `DATA` arm of `Bnk::from_reader` (`mod.rs`, lines 60-85): read
the section length, look up the first previously decoded `DIDX` section
(failing with `MissingDidx` if there is none), read every blob at its
entry's offset, then seek past the whole section. -/
def parse_data_section (sections : List Section) : M Section := do
  let total_length ← readU32
  match firstDidxEntries? sections with
  | none => merr .missingDidx
  | some didx_entries => do
    let data_start_pos ← mtell
    let data_list ← readDataBlobs data_start_pos didx_entries
    mseek (data_start_pos + total_length)
    pure ⟨[68, 65, 84, 65], total_length, .data data_list⟩

/-- The section loop of `Bnk::from_reader`: read a 4-byte magic; if the
read fails (only possible with end-of-stream on an in-memory cursor, the
`UnexpectedEof` the Rust code breaks on) terminate successfully with the
sections decoded so far.  `F` is the fuel handed to the inner decoders. -/
def Bnk.parse_sections (F : Nat) : Nat → List Section → M (List Section)
  | 0, _ => merr .outOfFuel
  | fuel + 1, sections => fun rd =>
    match readBytes 4 rd with
    | .error _ => .ok (sections, rd)
    | .ok (magic, rd₁) =>
      (do
        let sec ←
          if magic = [68, 65, 84, 65] then parse_data_section sections
          else Section.from_reader F magic
        Bnk.parse_sections F fuel (sections ++ [sec])) rd₁

/-- `Bnk::from_reader`. -/
def Bnk.from_reader (rd : Rd) : Except BnkErr Bnk :=
  match Bnk.parse_sections (rd.data.length + 1) (rd.data.length + 1) [] rd with
  | .ok (sections, _) => .ok ⟨sections⟩
  | .error e => .error e

/-! ### Encoders.  The payload-level writers of the Rust code only ever
append bytes (they never seek), so they are embedded as pure byte-list
serialisers; the entry- and section-level writers, which implement the
two-pass length-patching protocol with seeks, run in the writer monad.
`u8` fields are truncated to a byte and counted fields emit their stored
count field followed by the whole stored list, exactly as the binrw
derives do. -/

def AkPathVertex.write (v : AkPathVertex) : List Nat :=
  natLE 4 v.vertex_x ++ natLE 4 v.vertex_y ++ natLE 4 v.vertex_z ++
    natLE 4 v.duration

def AkPathListItemOffset.write (v : AkPathListItemOffset) : List Nat :=
  natLE 4 v.vertices_offset ++ natLE 4 v.num_vertices

def Ak3DAutomationParams.write (v : Ak3DAutomationParams) : List Nat :=
  natLE 4 v.x_range ++ natLE 4 v.y_range ++ natLE 4 v.z_range

/-- `PositioningParams::write_options` (`common.rs`): the `bits_3d` byte
is emitted whenever bit 0 of `bits_positioning` is set (the decoder also
requires bit 1); the automation block is gated by bits 5-6 as on read,
with the vertex and playlist counts recomputed from the stored lists. -/
def PositioningParams.write_options (p : PositioningParams) : List Nat :=
  [p.bits_positioning % 256] ++
  (if p.bits_positioning % 2 != 0 then [p.bits_3d % 256] else []) ++
  (if p.bits_positioning / 32 % 4 != 0 then
    [p.e_path_mode.toNat % 256] ++ natLE 4 p.transition_time ++
      natLE 4 p.vertices.length ++ (p.vertices.map AkPathVertex.write).flatten ++
      natLE 4 p.play_list_items.length ++
      (p.play_list_items.map AkPathListItemOffset.write).flatten ++
      (p.params.map Ak3DAutomationParams.write).flatten
  else [])

def NodeInitialFxParams.write (v : NodeInitialFxParams) : List Nat :=
  [v.is_override_parent_fx % 256, v.num_fx % 256]

def AkPropBundleElem.write (v : AkPropBundleElem) : List Nat :=
  [v.p_id % 256] ++ natLE 4 v.p_value

def AkPropBundle.write (v : AkPropBundle) : List Nat :=
  [v.num_props % 256] ++ (v.props.map AkPropBundleElem.write).flatten

def NodeInitialParams.write (v : NodeInitialParams) : List Nat :=
  v.ak_prop_bundle1.write ++ v.ak_prop_bundle2.write

def AuxParams.write (v : AuxParams) : List Nat :=
  [v.by_bit_vector % 256] ++
  (if v.by_bit_vector / 8 % 2 != 0 then (v.aux_ids.map (natLE 4)).flatten
   else []) ++
  natLE 4 v.reflections_aux_bus

def AdvSettingsParams.write (v : AdvSettingsParams) : List Nat :=
  [v.by_bit_vector % 256, v.virtual_queue_behavior % 256] ++
    natLE 2 v.max_num_instance ++
    [v.below_threshold_behavior % 256, v.by_bit_vector2 % 256]

def AkStatePropertyInfo.write (v : AkStatePropertyInfo) : List Nat :=
  [v.property_id % 256, v.accum_type % 256, v.in_db % 256]

def AkState.write (v : AkState) : List Nat :=
  natLE 4 v.state_id ++ natLE 4 v.state_instance_id

def AkStateGroupChunk.write (v : AkStateGroupChunk) : List Nat :=
  natLE 4 v.state_group_id ++ [v.state_sync_type % 256, v.num_states % 256] ++
    (v.states.map AkState.write).flatten

def StateChunk.write (v : StateChunk) : List Nat :=
  [v.num_state_props % 256] ++ (v.state_props.map AkStatePropertyInfo.write).flatten ++
    [v.num_state_groups % 256] ++ (v.state_groups.map AkStateGroupChunk.write).flatten

def AkRTPCGraphPoint.write (v : AkRTPCGraphPoint) : List Nat :=
  natLE 4 v.from_ ++ natLE 4 v.to_ ++ natLE 4 v.interp

def InitialRTPCCurve.write (v : InitialRTPCCurve) : List Nat :=
  natLE 4 v.rtpc_id ++ [v.rtpc_type % 256, v.rtpc_accum % 256, v.param_id % 256] ++
    natLE 4 v.rtpc_curve_id ++ [v.e_scaling % 256] ++ natLE 2 v.size ++
    (v.rtpc_mgr.map AkRTPCGraphPoint.write).flatten

def InitialRTPC.write (v : InitialRTPC) : List Nat :=
  natLE 2 v.num_curves ++ (v.curves.map InitialRTPCCurve.write).flatten

def NodeBaseParams.write (v : NodeBaseParams) : List Nat :=
  v.node_initial_fx_params.write ++
    [v.is_override_parent_metadata % 256, v.num_fx % 256,
     v.override_attachment_params % 256] ++
    natLE 4 v.override_bus_id ++ natLE 4 v.direct_parent_id ++
    [v.by_bit_vector % 256] ++ v.node_initial_params.write ++
    v.positioning_params.write_options ++ v.aux_params.write ++
    v.adv_settings_params.write ++ v.state_chunk.write ++ v.initial_rtpc.write

def Children.write (v : Children) : List Nat :=
  natLE 4 v.num_children ++ (v.children.map (natLE 4)).flatten

def AkMeterInfo.write (v : AkMeterInfo) : List Nat :=
  natLE 8 v.grid_period ++ natLE 8 v.grid_offset ++ natLE 4 v.tempo ++
    [v.time_sig_num_beats_bar % 256, v.time_sig_beat_value % 256]

def CAkStinger.write (v : CAkStinger) : List Nat :=
  natLE 4 v.trigger_id ++ natLE 4 v.segment_id ++ natLE 4 v.sync_play_at ++
    natLE 4 v.cue_filter_hash ++ natLE 4 v.dont_repeat_time ++
    natLE 4 v.num_segment_look_ahead

def MusicNodeParams.write (v : MusicNodeParams) : List Nat :=
  [v.flags % 256] ++ v.node_base_params.write ++ v.children.write ++
    v.ak_meter_info.write ++ [v.meter_info_flag % 256] ++
    natLE 4 v.num_stingers ++ (v.stingers.map CAkStinger.write).flatten

def AkMusicMarkerWwise.write (v : AkMusicMarkerWwise) : List Nat :=
  natLE 4 v.id ++ natLE 8 v.position ++ v.marker_name.map (· % 256) ++ [0]

def MusicSegmentInitialValues.write (v : MusicSegmentInitialValues) : List Nat :=
  v.music_node_params.write ++ natLE 8 v.duration ++ natLE 4 v.num_markers ++
    (v.markers.map AkMusicMarkerWwise.write).flatten

def HircMusicSegment.write_to (v : HircMusicSegment) : List Nat :=
  v.music_segment_initial_values.write

def AkMediaInformation.write (v : AkMediaInformation) : List Nat :=
  natLE 4 v.source_id ++ natLE 4 v.in_memory_media_size ++ [v.source_bits % 256]

def AkBankSourceData.write (v : AkBankSourceData) : List Nat :=
  natLE 4 v.plugin_id ++ [v.stream_type % 256] ++ v.media_information.write

def AkTrackSrcInfo.write (v : AkTrackSrcInfo) : List Nat :=
  natLE 4 v.track_id ++ natLE 4 v.source_id ++ natLE 4 v.event_id ++
    natLE 8 v.play_at ++ natLE 8 v.begin_trim_offset ++
    natLE 8 v.end_trim_offset ++ natLE 8 v.src_duration

def AkClipAutomation.write (v : AkClipAutomation) : List Nat :=
  natLE 4 v.clip_index ++ natLE 4 v.auto_type ++ natLE 4 v.graph_points_count ++
    (v.graph_points.map AkRTPCGraphPoint.write).flatten

def TrackSwitchAssoc.write (v : TrackSwitchAssoc) : List Nat :=
  natLE 4 v.switch_assoc

def SwitchParams.write (v : SwitchParams) : List Nat :=
  [v.group_type % 256] ++ natLE 4 v.group_id ++ natLE 4 v.default_switch ++
    natLE 4 v.num_switch_assoc ++ (v.switch_assoc.map TrackSwitchAssoc.write).flatten

def FadeParams.write (v : FadeParams) : List Nat :=
  natLE 4 v.transition_time ++ natLE 4 v.fade_curve ++ natLE 4 v.fade_offset

def TransParams.write (v : TransParams) : List Nat :=
  v.src_fade_params.write ++ natLE 4 v.sync_type ++ natLE 4 v.cue_filter_hash ++
    v.dest_fade_params.write

def MusicTrackInitialValues.write (v : MusicTrackInitialValues) : List Nat :=
  [v.flags % 256] ++ natLE 4 v.num_sources ++
    (v.sources.map AkBankSourceData.write).flatten ++
    natLE 4 v.num_playlist_items ++ (v.playlist.map AkTrackSrcInfo.write).flatten ++
    (if v.num_playlist_items > 0 then natLE 4 v.num_sub_track else []) ++
    natLE 4 v.num_clip_automations ++
    (v.clip_automations.map AkClipAutomation.write).flatten ++
    v.node_base_params.write ++ [v.track_type.toNat % 256] ++
    (if v.track_type = AkMusicTrackType.switch then
      (match v.switch_params with
       | some sp => sp.write
       | none => [])
    else []) ++
    (if v.track_type = AkMusicTrackType.switch then
      (match v.trans_params with
       | some tp => tp.write
       | none => [])
    else []) ++
    natLE 4 v.look_ahead_time

def HircMusicTrack.write_to (v : HircMusicTrack) : List Nat :=
  v.music_track_initial_values.write

def AkMusicTransSrcRule.write (v : AkMusicTransSrcRule) : List Nat :=
  natLE 4 v.transition_time ++ natLE 4 v.fade_curve ++ natLE 4 v.fade_offset ++
    natLE 4 v.sync_type ++ natLE 4 v.cue_filter_hash ++ [v.play_post_exit % 256]

def AkMusicTransDstRule.write (v : AkMusicTransDstRule) : List Nat :=
  natLE 4 v.transition_time ++ natLE 4 v.fade_curve ++ natLE 4 v.fade_offset ++
    natLE 4 v.cue_filter_hash ++ natLE 4 v.jump_to_id ++ natLE 2 v.jump_to_type ++
    natLE 2 v.entry_type ++ [v.play_pre_entry % 256,
    v.dest_match_source_cue_name % 256]

def AkMusicTransitionRule.write (v : AkMusicTransitionRule) : List Nat :=
  natLE 4 v.num_src ++ natLE 4 v.src_id ++ natLE 4 v.num_dst ++
    natLE 4 v.dst_id ++ v.src_rule.write ++ v.dst_rule.write ++
    [v.alloc_trans_object_flag % 256]

def MusicTransNodeParams.write (v : MusicTransNodeParams) : List Nat :=
  v.music_node_params.write ++ natLE 4 v.num_rules ++
    (v.rules.map AkMusicTransitionRule.write).flatten

mutual

def AkMusicRanSeqPlaylistItem.write : AkMusicRanSeqPlaylistItem → List Nat
  | .mk segment_id play_list_item_id num_children rs_type loop_ loop_min
      loop_max weight avoid_repeat_count is_using_weight is_shuffle play_list =>
    natLE 4 segment_id ++ natLE 4 play_list_item_id ++ natLE 4 num_children ++
      natLE 4 rs_type ++ natLE 2 loop_ ++ natLE 2 loop_min ++ natLE 2 loop_max ++
      natLE 4 weight ++ natLE 2 avoid_repeat_count ++
      [is_using_weight % 256, is_shuffle % 256] ++
      AkMusicRanSeqPlaylistItem.write_list play_list

def AkMusicRanSeqPlaylistItem.write_list : List AkMusicRanSeqPlaylistItem → List Nat
  | [] => []
  | p :: ps => AkMusicRanSeqPlaylistItem.write p ++ AkMusicRanSeqPlaylistItem.write_list ps

end

def MusicRanSecCntrInitialValues.write_options (v : MusicRanSecCntrInitialValues) : List Nat :=
  v.music_trans_node_params.write ++ natLE 4 v.num_play_list_items ++
    (v.play_list_items.map AkMusicRanSeqPlaylistItem.write).flatten

def HircMusicRanSecCntr.write_to (v : HircMusicRanSecCntr) : List Nat :=
  v.music_ran_sec_cntr_initial_values.write_options

/-- `HircMusicRanSecCntr::fix_values` (`music_ran_sec_cntr.rs`): before
encoding, recompute `num_play_list_items` as the sum of
`get_num_recursive` over the top-level playlist items. -/
def HircMusicRanSecCntr.fix_values (v : HircMusicRanSecCntr) : HircMusicRanSecCntr :=
  let num_play_list_items :=
    (v.music_ran_sec_cntr_initial_values.play_list_items.map get_num_recursive).sum
  ⟨{ v.music_ran_sec_cntr_initial_values with
      num_play_list_items := num_play_list_items }⟩

def HircUnmanagedEntry.write_to (v : HircUnmanagedEntry) : List Nat :=
  v.data.map (· % 256)

def HircSound.write (v : HircSound) : List Nat :=
  natLE 4 v._unk1 ++ [v._unk2 % 256] ++ natLE 4 v.state ++ natLE 4 v.audio_id ++
    natLE 4 v.source_id ++ [v.sound_type.toNat % 256] ++ natLE 4 v._unk3 ++
    [v._unk4 % 256] ++ natLE 4 v.game_object_id ++ v.data.map (· % 256)

/-- The `EventAction` arm of `HircEntry::write_to`. -/
def HircEventAction.write (v : HircEventAction) : List Nat :=
  [v.scope.toNat % 256, v.action_type.as_u8 % 256] ++
    natLE 4 v.game_object_id ++ [v._unk1 % 256, v.parameter_count % 256] ++
    v.parameter_types.map (fun t => t.as_u8 % 256) ++
    v.parameters.map (· % 256) ++ [v._unk2 % 256] ++ v.data.map (· % 256)

/-- `HircEntryPayload::fix_values` (`hirc.rs`): only the
`MusicRanSeqCntr` payload has a non-trivial normalisation. -/
def HircEntryPayload.fix_values : HircEntryPayload → HircEntryPayload
  | .musicRanSeqCntr v => .musicRanSeqCntr v.fix_values
  | p => p

/-- The payload dispatch of `HircEntry::write_to`. -/
def HircEntryPayload.write : HircEntryPayload → List Nat
  | .settings e => e.write_to
  | .sound s => s.write
  | .eventAction a => a.write
  | .event action_ids => [action_ids.length % 256] ++ (action_ids.map (natLE 4)).flatten
  | .randomOrSequenceContainer e => e.write_to
  | .switchContainer e => e.write_to
  | .actorMixer e => e.write_to
  | .audioBus e => e.write_to
  | .blendContainer e => e.write_to
  | .musicSegment v => v.write_to
  | .musicTrack v => v.write_to
  | .musicSwitchContainer e => e.write_to
  | .musicRanSeqCntr v => v.write_to
  | .attenuation e => e.write_to
  | .dialogueEvent e => e.write_to
  | .motionBus e => e.write_to
  | .motionFx e => e.write_to
  | .effect e => e.write_to
  | .auxiliaryBus e => e.write_to
  | .unknown e => e.write_to

/-- `HircEntry::write_to` (`hirc.rs`): kind byte, placeholder length, id,
payload (after its `fix_values`), then seek back and patch the measured
length.  Returns the entry as left in memory by the `&mut self` call. -/
def HircEntry.write_to (e : HircEntry) : W HircEntry := do
  wU8 e.entry_type.as_u8
  wU32 0
  let start_pos ← wtell
  wU32 e.id
  let payload := e.payload.fix_values
  wbytes payload.write
  let end_pos ← wtell
  let length := end_pos - start_pos
  wseek (start_pos - 4)
  wU32 length
  wseek end_pos
  pure { e with payload := payload }

def DidxEntry.write (e : DidxEntry) : List Nat :=
  natLE 4 e.id ++ natLE 4 e.offset ++ natLE 4 e.length

/-- The `DATA` arm of `Bnk::write_to`: blob `i` is written at
`data_start_pos + didx_entries[i].offset` (an out-of-range index is a
Rust panic). -/
def writeDataBlobs (data_start_pos : Nat) (didx_entries : List DidxEntry) :
    Nat → List (List Nat) → W Unit
  | _, [] => pure ()
  | i, d :: ds => do
    match didx_entries.get? i with
    | none => werr .indexOob
    | some entry => do
      wseek (data_start_pos + entry.offset)
      wbytes (d.map (· % 256))
      writeDataBlobs data_start_pos didx_entries (i + 1) ds

def writeHircEntries : List HircEntry → W (List HircEntry)
  | [] => pure []
  | e :: es => do
    let e' ← HircEntry.write_to e
    let es' ← writeHircEntries es
    pure (e' :: es')

/-- One iteration of the section loop of `Bnk::write_to`: magic,
placeholder length, the payload arm (threading the most recently written
`DIDX` entry list for a later `DATA` section), then the length patch. -/
def Bnk.write_section (didx : Option (List DidxEntry)) (s : Section) :
    W (Section × Option (List DidxEntry)) := do
  wbytes (s.magic.map (· % 256))
  wU32 0
  let start_pos ← wtell
  let (payload', didx') ←
    match s.payload with
    | .bkhd version id unknown => do
      wU32 version
      wU32 id
      wbytes (unknown.map (· % 256))
      pure (SectionPayload.bkhd version id unknown, didx)
    | .didx entries => do
      wbytes ((entries.map DidxEntry.write).flatten)
      pure (SectionPayload.didx entries, some entries)
    | .hirc entries => do
      wU32 entries.length
      let entries' ← writeHircEntries entries
      pure (SectionPayload.hirc entries', didx)
    | .data data_list => do
      match didx with
      | none => werr .missingDidx
      | some didx_entries => do
        let data_start_pos ← wtell
        writeDataBlobs data_start_pos didx_entries 0 data_list
        pure (SectionPayload.data data_list, didx)
    | .unk d => do
      wbytes (d.map (· % 256))
      pure (SectionPayload.unk d, didx)
  let end_pos ← wtell
  let length := end_pos - start_pos
  wseek (start_pos - 4)
  wU32 length
  wseek end_pos
  pure ({ s with payload := payload' }, didx')

def Bnk.write_sections : Option (List DidxEntry) → List Section → W (List Section)
  | _, [] => pure []
  | didx, s :: rest => do
    let (s', didx') ← Bnk.write_section didx s
    let rest' ← Bnk.write_sections didx' rest
    pure (s' :: rest')

/-- The last `Didx` entry list among the sections, mirroring the
`for`-loop of `Bnk::fix_values` which overwrites its candidate on every
match. -/
def lastDidxEntries? (sections : List Section) : Option (List DidxEntry) :=
  sections.foldl (fun acc s =>
    match s.payload with
    | .didx entries => some entries
    | _ => acc) none

/-- The last `Data` blob list among the sections (`Bnk::fix_values`). -/
def lastDataList? (sections : List Section) : Option (List (List Nat)) :=
  sections.foldl (fun acc s =>
    match s.payload with
    | .data data_list => some data_list
    | _ => acc) none

/-- The zip loop of `Bnk::fix_values`: every entry's `length` becomes the
paired blob's byte length (`as u32`), every `offset` the running sum of
the recomputed lengths (`u32` wrapping addition). -/
def fixEntries : List DidxEntry → List (List Nat) → Nat → List DidxEntry
  | e :: es, d :: ds, current_offset =>
    { id := e.id, offset := current_offset, length := d.length % 2 ^ 32 } ::
      fixEntries es ds ((current_offset + d.length % 2 ^ 32) % 2 ^ 32)
  | _, _, _ => []

/-- Replace the entry list of the first `Didx` section. -/
def replaceFirstDidx : List Section → List DidxEntry → List Section
  | [], _ => []
  | s :: rest, entries' =>
    match s.payload with
    | .didx _ => { s with payload := .didx entries' } :: rest
    | _ => s :: replaceFirstDidx rest entries'

/-- Replace the entry list of the last `Didx` section (the one the
mutable borrow in `Bnk::fix_values` ends up pointing at). -/
def replaceLastDidx (sections : List Section) (entries' : List DidxEntry) : List Section :=
  (replaceFirstDidx sections.reverse entries').reverse

/-- `Bnk::fix_values` (`mod.rs`): if both a `DIDX` and a `DATA` section
exist, require equal counts (else `BadDataSize`) and recompute every
index entry from the blobs; otherwise leave the bank unchanged. -/
def Bnk.fix_values (b : Bnk) : Except BnkErr Bnk :=
  match lastDidxEntries? b.sections, lastDataList? b.sections with
  | some didx_entries, some data_list =>
    if didx_entries.length ≠ data_list.length then
      .error (.badDataSize "DIDX entries" data_list.length didx_entries.length 0)
    else
      .ok ⟨replaceLastDidx b.sections (fixEntries didx_entries data_list 0)⟩
  | _, _ => .ok b

/-- `Bnk::write_to` (`mod.rs`): run `fix_values`, then write every
section in order.  Returns the bank as left in memory by the `&mut self`
call together with the final writer state. -/
def Bnk.write_to (b : Bnk) : W Bnk := do
  let b₁ ← wliftE b.fix_values
  let sections' ← Bnk.write_sections none b₁.sections
  pure ⟨sections'⟩

/-! ### Auxiliary definitions used by the statements below -/

/-- The slice of `l` from index `i` (inclusive) to `j` (exclusive). -/
def listSlice (l : List Nat) (i j : Nat) : List Nat := (l.drop i).take (j - i)

/-- Whether an error is a `BadDataSize`. -/
def BnkErr.isBadDataSize : BnkErr → Bool
  | .badDataSize _ _ _ _ => true
  | _ => false

/-- Whether an error is the (never constructed) `UnknownSoundType`. -/
def BnkErr.isUnknownSoundTypeErr : BnkErr → Bool
  | .unknownSoundType _ _ => true
  | _ => false

/-- The stored `length` fields of the HIRC entries of a section (empty
for non-HIRC sections). -/
def Section.hirc_lengths (s : Section) : List Nat :=
  match s.payload with
  | .hirc entries => entries.map (·.length)
  | _ => []

/-- Reachability between states of the section loop of
`Bnk::from_reader`: one step reads a magic and decodes one section. -/
inductive LoopReach (F : Nat) : List Section → Rd → List Section → Rd → Prop where
  | refl {acc rd} : LoopReach F acc rd acc rd
  | step {acc rd magic rd₁ sec rd₂ acc' rd'} :
      readBytes 4 rd = .ok (magic, rd₁) →
      (if magic = [68, 65, 84, 65] then parse_data_section acc
       else Section.from_reader F magic) rd₁ = .ok (sec, rd₂) →
      LoopReach F (acc ++ [sec]) rd₂ acc' rd' →
      LoopReach F acc rd acc' rd'

/-! Concrete inputs used by witnesses and counterexamples. -/

/-- A `MusicRanSecCntrInitialValues` payload whose 68-byte transition
block is all zeroes, whose stored total node count is 2, and which
carries exactly two childless top-level playlist items (30 zero bytes
each): per the specification the decode should stop successfully after
the second item. -/
def c2buf : List Nat := List.replicate 68 0 ++ [2, 0, 0, 0] ++ List.replicate 60 0

/-- The childless all-zero playlist item that `c2buf` encodes twice. -/
def c2item : AkMusicRanSeqPlaylistItem := .mk 0 0 0 0 0 0 0 0 0 0 0 []

/-- A `HircSound` body whose `sound_type` byte (offset 17) is 2. -/
def c5buf : List Nat := List.replicate 17 0 ++ [2] ++ List.replicate 17 0

/-- An `EventAction` body with `scope = 1`, `action_type = 4`,
`parameter_count = 2`, two parameter-type bytes, two parameter-value
bytes, the trailing unknown byte, and a 3-byte opaque tail, for declared
length `13 + 2*2 + 3 = 20`. -/
def c9buf : List Nat := [1, 4, 0, 0, 0, 0, 0, 2, 14, 15, 9, 9, 0, 7, 8, 9]

/-- The decoded payload of `c9buf`. -/
def c9action : HircEventAction :=
  ⟨.switchOrTrigger, .play, 0, 0, 2, [.delay, .paramPlay], [9, 9], 0, [7, 8, 9]⟩

/-- A minimal all-zero `MusicSegmentInitialValues` body: 64 bytes of
music-node params, an 8-byte duration and an empty marker list, 76 bytes
in total. -/
def segbuf : List Nat := List.replicate 76 0

/-- A minimal all-zero `MusicTrackInitialValues` body: no sources, empty
playlist (hence no `num_sub_track` on the wire), no clip automations,
32 bytes of node-base params, track type `Normal`, 50 bytes in total. -/
def trkbuf : List Nat := List.replicate 50 0

/-- A minimal `MusicRanSecCntrInitialValues` body: 68 zero bytes, total
node count 1, one childless item, 102 bytes in total. -/
def rscbuf : List Nat := List.replicate 68 0 ++ [1, 0, 0, 0] ++ List.replicate 30 0

/-- A 27-byte all-zero `HircSound` body (valid for declared length 31:
the data tail is empty). -/
def sndbuf : List Nat := List.replicate 27 0

/-- The `DIDX`+`DATA` bank of the specification scenario after the first
blob was shrunk: index entries still record lengths 10 and 20 at offsets
0 and 10, but the blobs now have 5 and 20 bytes. -/
def didxSec : Section := ⟨[68, 73, 68, 88], 24, .didx [⟨100, 0, 10⟩, ⟨200, 10, 20⟩]⟩

def dataSec : Section := ⟨[68, 65, 84, 65], 30, .data [List.replicate 5 1, List.replicate 20 2]⟩

def c6bank : Bnk := ⟨[didxSec, dataSec]⟩

/-- A bank holding a single unrecognised section whose stored
`section_length` (99) disagrees with its 2-byte payload. -/
def c10bank : Bnk := ⟨[⟨[88, 88, 88, 88], 99, .unk [1, 2]⟩]⟩

/-- A reader computation that can never fail with `MissingDidx`
(`BnkError::MissingDataIndex`), whatever the input. -/
def NoMD {α : Type} (x : M α) : Prop := ∀ rd, x rd ≠ .error .missingDidx

/-- A parser/serialiser pair that round-trips: on byte-valued input, a
successful parse leaves the data unchanged, moves forward, and the
serialiser reproduces exactly the consumed slice. -/
def RT {α : Type} (m : M α) (wf : α → List Nat) : Prop :=
  ∀ rd a rd', (∀ b ∈ rd.data, b < 256) → m rd = .ok (a, rd') →
    rd'.data = rd.data ∧ rd.pos ≤ rd'.pos ∧
    wf a = listSlice rd.data rd.pos rd'.pos

/-- A 51-byte automation-carrying `PositioningParams` buffer: flags
`0x23` (positioning, 3D and one automation bit), a `bits_3d` byte, path
mode 0, transition time 9, one vertex and one playlist item. -/
def c3buf : List Nat :=
  [35, 7, 0] ++ [9, 0, 0, 0] ++ [1, 0, 0, 0] ++ List.replicate 16 0 ++
    [1, 0, 0, 0] ++ List.replicate 8 0 ++ List.replicate 12 0

def c3params : PositioningParams :=
  ⟨35, 7, 0, .stepSequence, 9, [⟨0, 0, 0, 0⟩], [⟨0, 0⟩], [⟨0, 0, 0⟩]⟩

/-! ## Theorems

First, run lemmas for the two monads and the primitive actions. -/

theorem M.run_pure {α : Type} (a : α) (rd : Rd) : (pure a : M α) rd = .ok (a, rd) := rfl

theorem M.run_bind {α β : Type} (x : M α) (f : α → M β) (rd : Rd) :
    (x >>= f) rd =
      match x rd with
      | .ok (a, rd') => f a rd'
      | .error e => .error e := rfl

theorem M.bind_eq_ok {α β : Type} {x : M α} {f : α → M β} {rd : Rd} {r : β × Rd} :
    (x >>= f) rd = .ok r ↔ ∃ a rd', x rd = .ok (a, rd') ∧ f a rd' = .ok r := by
  rw [M.run_bind]
  cases h : x rd with
  | ok p =>
    obtain ⟨a, rd'⟩ := p
    simp only [h]
    constructor
    · intro hf
      exact ⟨a, rd', rfl, hf⟩
    · rintro ⟨a1, rd1, heq, hf⟩
      obtain ⟨rfl, rfl⟩ := Prod.mk.injEq .. ▸ Except.ok.inj heq
      exact hf
  | error e => simp [h]

theorem M.bind_eq_error {α β : Type} {x : M α} {f : α → M β} {rd : Rd} {e : BnkErr} :
    (x >>= f) rd = .error e ↔
      x rd = .error e ∨ ∃ a rd', x rd = .ok (a, rd') ∧ f a rd' = .error e := by
  rw [M.run_bind]
  cases h : x rd with
  | ok p =>
    obtain ⟨a, rd'⟩ := p
    simp only [h]
    constructor
    · intro hf
      exact Or.inr ⟨a, rd', rfl, hf⟩
    · rintro (hx | ⟨a1, rd1, heq, hf⟩)
      · exact absurd hx (by simp)
      · obtain ⟨rfl, rfl⟩ := Prod.mk.injEq .. ▸ Except.ok.inj heq
        exact hf
  | error e' => simp [h]

theorem readBytes_eq_ok {n : Nat} {rd : Rd} {bs : List Nat} {rd' : Rd} :
    readBytes n rd = .ok (bs, rd') ↔
      rd.pos + n ≤ rd.data.length ∧ bs = (rd.data.drop rd.pos).take n ∧
        rd' = ⟨rd.data, rd.pos + n⟩ := by
  unfold readBytes
  split
  · simp [eq_comm, and_assoc, *]
  · simp_all

theorem readBytes_eq_error {n : Nat} {rd : Rd} {e : BnkErr} :
    readBytes n rd = .error e ↔ rd.data.length < rd.pos + n ∧ e = .ioEof := by
  unfold readBytes
  split
  · simp; omega
  · simp; constructor
    · intro h; exact ⟨by omega, h.symm⟩
    · intro h; exact h.2.symm

theorem mtell_run (rd : Rd) : mtell rd = .ok (rd.pos, rd) := rfl

/-! Small-step evaluation of concrete decodes: one `bind` is discharged
at a time, so intermediate reader states stay in normal form. -/

theorem bind_step {α β : Type} (x : M α) (f : α → M β) (rd : Rd) (a : α) (rd' : Rd)
    (h : x rd = .ok (a, rd')) : (x >>= f) rd = f a rd' := by
  rw [M.run_bind, h]

theorem bind_step_err {α β : Type} (x : M α) (f : α → M β) (rd : Rd) (e : BnkErr)
    (h : x rd = .error e) : (x >>= f) rd = .error e := by
  rw [M.run_bind, h]

/-- The bytes of `l` at positions `p, …, p+n-1` exist and are all 0. -/
def ZeroAt (l : List Nat) (p n : Nat) : Prop :=
  p + n ≤ l.length ∧ ∀ i, i < n → l.getD (p + i) 0 = 0

instance (l : List Nat) (p n : Nat) : Decidable (ZeroAt l p n) := by
  unfold ZeroAt
  infer_instance

theorem zeroAt_split (l : List Nat) (p m n : Nat) (h : ZeroAt l p (m + n)) :
    ZeroAt l p m ∧ ZeroAt l (p + m) n := by
  obtain ⟨hlen, hz⟩ := h
  refine ⟨⟨by omega, fun i hi => hz i (by omega)⟩, ⟨by omega, fun i hi => ?_⟩⟩
  have := hz (m + i) (by omega)
  rwa [← Nat.add_assoc] at this

theorem leN_replicate_zero (n : Nat) : leN (List.replicate n 0) = 0 := by
  induction n with
  | zero => rfl
  | succ k ih => simp [List.replicate_succ, leN, ih]

theorem zeroAt_slice (l : List Nat) (p n : Nat) (h : ZeroAt l p n) :
    (l.drop p).take n = List.replicate n 0 := by
  obtain ⟨hlen, hz⟩ := h
  have hlen2 : (List.take n (List.drop p l)).length = n := by
    rw [List.length_take, List.length_drop]
    omega
  refine List.eq_replicate_iff.mpr ⟨hlen2, ?_⟩
  intro b hb
  rw [List.mem_iff_getElem] at hb
  obtain ⟨i, hi, hget⟩ := hb
  rw [hlen2] at hi
  have hpi : p + i < l.length := by omega
  rw [List.getElem_take, List.getElem_drop] at hget
  have hz' := hz i hi
  rw [List.getD_eq_getElem?_getD, List.getElem?_eq_getElem hpi] at hz'
  simp only [Option.getD_some] at hz'
  rw [← hget, hz']

theorem zero_readBytes (l : List Nat) (p n : Nat) (h : ZeroAt l p n) :
    readBytes n ⟨l, p⟩ = .ok (List.replicate n 0, ⟨l, p + n⟩) :=
  readBytes_eq_ok.mpr ⟨h.1, (zeroAt_slice l p n h).symm, rfl⟩

theorem zero_readU8 (l : List Nat) (p : Nat) (h : ZeroAt l p 1) :
    readU8 ⟨l, p⟩ = .ok (0, ⟨l, p + 1⟩) := by
  rw [readU8, bind_step _ _ _ _ _ (zero_readBytes l p 1 h), leN_replicate_zero]
  rfl

theorem zero_readU16 (l : List Nat) (p : Nat) (h : ZeroAt l p 2) :
    readU16 ⟨l, p⟩ = .ok (0, ⟨l, p + 2⟩) := by
  rw [readU16, bind_step _ _ _ _ _ (zero_readBytes l p 2 h), leN_replicate_zero]
  rfl

theorem zero_readU32 (l : List Nat) (p : Nat) (h : ZeroAt l p 4) :
    readU32 ⟨l, p⟩ = .ok (0, ⟨l, p + 4⟩) := by
  rw [readU32, bind_step _ _ _ _ _ (zero_readBytes l p 4 h), leN_replicate_zero]
  rfl

theorem zero_readU64 (l : List Nat) (p : Nat) (h : ZeroAt l p 8) :
    readU64 ⟨l, p⟩ = .ok (0, ⟨l, p + 8⟩) := by
  rw [readU64, bind_step _ _ _ _ _ (zero_readBytes l p 8 h), leN_replicate_zero]
  rfl

/-! Decoding an all-zero byte range yields the all-zero value of each
record, with empty counted lists.  These lemmas drive the concrete
witnesses below. -/

theorem zero_NodeInitialFxParams (l : List Nat) (p : Nat) (h : ZeroAt l p 2) :
    NodeInitialFxParams.read ⟨l, p⟩ = .ok (⟨0, 0⟩, ⟨l, p + 2⟩) := by
  obtain ⟨h1, h2⟩ := zeroAt_split l p 1 1 h
  rw [NodeInitialFxParams.read, bind_step _ _ _ _ _ (zero_readU8 l p h1),
    bind_step _ _ _ _ _ (zero_readU8 l (p + 1) h2)]
  rfl

theorem zero_AkPropBundle (l : List Nat) (p : Nat) (h : ZeroAt l p 1) :
    AkPropBundle.read ⟨l, p⟩ = .ok (⟨0, []⟩, ⟨l, p + 1⟩) := by
  rw [AkPropBundle.read, bind_step _ _ _ _ _ (zero_readU8 l p h)]
  rfl

theorem zero_NodeInitialParams (l : List Nat) (p : Nat) (h : ZeroAt l p 2) :
    NodeInitialParams.read ⟨l, p⟩ = .ok (⟨⟨0, []⟩, ⟨0, []⟩⟩, ⟨l, p + 2⟩) := by
  obtain ⟨h1, h2⟩ := zeroAt_split l p 1 1 h
  rw [NodeInitialParams.read, bind_step _ _ _ _ _ (zero_AkPropBundle l p h1),
    bind_step _ _ _ _ _ (zero_AkPropBundle l (p + 1) h2)]
  rfl

theorem zero_PositioningParams (l : List Nat) (p : Nat) (h : ZeroAt l p 1) :
    PositioningParams.read_options ⟨l, p⟩ =
      .ok (⟨0, 0, 0, .stepSequence, 0, [], [], []⟩, ⟨l, p + 1⟩) := by
  rw [PositioningParams.read_options, bind_step _ _ _ _ _ (zero_readU8 l p h)]
  rfl

theorem zero_AuxParams (l : List Nat) (p : Nat) (h : ZeroAt l p 5) :
    AuxParams.read ⟨l, p⟩ = .ok (⟨0, [0, 0, 0, 0], 0⟩, ⟨l, p + 5⟩) := by
  obtain ⟨h1, h2⟩ := zeroAt_split l p 1 4 h
  rw [AuxParams.read, bind_step _ _ _ _ _ (zero_readU8 l p h1),
    if_neg (by decide), bind_step _ _ _ _ _ (M.run_pure _ _)]
  simp only []
  rw [bind_step _ _ _ _ _ (zero_readU32 l (p + 1) h2)]
  rfl

theorem zero_AdvSettingsParams (l : List Nat) (p : Nat) (h : ZeroAt l p 6) :
    AdvSettingsParams.read ⟨l, p⟩ = .ok (⟨0, 0, 0, 0, 0⟩, ⟨l, p + 6⟩) := by
  obtain ⟨h1, h⟩ := zeroAt_split l p 1 5 h
  obtain ⟨h2, h⟩ := zeroAt_split l (p + 1) 1 4 h
  obtain ⟨h3, h⟩ := zeroAt_split l (p + 1 + 1) 2 2 h
  obtain ⟨h4, h5⟩ := zeroAt_split l (p + 1 + 1 + 2) 1 1 h
  rw [AdvSettingsParams.read, bind_step _ _ _ _ _ (zero_readU8 l p h1),
    bind_step _ _ _ _ _ (zero_readU8 l (p + 1) h2),
    bind_step _ _ _ _ _ (zero_readU16 l (p + 1 + 1) h3),
    bind_step _ _ _ _ _ (zero_readU8 l (p + 1 + 1 + 2) h4),
    bind_step _ _ _ _ _ (zero_readU8 l (p + 1 + 1 + 2 + 1) h5)]
  rfl

theorem zero_StateChunk (l : List Nat) (p : Nat) (h : ZeroAt l p 2) :
    StateChunk.read ⟨l, p⟩ = .ok (⟨0, [], 0, []⟩, ⟨l, p + 2⟩) := by
  obtain ⟨h1, h2⟩ := zeroAt_split l p 1 1 h
  rw [StateChunk.read, bind_step _ _ _ _ _ (zero_readU8 l p h1),
    bind_step _ _ _ _ _ rfl,
    bind_step _ _ _ _ _ (zero_readU8 l (p + 1) h2)]
  rfl

theorem zero_InitialRTPC (l : List Nat) (p : Nat) (h : ZeroAt l p 2) :
    InitialRTPC.read ⟨l, p⟩ = .ok (⟨0, []⟩, ⟨l, p + 2⟩) := by
  rw [InitialRTPC.read, bind_step _ _ _ _ _ (zero_readU16 l p h)]
  rfl

/-- The all-zero `NodeBaseParams` value (32 bytes on the wire). -/
def nbp0 : NodeBaseParams :=
  ⟨⟨0, 0⟩, 0, 0, 0, 0, 0, 0, ⟨⟨0, []⟩, ⟨0, []⟩⟩,
    ⟨0, 0, 0, .stepSequence, 0, [], [], []⟩, ⟨0, [0, 0, 0, 0], 0⟩,
    ⟨0, 0, 0, 0, 0⟩, ⟨0, [], 0, []⟩, ⟨0, []⟩⟩

theorem zero_NodeBaseParams (l : List Nat) (p : Nat) (h : ZeroAt l p 32) :
    NodeBaseParams.read ⟨l, p⟩ = .ok (nbp0, ⟨l, p + 32⟩) := by
  obtain ⟨h1, h⟩ := zeroAt_split l p 2 30 h
  obtain ⟨h2, h⟩ := zeroAt_split l (p + 2) 1 29 h
  obtain ⟨h3, h⟩ := zeroAt_split l (p + 2 + 1) 1 28 h
  obtain ⟨h4, h⟩ := zeroAt_split l (p + 2 + 1 + 1) 1 27 h
  obtain ⟨h5, h⟩ := zeroAt_split l (p + 2 + 1 + 1 + 1) 4 23 h
  obtain ⟨h6, h⟩ := zeroAt_split l (p + 2 + 1 + 1 + 1 + 4) 4 19 h
  obtain ⟨h7, h⟩ := zeroAt_split l (p + 2 + 1 + 1 + 1 + 4 + 4) 1 18 h
  obtain ⟨h8, h⟩ := zeroAt_split l (p + 2 + 1 + 1 + 1 + 4 + 4 + 1) 2 16 h
  obtain ⟨h9, h⟩ := zeroAt_split l (p + 2 + 1 + 1 + 1 + 4 + 4 + 1 + 2) 1 15 h
  obtain ⟨h10, h⟩ := zeroAt_split l (p + 2 + 1 + 1 + 1 + 4 + 4 + 1 + 2 + 1) 5 10 h
  obtain ⟨h11, h⟩ := zeroAt_split l (p + 2 + 1 + 1 + 1 + 4 + 4 + 1 + 2 + 1 + 5) 6 4 h
  obtain ⟨h12, h13⟩ := zeroAt_split l (p + 2 + 1 + 1 + 1 + 4 + 4 + 1 + 2 + 1 + 5 + 6) 2 2 h
  rw [NodeBaseParams.read,
    bind_step _ _ _ _ _ (zero_NodeInitialFxParams l p h1),
    bind_step _ _ _ _ _ (zero_readU8 l (p + 2) h2),
    bind_step _ _ _ _ _ (zero_readU8 l (p + 2 + 1) h3),
    bind_step _ _ _ _ _ (zero_readU8 l (p + 2 + 1 + 1) h4),
    bind_step _ _ _ _ _ (zero_readU32 l (p + 2 + 1 + 1 + 1) h5),
    bind_step _ _ _ _ _ (zero_readU32 l (p + 2 + 1 + 1 + 1 + 4) h6),
    bind_step _ _ _ _ _ (zero_readU8 l (p + 2 + 1 + 1 + 1 + 4 + 4) h7),
    bind_step _ _ _ _ _ (zero_NodeInitialParams l (p + 2 + 1 + 1 + 1 + 4 + 4 + 1) h8),
    bind_step _ _ _ _ _ (zero_PositioningParams l (p + 2 + 1 + 1 + 1 + 4 + 4 + 1 + 2) h9),
    bind_step _ _ _ _ _ (zero_AuxParams l (p + 2 + 1 + 1 + 1 + 4 + 4 + 1 + 2 + 1) h10),
    bind_step _ _ _ _ _ (zero_AdvSettingsParams l (p + 2 + 1 + 1 + 1 + 4 + 4 + 1 + 2 + 1 + 5) h11),
    bind_step _ _ _ _ _ (zero_StateChunk l (p + 2 + 1 + 1 + 1 + 4 + 4 + 1 + 2 + 1 + 5 + 6) h12),
    bind_step _ _ _ _ _ (zero_InitialRTPC l (p + 2 + 1 + 1 + 1 + 4 + 4 + 1 + 2 + 1 + 5 + 6 + 2) h13)]
  rfl

theorem zero_Children (l : List Nat) (p : Nat) (h : ZeroAt l p 4) :
    Children.read ⟨l, p⟩ = .ok (⟨0, []⟩, ⟨l, p + 4⟩) := by
  rw [Children.read, bind_step _ _ _ _ _ (zero_readU32 l p h)]
  rfl

theorem zero_AkMeterInfo (l : List Nat) (p : Nat) (h : ZeroAt l p 22) :
    AkMeterInfo.read ⟨l, p⟩ = .ok (⟨0, 0, 0, 0, 0⟩, ⟨l, p + 22⟩) := by
  obtain ⟨h1, h⟩ := zeroAt_split l p 8 14 h
  obtain ⟨h2, h⟩ := zeroAt_split l (p + 8) 8 6 h
  obtain ⟨h3, h⟩ := zeroAt_split l (p + 8 + 8) 4 2 h
  obtain ⟨h4, h5⟩ := zeroAt_split l (p + 8 + 8 + 4) 1 1 h
  rw [AkMeterInfo.read, bind_step _ _ _ _ _ (zero_readU64 l p h1),
    bind_step _ _ _ _ _ (zero_readU64 l (p + 8) h2),
    bind_step _ _ _ _ _ (zero_readU32 l (p + 8 + 8) h3),
    bind_step _ _ _ _ _ (zero_readU8 l (p + 8 + 8 + 4) h4),
    bind_step _ _ _ _ _ (zero_readU8 l (p + 8 + 8 + 4 + 1) h5)]
  rfl

/-- The all-zero `MusicNodeParams` value (64 bytes on the wire). -/
def mnp0 : MusicNodeParams := ⟨0, nbp0, ⟨0, []⟩, ⟨0, 0, 0, 0, 0⟩, 0, 0, []⟩

theorem zero_MusicNodeParams (l : List Nat) (p : Nat) (h : ZeroAt l p 64) :
    MusicNodeParams.read ⟨l, p⟩ = .ok (mnp0, ⟨l, p + 64⟩) := by
  obtain ⟨h1, h⟩ := zeroAt_split l p 1 63 h
  obtain ⟨h2, h⟩ := zeroAt_split l (p + 1) 32 31 h
  obtain ⟨h3, h⟩ := zeroAt_split l (p + 1 + 32) 4 27 h
  obtain ⟨h4, h⟩ := zeroAt_split l (p + 1 + 32 + 4) 22 5 h
  obtain ⟨h5, h6⟩ := zeroAt_split l (p + 1 + 32 + 4 + 22) 1 4 h
  rw [MusicNodeParams.read, bind_step _ _ _ _ _ (zero_readU8 l p h1),
    bind_step _ _ _ _ _ (zero_NodeBaseParams l (p + 1) h2),
    bind_step _ _ _ _ _ (zero_Children l (p + 1 + 32) h3),
    bind_step _ _ _ _ _ (zero_AkMeterInfo l (p + 1 + 32 + 4) h4),
    bind_step _ _ _ _ _ (zero_readU8 l (p + 1 + 32 + 4 + 22) h5),
    bind_step _ _ _ _ _ (zero_readU32 l (p + 1 + 32 + 4 + 22 + 1) h6)]
  rfl

/-- The all-zero `MusicTransNodeParams` value (68 bytes on the wire). -/
def mtnp0 : MusicTransNodeParams := ⟨mnp0, 0, []⟩

theorem zero_MusicTransNodeParams (l : List Nat) (p : Nat) (h : ZeroAt l p 68) :
    MusicTransNodeParams.read ⟨l, p⟩ = .ok (mtnp0, ⟨l, p + 68⟩) := by
  obtain ⟨h1, h2⟩ := zeroAt_split l p 64 4 h
  rw [MusicTransNodeParams.read, bind_step _ _ _ _ _ (zero_MusicNodeParams l p h1),
    bind_step _ _ _ _ _ (zero_readU32 l (p + 64) h2)]
  rfl

theorem zero_PlaylistItem (fuel : Nat) (l : List Nat) (p : Nat) (h : ZeroAt l p 30) :
    AkMusicRanSeqPlaylistItem.read (fuel + 1) ⟨l, p⟩ = .ok (c2item, ⟨l, p + 30⟩) := by
  obtain ⟨h1, h⟩ := zeroAt_split l p 4 26 h
  obtain ⟨h2, h⟩ := zeroAt_split l (p + 4) 4 22 h
  obtain ⟨h3, h⟩ := zeroAt_split l (p + 4 + 4) 4 18 h
  obtain ⟨h4, h⟩ := zeroAt_split l (p + 4 + 4 + 4) 4 14 h
  obtain ⟨h5, h⟩ := zeroAt_split l (p + 4 + 4 + 4 + 4) 2 12 h
  obtain ⟨h6, h⟩ := zeroAt_split l (p + 4 + 4 + 4 + 4 + 2) 2 10 h
  obtain ⟨h7, h⟩ := zeroAt_split l (p + 4 + 4 + 4 + 4 + 2 + 2) 2 8 h
  obtain ⟨h8, h⟩ := zeroAt_split l (p + 4 + 4 + 4 + 4 + 2 + 2 + 2) 4 4 h
  obtain ⟨h9, h⟩ := zeroAt_split l (p + 4 + 4 + 4 + 4 + 2 + 2 + 2 + 4) 2 2 h
  obtain ⟨h10, h11⟩ := zeroAt_split l (p + 4 + 4 + 4 + 4 + 2 + 2 + 2 + 4 + 2) 1 1 h
  rw [AkMusicRanSeqPlaylistItem.read,
    bind_step _ _ _ _ _ (zero_readU32 l p h1),
    bind_step _ _ _ _ _ (zero_readU32 l (p + 4) h2),
    bind_step _ _ _ _ _ (zero_readU32 l (p + 4 + 4) h3),
    bind_step _ _ _ _ _ (zero_readU32 l (p + 4 + 4 + 4) h4),
    bind_step _ _ _ _ _ (zero_readU16 l (p + 4 + 4 + 4 + 4) h5),
    bind_step _ _ _ _ _ (zero_readU16 l (p + 4 + 4 + 4 + 4 + 2) h6),
    bind_step _ _ _ _ _ (zero_readU16 l (p + 4 + 4 + 4 + 4 + 2 + 2) h7),
    bind_step _ _ _ _ _ (zero_readU32 l (p + 4 + 4 + 4 + 4 + 2 + 2 + 2) h8),
    bind_step _ _ _ _ _ (zero_readU16 l (p + 4 + 4 + 4 + 4 + 2 + 2 + 2 + 4) h9),
    bind_step _ _ _ _ _ (zero_readU8 l (p + 4 + 4 + 4 + 4 + 2 + 2 + 2 + 4 + 2) h10),
    bind_step _ _ _ _ _ (zero_readU8 l (p + 4 + 4 + 4 + 4 + 2 + 2 + 2 + 4 + 2 + 1) h11)]
  rfl

theorem mseek_run (p : Nat) (rd : Rd) : mseek p rd = .ok ((), ⟨rd.data, p⟩) := rfl

theorem merr_run {α : Type} (e : BnkErr) (rd : Rd) : (merr e : M α) rd = .error e := rfl

theorem readU8_eq_ok {rd : Rd} {v : Nat} {rd' : Rd} :
    readU8 rd = .ok (v, rd') ↔
      rd.pos + 1 ≤ rd.data.length ∧ v = leN ((rd.data.drop rd.pos).take 1) ∧
        rd' = ⟨rd.data, rd.pos + 1⟩ := by
  unfold readU8
  rw [M.bind_eq_ok]
  constructor
  · rintro ⟨bs, rdm, h1, h2⟩
    rw [readBytes_eq_ok] at h1
    cases h2
    exact ⟨h1.1, by rw [h1.2.1], h1.2.2⟩
  · rintro ⟨h1, h2, h3⟩
    exact ⟨_, _, readBytes_eq_ok.mpr ⟨h1, rfl, h3⟩, by subst h2; rfl⟩

theorem readU16_eq_ok {rd : Rd} {v : Nat} {rd' : Rd} :
    readU16 rd = .ok (v, rd') ↔
      rd.pos + 2 ≤ rd.data.length ∧ v = leN ((rd.data.drop rd.pos).take 2) ∧
        rd' = ⟨rd.data, rd.pos + 2⟩ := by
  unfold readU16
  rw [M.bind_eq_ok]
  constructor
  · rintro ⟨bs, rdm, h1, h2⟩
    rw [readBytes_eq_ok] at h1
    cases h2
    exact ⟨h1.1, by rw [h1.2.1], h1.2.2⟩
  · rintro ⟨h1, h2, h3⟩
    exact ⟨_, _, readBytes_eq_ok.mpr ⟨h1, rfl, h3⟩, by subst h2; rfl⟩

theorem readU32_eq_ok {rd : Rd} {v : Nat} {rd' : Rd} :
    readU32 rd = .ok (v, rd') ↔
      rd.pos + 4 ≤ rd.data.length ∧ v = leN ((rd.data.drop rd.pos).take 4) ∧
        rd' = ⟨rd.data, rd.pos + 4⟩ := by
  unfold readU32
  rw [M.bind_eq_ok]
  constructor
  · rintro ⟨bs, rdm, h1, h2⟩
    rw [readBytes_eq_ok] at h1
    cases h2
    exact ⟨h1.1, by rw [h1.2.1], h1.2.2⟩
  · rintro ⟨h1, h2, h3⟩
    exact ⟨_, _, readBytes_eq_ok.mpr ⟨h1, rfl, h3⟩, by subst h2; rfl⟩

/-- One unfolding of the playlist-forest loop. -/
theorem readPlaylistItems_succ (num fuel : Nat) (acc : List AkMusicRanSeqPlaylistItem) :
    readPlaylistItems num (fuel + 1) acc = (do
      let play_list_item ← AkMusicRanSeqPlaylistItem.read (fuel + 1)
      let n := get_num_recursive play_list_item
      let acc' := acc ++ [play_list_item]
      if n < num then readPlaylistItems num fuel acc'
      else if n = num then pure acc'
      else do
        let p ← mtell
        merr (.binrwAssertFail p " num_play_list_items is larger than expected")) := rfl

/-- C1: the round-trip identity claimed by the specification (and
asserted by the repository's own tests) fails on the code: a one-byte
input is accepted by `Bnk::from_reader` (the partial-magic
`UnexpectedEof` breaks the loop exactly like a clean end-of-stream) and
decodes to an empty bank, which `write_to` encodes as zero bytes. -/
theorem bnk_roundtrip_drops_trailing_byte :
    Bnk.from_reader ⟨[65], 0⟩ = .ok ⟨[]⟩ ∧
    Bnk.write_to ⟨[]⟩ ⟨[], 0⟩ = .ok (⟨[]⟩, ⟨[], 0⟩) ∧
    ([] : List Nat) ≠ [65] :=
  ⟨rfl, rfl, by decide⟩

set_option maxHeartbeats 1600000 in
/-- C2: the playlist-forest decoder does not accumulate node counts
across top-level subtrees.  `c2buf` declares a total node count of 2 and
contains exactly two childless top-level items, so by the claimed
accumulate-and-compare protocol the decode should stop successfully
after the second item; the code instead compares each item's own
recursive count (1) against the total, keeps reading a third item, and
dies with an end-of-stream error.  Both items do decode individually
(conjuncts 2 and 3, at the fuels the loop hands them) and their counts
sum to the declared total (conjunct 4). -/
theorem ran_seq_cntr_no_accumulation :
    MusicRanSecCntrInitialValues.read_options 5 ⟨c2buf, 0⟩ = .error .ioEof ∧
    AkMusicRanSeqPlaylistItem.read 5 ⟨c2buf, 72⟩ = .ok (c2item, ⟨c2buf, 102⟩) ∧
    AkMusicRanSeqPlaylistItem.read 4 ⟨c2buf, 102⟩ = .ok (c2item, ⟨c2buf, 132⟩) ∧
    get_num_recursive c2item + get_num_recursive c2item = 2 := by
  have hitem1 : AkMusicRanSeqPlaylistItem.read (4 + 1) ⟨c2buf, 72⟩ = .ok (c2item, ⟨c2buf, 102⟩) :=
    zero_PlaylistItem 4 c2buf 72 (by decide)
  have hitem2 : AkMusicRanSeqPlaylistItem.read (3 + 1) ⟨c2buf, 102⟩ = .ok (c2item, ⟨c2buf, 132⟩) :=
    zero_PlaylistItem 3 c2buf 102 (by decide)
  have hloop3 : readPlaylistItems 2 3 [c2item, c2item] ⟨c2buf, 132⟩ = .error .ioEof := by
    rw [show (3 : Nat) = 2 + 1 from rfl, readPlaylistItems_succ]
    exact bind_step_err _ _ _ _
      (show AkMusicRanSeqPlaylistItem.read (2 + 1) ⟨c2buf, 132⟩ = .error .ioEof from rfl)
  have hloop2 : readPlaylistItems 2 4 [c2item] ⟨c2buf, 102⟩ = .error .ioEof := by
    rw [show (4 : Nat) = 3 + 1 from rfl, readPlaylistItems_succ,
      bind_step _ _ _ _ _ hitem2]
    exact hloop3
  have hloop1 : readPlaylistItems 2 5 [] ⟨c2buf, 72⟩ = .error .ioEof := by
    rw [show (5 : Nat) = 4 + 1 from rfl, readPlaylistItems_succ,
      bind_step _ _ _ _ _ hitem1]
    exact hloop2
  refine ⟨?_, hitem1, hitem2, rfl⟩
  rw [MusicRanSecCntrInitialValues.read_options,
    bind_step _ _ _ _ _ (zero_MusicTransNodeParams c2buf 0 (by decide)),
    bind_step _ _ _ _ _ (show readU32 ⟨c2buf, 0 + 68⟩ = .ok (2, ⟨c2buf, 72⟩) from rfl),
    bind_step_err _ _ _ _ hloop1]

theorem mtell_eq_ok {rd : Rd} {p : Nat} {rd' : Rd} :
    mtell rd = .ok (p, rd') ↔ p = rd.pos ∧ rd' = rd := by
  unfold mtell
  constructor
  · intro h
    obtain ⟨h1, h2⟩ := Prod.mk.injEq .. ▸ Except.ok.inj h
    exact ⟨h1.symm, h2.symm⟩
  · rintro ⟨rfl, rfl⟩
    rfl

theorem pure_eq_ok {α : Type} {a b : α} {rd rd' : Rd} :
    (pure a : M α) rd = .ok (b, rd') ↔ b = a ∧ rd' = rd := by
  constructor
  · intro h
    obtain ⟨h1, h2⟩ := Prod.mk.injEq .. ▸ Except.ok.inj h
    exact ⟨h1.symm, h2.symm⟩
  · rintro ⟨rfl, rfl⟩
    rfl

theorem merr_eq_ok {α : Type} {e : BnkErr} {rd : Rd} {r : α × Rd} :
    (merr e : M α) rd ≠ .ok r := by
  unfold merr
  exact fun h => Except.noConfusion h

theorem okOr_eq_ok {α : Type} {o : Option α} {e : BnkErr} {rd : Rd} {a : α} {rd' : Rd} :
    okOr o e rd = .ok (a, rd') ↔ o = some a ∧ rd' = rd := by
  cases o with
  | none =>
    unfold okOr
    simp [merr]
  | some b =>
    unfold okOr
    rw [pure_eq_ok]
    constructor
    · rintro ⟨rfl, rfl⟩
      exact ⟨rfl, rfl⟩
    · rintro ⟨hb, rfl⟩
      exact ⟨(Option.some.inj hb).symm, rfl⟩

theorem okOr_run_none {α : Type} {o : Option α} {e : BnkErr} (rd : Rd) (h : o = none) :
    okOr o e rd = .error e := by
  subst h
  rfl

/-- Every successful run of `mreplicate n p` advances by `n * k` when
every successful run of `p` advances by exactly `k`, and returns `n`
elements. -/
theorem mreplicate_fixed {α : Type} (p : M α) (k : Nat)
    (hp : ∀ rd a rd', p rd = .ok (a, rd') → rd'.data = rd.data ∧ rd'.pos = rd.pos + k) :
    ∀ n rd as rd', mreplicate n p rd = .ok (as, rd') →
      rd'.data = rd.data ∧ rd'.pos = rd.pos + n * k ∧ as.length = n := by
  intro n
  induction n with
  | zero =>
    intro rd as rd' h
    obtain ⟨h1, h2⟩ := Prod.mk.injEq .. ▸ Except.ok.inj h
    subst h1
    subst h2
    exact ⟨rfl, by omega, rfl⟩
  | succ m ih =>
    intro rd as rd' h
    rw [mreplicate, M.bind_eq_ok] at h
    obtain ⟨a, rd1, ha, h⟩ := h
    rw [M.bind_eq_ok] at h
    obtain ⟨as1, rd2, has, h⟩ := h
    rw [pure_eq_ok] at h
    obtain ⟨rfl, rfl⟩ := h
    obtain ⟨hd1, hp1⟩ := hp rd a rd1 ha
    obtain ⟨hd2, hp2, hlen⟩ := ih rd1 as1 rd' has
    refine ⟨by rw [hd2, hd1], by rw [hp2, hp1]; ring, by simp [hlen]⟩

/-- Successful decodes of `HircSound` consume exactly 27 header bytes
plus `data_length - 31` tail bytes (`u32` wrapping subtraction). -/
theorem HircSound.read_args_shape (L : Nat) (rd : Rd) (s : HircSound) (rd' : Rd)
    (h : HircSound.read_args L rd = .ok (s, rd')) :
    rd'.data = rd.data ∧ s.data.length = wsub 32 L 31 ∧
      rd'.pos = rd.pos + 27 + wsub 32 L 31 := by
  unfold HircSound.read_args at h
  rw [M.bind_eq_ok] at h
  obtain ⟨u1, rd1, h1, h⟩ := h
  rw [readU32_eq_ok] at h1
  obtain ⟨-, -, rfl⟩ := h1
  rw [M.bind_eq_ok] at h
  obtain ⟨u2, rd2, h2, h⟩ := h
  rw [readU8_eq_ok] at h2
  obtain ⟨-, -, rfl⟩ := h2
  rw [M.bind_eq_ok] at h
  obtain ⟨st, rd3, h3, h⟩ := h
  rw [readU32_eq_ok] at h3
  obtain ⟨-, -, rfl⟩ := h3
  rw [M.bind_eq_ok] at h
  obtain ⟨aid, rd4, h4, h⟩ := h
  rw [readU32_eq_ok] at h4
  obtain ⟨-, -, rfl⟩ := h4
  rw [M.bind_eq_ok] at h
  obtain ⟨sid, rd5, h5, h⟩ := h
  rw [readU32_eq_ok] at h5
  obtain ⟨-, -, rfl⟩ := h5
  rw [M.bind_eq_ok] at h
  obtain ⟨stp, rd6, h6, h⟩ := h
  rw [mtell_eq_ok] at h6
  obtain ⟨rfl, rfl⟩ := h6
  rw [M.bind_eq_ok] at h
  obtain ⟨stv, rd7, h7, h⟩ := h
  rw [readU8_eq_ok] at h7
  obtain ⟨-, -, rfl⟩ := h7
  rw [M.bind_eq_ok] at h
  obtain ⟨sty, rd8, h8, h⟩ := h
  rw [okOr_eq_ok] at h8
  obtain ⟨-, rfl⟩ := h8
  rw [M.bind_eq_ok] at h
  obtain ⟨u3, rd9, h9, h⟩ := h
  rw [readU32_eq_ok] at h9
  obtain ⟨-, -, rfl⟩ := h9
  rw [M.bind_eq_ok] at h
  obtain ⟨u4, rd10, h10, h⟩ := h
  rw [readU8_eq_ok] at h10
  obtain ⟨-, -, rfl⟩ := h10
  rw [M.bind_eq_ok] at h
  obtain ⟨gid, rd11, h11, h⟩ := h
  rw [readU32_eq_ok] at h11
  obtain ⟨-, -, rfl⟩ := h11
  rw [M.bind_eq_ok] at h
  obtain ⟨dt, rd12, h12, h⟩ := h
  rw [readBytes_eq_ok] at h12
  obtain ⟨hb12, hdt, rfl⟩ := h12
  rw [pure_eq_ok] at h
  obtain ⟨rfl, rfl⟩ := h
  refine ⟨rfl, ?_, ?_⟩
  · rw [hdt]
    rw [List.length_take, List.length_drop]
    simp at hb12 ⊢
    omega
  · simp

/-- Successful decodes of an `EventAction` payload read `parameter_count`
type bytes and value bytes, and an opaque tail of
`declared_length - 13 - 2n` bytes (`usize` wrapping subtraction), for a
total of `declared_length - 4` bytes when no wrap occurs. -/
theorem HircEventAction.from_reader_shape (L : Nat) (rd : Rd) (a : HircEventAction) (rd' : Rd)
    (h : HircEventAction.from_reader L rd = .ok (a, rd')) :
    rd'.data = rd.data ∧
      a.parameter_types.length = a.parameter_count ∧
      a.parameters.length = a.parameter_count ∧
      a.data.length = wsub 64 (wsub 64 L 13) (a.parameter_count * 2) ∧
      rd'.pos = rd.pos + 9 + 2 * a.parameter_count + a.data.length := by
  have helt : ∀ rdx v rdx', (do
      let v ← readU8
      pure (HircEventActionParameterType.fromRepr v) : M HircEventActionParameterType) rdx =
        .ok (v, rdx') → rdx'.data = rdx.data ∧ rdx'.pos = rdx.pos + 1 := by
    intro rdx v rdx' hx
    rw [M.bind_eq_ok] at hx
    obtain ⟨w, rdm, hw, hx⟩ := hx
    rw [readU8_eq_ok] at hw
    obtain ⟨-, -, rfl⟩ := hw
    rw [pure_eq_ok] at hx
    obtain ⟨rfl, rfl⟩ := hx
    exact ⟨rfl, rfl⟩
  unfold HircEventAction.from_reader at h
  rw [M.bind_eq_ok] at h
  obtain ⟨scope_v, rd1, h1, h⟩ := h
  rw [readU8_eq_ok] at h1
  obtain ⟨-, -, rfl⟩ := h1
  rw [M.bind_eq_ok] at h
  obtain ⟨p, rd2, h2, h⟩ := h
  rw [mtell_eq_ok] at h2
  obtain ⟨rfl, rfl⟩ := h2
  rw [M.bind_eq_ok] at h
  obtain ⟨scope, rd3, h3, h⟩ := h
  rw [okOr_eq_ok] at h3
  obtain ⟨-, rfl⟩ := h3
  rw [M.bind_eq_ok] at h
  obtain ⟨atv, rd4, h4, h⟩ := h
  rw [readU8_eq_ok] at h4
  obtain ⟨-, -, rfl⟩ := h4
  rw [M.bind_eq_ok] at h
  obtain ⟨gid, rd5, h5, h⟩ := h
  rw [readU32_eq_ok] at h5
  obtain ⟨-, -, rfl⟩ := h5
  rw [M.bind_eq_ok] at h
  obtain ⟨u1, rd6, h6, h⟩ := h
  rw [readU8_eq_ok] at h6
  obtain ⟨-, -, rfl⟩ := h6
  rw [M.bind_eq_ok] at h
  obtain ⟨pc, rd7, h7, h⟩ := h
  rw [readU8_eq_ok] at h7
  obtain ⟨-, -, rfl⟩ := h7
  rw [M.bind_eq_ok] at h
  obtain ⟨ptys, rd8, h8, h⟩ := h
  obtain ⟨hd8, hp8, hlen8⟩ := mreplicate_fixed _ 1 helt pc _ ptys rd8 h8
  rw [M.bind_eq_ok] at h
  obtain ⟨params, rd9, h9, h⟩ := h
  rw [readBytes_eq_ok] at h9
  obtain ⟨hb9, hparams, rfl⟩ := h9
  rw [M.bind_eq_ok] at h
  obtain ⟨u2, rd10, h10, h⟩ := h
  rw [readU8_eq_ok] at h10
  obtain ⟨-, -, rfl⟩ := h10
  rw [M.bind_eq_ok] at h
  obtain ⟨dt, rd11, h11, h⟩ := h
  rw [readBytes_eq_ok] at h11
  obtain ⟨hb11, hdt, rfl⟩ := h11
  rw [pure_eq_ok] at h
  obtain ⟨rfl, rfl⟩ := h
  have hpar : params.length = pc := by
    rw [hparams, List.length_take, List.length_drop]
    simp [hd8] at hb9 ⊢
    omega
  have hdl : dt.length = wsub 64 (wsub 64 L 13) (pc * 2) := by
    rw [hdt, List.length_take, List.length_drop]
    simp [hd8] at hb11 ⊢
    omega
  refine ⟨by simp [hd8], by simpa using hlen8, by simpa using hpar, by simpa using hdl, ?_⟩
  simp [hd8] at hp8 ⊢
  omega

theorem wsub_of_le {a b : Nat} (w : Nat) (h : b ≤ a) : wsub w a b = a - b := by
  unfold wsub
  rw [if_pos h]

/-- C9: a successful `EventAction` decode leaves an opaque tail of
exactly `declared_length - 13 - 2 * parameter_count` bytes (13 fixed
header bytes, one type byte and one value byte per parameter). -/
theorem event_action_tail_length (L : Nat) (rd : Rd) (a : HircEventAction) (rd' : Rd)
    (h : HircEventAction.from_reader L rd = .ok (a, rd'))
    (hn : 13 + 2 * a.parameter_count ≤ L) :
    a.data.length = L - 13 - 2 * a.parameter_count := by
  obtain ⟨-, -, -, hd, -⟩ := HircEventAction.from_reader_shape L rd a rd' h
  rw [hd, wsub_of_le 64 (show (13 : Nat) ≤ L by omega)]
  rw [wsub_of_le 64 (show a.parameter_count * 2 ≤ L - 13 by omega)]
  omega

/-- C9 witness: the scenario of the specification — `parameter_count = 2`
and `declared_length = 13 + 2*2 + 3` leave a 3-byte tail. -/
theorem event_action_tail_length_witness :
    c9action.data.length = 20 - 13 - 2 * c9action.parameter_count :=
  event_action_tail_length 20 ⟨c9buf, 0⟩ c9action ⟨c9buf, 16⟩ rfl (by decide)

theorem musicSegment_from_reader_ok_consumed (fuel L : Nat) (rd : Rd)
    (v : HircMusicSegment) (rd' : Rd)
    (h : HircMusicSegment.from_reader fuel L rd = .ok (v, rd')) :
    rd'.pos - rd.pos = wsub 64 L 4 := by
  unfold HircMusicSegment.from_reader at h
  rw [M.bind_eq_ok] at h
  obtain ⟨ps, rd1, h1, h⟩ := h
  rw [mtell_eq_ok] at h1
  obtain ⟨rfl, rfl⟩ := h1
  rw [M.bind_eq_ok] at h
  obtain ⟨msiv, rd2, h2, h⟩ := h
  rw [M.bind_eq_ok] at h
  obtain ⟨pe, rd3, h3, h⟩ := h
  rw [mtell_eq_ok] at h3
  obtain ⟨rfl, rfl⟩ := h3
  split at h
  · exact absurd h merr_eq_ok
  · rename_i hc
    rw [pure_eq_ok] at h
    obtain ⟨rfl, rfl⟩ := h
    exact not_ne_iff.mp hc

theorem musicSegment_from_reader_err_size (fuel L : Nat) (rd : Rd)
    (v : MusicSegmentInitialValues) (rd1 : Rd)
    (hinner : MusicSegmentInitialValues.read fuel rd = .ok (v, rd1))
    (hne : rd1.pos - rd.pos ≠ wsub 64 L 4) :
    HircMusicSegment.from_reader fuel L rd =
      .error (.badDataSize "MusicSegment" (wsub 64 L 4) (rd1.pos - rd.pos) rd.pos) := by
  unfold HircMusicSegment.from_reader
  rw [bind_step _ _ _ _ _ (mtell_run rd), bind_step _ _ _ _ _ hinner,
    bind_step _ _ _ _ _ (mtell_run rd1), if_pos hne]
  rfl

theorem musicTrack_from_reader_ok_consumed (L : Nat) (rd : Rd)
    (v : HircMusicTrack) (rd' : Rd)
    (h : HircMusicTrack.from_reader L rd = .ok (v, rd')) :
    rd'.pos - rd.pos = wsub 64 L 4 := by
  unfold HircMusicTrack.from_reader at h
  rw [M.bind_eq_ok] at h
  obtain ⟨ps, rd1, h1, h⟩ := h
  rw [mtell_eq_ok] at h1
  obtain ⟨rfl, rfl⟩ := h1
  rw [M.bind_eq_ok] at h
  obtain ⟨mtiv, rd2, h2, h⟩ := h
  rw [M.bind_eq_ok] at h
  obtain ⟨pe, rd3, h3, h⟩ := h
  rw [mtell_eq_ok] at h3
  obtain ⟨rfl, rfl⟩ := h3
  split at h
  · exact absurd h merr_eq_ok
  · rename_i hc
    rw [pure_eq_ok] at h
    obtain ⟨rfl, rfl⟩ := h
    exact not_ne_iff.mp hc

theorem musicTrack_from_reader_err_size (L : Nat) (rd : Rd)
    (v : MusicTrackInitialValues) (rd1 : Rd)
    (hinner : MusicTrackInitialValues.read rd = .ok (v, rd1))
    (hne : rd1.pos - rd.pos ≠ wsub 64 L 4) :
    HircMusicTrack.from_reader L rd =
      .error (.badDataSize "MusicTrackInitialValues" (wsub 64 L 4) (rd1.pos - rd.pos) rd.pos) := by
  unfold HircMusicTrack.from_reader
  rw [bind_step _ _ _ _ _ (mtell_run rd), bind_step _ _ _ _ _ hinner,
    bind_step _ _ _ _ _ (mtell_run rd1), if_pos hne]
  rfl

theorem ranSecCntr_from_reader_ok_consumed (fuel L : Nat) (rd : Rd)
    (v : HircMusicRanSecCntr) (rd' : Rd)
    (h : HircMusicRanSecCntr.from_reader fuel L rd = .ok (v, rd')) :
    rd'.pos - rd.pos = wsub 64 L 4 := by
  unfold HircMusicRanSecCntr.from_reader at h
  rw [M.bind_eq_ok] at h
  obtain ⟨ps, rd1, h1, h⟩ := h
  rw [mtell_eq_ok] at h1
  obtain ⟨rfl, rfl⟩ := h1
  rw [M.bind_eq_ok] at h
  obtain ⟨iv, rd2, h2, h⟩ := h
  rw [M.bind_eq_ok] at h
  obtain ⟨pe, rd3, h3, h⟩ := h
  rw [mtell_eq_ok] at h3
  obtain ⟨rfl, rfl⟩ := h3
  split at h
  · exact absurd h merr_eq_ok
  · rename_i hc
    rw [pure_eq_ok] at h
    obtain ⟨rfl, rfl⟩ := h
    exact not_ne_iff.mp hc

theorem ranSecCntr_from_reader_err_size (fuel L : Nat) (rd : Rd)
    (v : MusicRanSecCntrInitialValues) (rd1 : Rd)
    (hinner : MusicRanSecCntrInitialValues.read_options fuel rd = .ok (v, rd1))
    (hne : rd1.pos - rd.pos ≠ wsub 64 L 4) :
    HircMusicRanSecCntr.from_reader fuel L rd =
      .error (.badDataSize "MusicRanSecCntrInitialValues" (wsub 64 L 4) (rd1.pos - rd.pos) rd.pos) := by
  unfold HircMusicRanSecCntr.from_reader
  rw [bind_step _ _ _ _ _ (mtell_run rd), bind_step _ _ _ _ _ hinner,
    bind_step _ _ _ _ _ (mtell_run rd1), if_pos hne]
  rfl

/-- C4 (amended): for each of the five structured kinds a successful
decode consumes exactly `declared_length - 4` bytes of payload (for
`Sound` and `EventAction` under the no-underflow side conditions of
their tail-length arithmetic); and for the three kinds that carry the
explicit byte-accounting check — `MusicSegment`, `MusicTrack`,
`MusicRandomSequenceContainer` — a successful inner parse that consumed
any other number of bytes makes the decode fail with `BadDataSize`.
`Sound` and `EventAction` have no such check: their tails are sized from
`declared_length` itself, so a short buffer surfaces as an end-of-stream
IO error instead (see the counterexample). -/
theorem hirc_entry_byte_accounting :
    (∀ fuel L rd (v : HircMusicSegment) rd',
        HircMusicSegment.from_reader fuel L rd = .ok (v, rd') → 4 ≤ L →
        rd'.pos - rd.pos = L - 4) ∧
    (∀ L rd (v : HircMusicTrack) rd',
        HircMusicTrack.from_reader L rd = .ok (v, rd') → 4 ≤ L →
        rd'.pos - rd.pos = L - 4) ∧
    (∀ fuel L rd (v : HircMusicRanSecCntr) rd',
        HircMusicRanSecCntr.from_reader fuel L rd = .ok (v, rd') → 4 ≤ L →
        rd'.pos - rd.pos = L - 4) ∧
    (∀ L rd (s : HircSound) rd',
        HircSound.read_args L rd = .ok (s, rd') → 31 ≤ L →
        rd'.pos - rd.pos = L - 4) ∧
    (∀ L rd (a : HircEventAction) rd',
        HircEventAction.from_reader L rd = .ok (a, rd') →
        13 + 2 * a.parameter_count ≤ L →
        rd'.pos - rd.pos = L - 4) ∧
    (∀ fuel L rd (v : MusicSegmentInitialValues) rd1,
        MusicSegmentInitialValues.read fuel rd = .ok (v, rd1) →
        rd1.pos - rd.pos ≠ wsub 64 L 4 →
        HircMusicSegment.from_reader fuel L rd =
          .error (.badDataSize "MusicSegment" (wsub 64 L 4) (rd1.pos - rd.pos) rd.pos)) ∧
    (∀ L rd (v : MusicTrackInitialValues) rd1,
        MusicTrackInitialValues.read rd = .ok (v, rd1) →
        rd1.pos - rd.pos ≠ wsub 64 L 4 →
        HircMusicTrack.from_reader L rd =
          .error (.badDataSize "MusicTrackInitialValues" (wsub 64 L 4) (rd1.pos - rd.pos) rd.pos)) ∧
    (∀ fuel L rd (v : MusicRanSecCntrInitialValues) rd1,
        MusicRanSecCntrInitialValues.read_options fuel rd = .ok (v, rd1) →
        rd1.pos - rd.pos ≠ wsub 64 L 4 →
        HircMusicRanSecCntr.from_reader fuel L rd =
          .error (.badDataSize "MusicRanSecCntrInitialValues" (wsub 64 L 4) (rd1.pos - rd.pos) rd.pos)) := by
  refine ⟨?_, ?_, ?_, ?_, ?_, ?_, ?_, ?_⟩
  · intro fuel L rd v rd' h hL
    rw [musicSegment_from_reader_ok_consumed fuel L rd v rd' h, wsub_of_le 64 hL]
  · intro L rd v rd' h hL
    rw [musicTrack_from_reader_ok_consumed L rd v rd' h, wsub_of_le 64 hL]
  · intro fuel L rd v rd' h hL
    rw [ranSecCntr_from_reader_ok_consumed fuel L rd v rd' h, wsub_of_le 64 hL]
  · intro L rd s rd' h hL
    obtain ⟨-, -, hpos⟩ := HircSound.read_args_shape L rd s rd' h
    rw [wsub_of_le 32 hL] at hpos
    omega
  · intro L rd a rd' h hn
    obtain ⟨-, -, -, hd, hpos⟩ := HircEventAction.from_reader_shape L rd a rd' h
    rw [hd, wsub_of_le 64 (show (13 : Nat) ≤ L by omega)] at hpos
    rw [wsub_of_le 64 (show a.parameter_count * 2 ≤ L - 13 by omega)] at hpos
    omega
  · exact musicSegment_from_reader_err_size
  · exact musicTrack_from_reader_err_size
  · exact ranSecCntr_from_reader_err_size

/-- C4 counterexample to the claim as stated: for the `Sound` kind a
truncated buffer (declared length 100 over a 38-byte entry buffer)
fails with an end-of-stream IO error, not with `BadDataSize`. -/
theorem sound_truncated_not_bad_data_size :
    HircEntry.from_reader 5 .sound ⟨[100, 0, 0, 0, 1, 0, 0, 0] ++ List.replicate 30 0, 0⟩ =
      .error .ioEof ∧
    BnkErr.ioEof.isBadDataSize = false :=
  ⟨rfl, rfl⟩

theorem zero_MusicSegmentInitialValues (fuel : Nat) (l : List Nat) (p : Nat)
    (h : ZeroAt l p 76) :
    MusicSegmentInitialValues.read fuel ⟨l, p⟩ =
      .ok (⟨mnp0, 0, 0, []⟩, ⟨l, p + 76⟩) := by
  obtain ⟨h1, h⟩ := zeroAt_split l p 64 12 h
  obtain ⟨h2, h3⟩ := zeroAt_split l (p + 64) 8 4 h
  rw [MusicSegmentInitialValues.read,
    bind_step _ _ _ _ _ (zero_MusicNodeParams l p h1),
    bind_step _ _ _ _ _ (zero_readU64 l (p + 64) h2),
    bind_step _ _ _ _ _ (zero_readU32 l (p + 64 + 8) h3)]
  rfl

theorem zero_AkMusicTrackType (l : List Nat) (p : Nat) (h : ZeroAt l p 1) :
    AkMusicTrackType.read ⟨l, p⟩ = .ok (.normal, ⟨l, p + 1⟩) := by
  rw [AkMusicTrackType.read, bind_step _ _ _ _ _ (mtell_run _),
    bind_step _ _ _ _ _ (zero_readU8 l p h)]
  rfl

theorem zero_MusicTrackInitialValues (l : List Nat) (p : Nat) (h : ZeroAt l p 50) :
    MusicTrackInitialValues.read ⟨l, p⟩ =
      .ok (⟨0, 0, [], 0, [], 0, 0, [], nbp0, .normal, none, none, 0⟩, ⟨l, p + 50⟩) := by
  obtain ⟨h1, h⟩ := zeroAt_split l p 1 49 h
  obtain ⟨h2, h⟩ := zeroAt_split l (p + 1) 4 45 h
  obtain ⟨h3, h⟩ := zeroAt_split l (p + 1 + 4) 4 41 h
  obtain ⟨h4, h⟩ := zeroAt_split l (p + 1 + 4 + 4) 4 37 h
  obtain ⟨h5, h⟩ := zeroAt_split l (p + 1 + 4 + 4 + 4) 32 5 h
  obtain ⟨h6, h7⟩ := zeroAt_split l (p + 1 + 4 + 4 + 4 + 32) 1 4 h
  rw [MusicTrackInitialValues.read,
    bind_step _ _ _ _ _ (zero_readU8 l p h1),
    bind_step _ _ _ _ _ (zero_readU32 l (p + 1) h2),
    bind_step _ _ _ _ _ rfl,
    bind_step _ _ _ _ _ (zero_readU32 l (p + 1 + 4) h3),
    bind_step _ _ _ _ _ rfl,
    if_neg (by decide),
    bind_step _ _ _ _ _ (M.run_pure _ _)]
  simp only []
  rw [bind_step _ _ _ _ _ (zero_readU32 l (p + 1 + 4 + 4) h4),
    bind_step _ _ _ _ _ rfl,
    bind_step _ _ _ _ _ (zero_NodeBaseParams l (p + 1 + 4 + 4 + 4) h5),
    bind_step _ _ _ _ _ (zero_AkMusicTrackType l (p + 1 + 4 + 4 + 4 + 32) h6),
    if_neg (by decide),
    bind_step _ _ _ _ _ (M.run_pure _ _),
    if_neg (by decide),
    bind_step _ _ _ _ _ (M.run_pure _ _),
    bind_step _ _ _ _ _ (zero_readU32 l (p + 1 + 4 + 4 + 4 + 32 + 1) h7)]
  rfl

/-- C4 witness: each conjunct of `hirc_entry_byte_accounting`
instantiated at a concrete minimal buffer. -/
theorem hirc_entry_byte_accounting_witness :
    ((⟨segbuf, 76⟩ : Rd).pos - (⟨segbuf, 0⟩ : Rd).pos = 80 - 4) ∧
    ((⟨trkbuf, 50⟩ : Rd).pos - (⟨trkbuf, 0⟩ : Rd).pos = 54 - 4) ∧
    ((⟨rscbuf, 102⟩ : Rd).pos - (⟨rscbuf, 0⟩ : Rd).pos = 106 - 4) ∧
    ((⟨sndbuf, 27⟩ : Rd).pos - (⟨sndbuf, 0⟩ : Rd).pos = 31 - 4) ∧
    ((⟨c9buf, 16⟩ : Rd).pos - (⟨c9buf, 0⟩ : Rd).pos = 20 - 4) ∧
    (HircMusicSegment.from_reader 1 10 ⟨segbuf, 0⟩ =
      .error (.badDataSize "MusicSegment" (wsub 64 10 4)
        ((⟨segbuf, 76⟩ : Rd).pos - (⟨segbuf, 0⟩ : Rd).pos) (⟨segbuf, 0⟩ : Rd).pos)) ∧
    (HircMusicTrack.from_reader 10 ⟨trkbuf, 0⟩ =
      .error (.badDataSize "MusicTrackInitialValues" (wsub 64 10 4)
        ((⟨trkbuf, 50⟩ : Rd).pos - (⟨trkbuf, 0⟩ : Rd).pos) (⟨trkbuf, 0⟩ : Rd).pos)) ∧
    (HircMusicRanSecCntr.from_reader 5 10 ⟨rscbuf, 0⟩ =
      .error (.badDataSize "MusicRanSecCntrInitialValues" (wsub 64 10 4)
        ((⟨rscbuf, 102⟩ : Rd).pos - (⟨rscbuf, 0⟩ : Rd).pos) (⟨rscbuf, 0⟩ : Rd).pos)) := by
  have hseg_inner : MusicSegmentInitialValues.read 1 ⟨segbuf, 0⟩ =
      .ok (⟨mnp0, 0, 0, []⟩, ⟨segbuf, 76⟩) :=
    zero_MusicSegmentInitialValues 1 segbuf 0 (by decide)
  have hseg : HircMusicSegment.from_reader 1 80 ⟨segbuf, 0⟩ =
      .ok (⟨⟨mnp0, 0, 0, []⟩⟩, ⟨segbuf, 76⟩) := by
    rw [HircMusicSegment.from_reader, bind_step _ _ _ _ _ (mtell_run _),
      bind_step _ _ _ _ _ hseg_inner, bind_step _ _ _ _ _ (mtell_run _)]
    rfl
  have htrk_inner : MusicTrackInitialValues.read ⟨trkbuf, 0⟩ =
      .ok (⟨0, 0, [], 0, [], 0, 0, [], nbp0, .normal, none, none, 0⟩, ⟨trkbuf, 50⟩) :=
    zero_MusicTrackInitialValues trkbuf 0 (by decide)
  have htrk : HircMusicTrack.from_reader 54 ⟨trkbuf, 0⟩ =
      .ok (⟨⟨0, 0, [], 0, [], 0, 0, [], nbp0, .normal, none, none, 0⟩⟩, ⟨trkbuf, 50⟩) := by
    rw [HircMusicTrack.from_reader, bind_step _ _ _ _ _ (mtell_run _),
      bind_step _ _ _ _ _ htrk_inner, bind_step _ _ _ _ _ (mtell_run _)]
    rfl
  have hrsc_inner : MusicRanSecCntrInitialValues.read_options 5 ⟨rscbuf, 0⟩ =
      .ok (⟨mtnp0, 1, [c2item]⟩, ⟨rscbuf, 102⟩) := by
    have hloop : readPlaylistItems 1 5 [] ⟨rscbuf, 72⟩ = .ok ([c2item], ⟨rscbuf, 102⟩) := by
      rw [show (5 : Nat) = 4 + 1 from rfl, readPlaylistItems_succ,
        bind_step _ _ _ _ _ (zero_PlaylistItem 4 rscbuf 72 (by decide))]
      rfl
    rw [MusicRanSecCntrInitialValues.read_options,
      bind_step _ _ _ _ _ (zero_MusicTransNodeParams rscbuf 0 (by decide)),
      bind_step _ _ _ _ _ (show readU32 ⟨rscbuf, 0 + 68⟩ = .ok (1, ⟨rscbuf, 72⟩) from rfl),
      bind_step _ _ _ _ _ hloop]
    rfl
  have hrsc : HircMusicRanSecCntr.from_reader 5 106 ⟨rscbuf, 0⟩ =
      .ok (⟨⟨mtnp0, 1, [c2item]⟩⟩, ⟨rscbuf, 102⟩) := by
    rw [HircMusicRanSecCntr.from_reader, bind_step _ _ _ _ _ (mtell_run _),
      bind_step _ _ _ _ _ hrsc_inner, bind_step _ _ _ _ _ (mtell_run _)]
    rfl
  have hsnd : HircSound.read_args 31 ⟨sndbuf, 0⟩ =
      .ok (⟨0, 0, 0, 0, 0, .sfx, 0, 0, 0, []⟩, ⟨sndbuf, 27⟩) := rfl
  have hea : HircEventAction.from_reader 20 ⟨c9buf, 0⟩ =
      .ok (c9action, ⟨c9buf, 16⟩) := rfl
  refine ⟨hirc_entry_byte_accounting.1 1 80 ⟨segbuf, 0⟩ _ _ hseg (by decide),
    hirc_entry_byte_accounting.2.1 54 ⟨trkbuf, 0⟩ _ _ htrk (by decide),
    hirc_entry_byte_accounting.2.2.1 5 106 ⟨rscbuf, 0⟩ _ _ hrsc (by decide),
    hirc_entry_byte_accounting.2.2.2.1 31 ⟨sndbuf, 0⟩ _ _ hsnd (by decide),
    hirc_entry_byte_accounting.2.2.2.2.1 20 ⟨c9buf, 0⟩ _ _ hea (by decide),
    hirc_entry_byte_accounting.2.2.2.2.2.1 1 10 ⟨segbuf, 0⟩ _ _ hseg_inner (by decide),
    hirc_entry_byte_accounting.2.2.2.2.2.2.1 10 ⟨trkbuf, 0⟩ _ _ htrk_inner (by decide),
    hirc_entry_byte_accounting.2.2.2.2.2.2.2 5 10 ⟨rscbuf, 0⟩ _ _ hrsc_inner (by decide)⟩

theorem readBytes_run (l : List Nat) (p n : Nat) (h : p + n ≤ l.length) :
    readBytes n ⟨l, p⟩ = .ok ((l.drop p).take n, ⟨l, p + n⟩) :=
  readBytes_eq_ok.mpr ⟨h, rfl, rfl⟩

theorem readU8_run (l : List Nat) (p : Nat) (h : p + 1 ≤ l.length) :
    readU8 ⟨l, p⟩ = .ok (leN ((l.drop p).take 1), ⟨l, p + 1⟩) :=
  readU8_eq_ok.mpr ⟨h, rfl, rfl⟩

theorem readU32_run (l : List Nat) (p : Nat) (h : p + 4 ≤ l.length) :
    readU32 ⟨l, p⟩ = .ok (leN ((l.drop p).take 4), ⟨l, p + 4⟩) :=
  readU32_eq_ok.mpr ⟨h, rfl, rfl⟩

theorem leN_take_one (l : List Nat) (p : Nat) (h : p < l.length) :
    leN ((l.drop p).take 1) = l.getD p 0 := by
  rw [List.drop_eq_getElem_cons h]
  simp [leN, List.getD_eq_getElem?_getD, List.getElem?_eq_getElem h]

theorem HircSoundType.fromRepr_eq_none {v : Nat} (h0 : v ≠ 0) (h1 : v ≠ 1) :
    HircSoundType.fromRepr v = none := by
  match v with
  | 0 => exact absurd rfl h0
  | 1 => exact absurd rfl h1
  | n + 2 => rfl

/-- C5 (amended): decoding a `HircSound` whose sound-type byte (offset 17
of the payload) is neither 0 (`Sfx`) nor 1 (`Voice`) fails with binrw's
no-variant-match error, wrapped as `BnkError::Binrw` — not with
`BnkError::UnknownSoundType`, which the decoder never constructs. -/
theorem sound_type_invalid_binrw_error (L : Nat) (rd : Rd) (v : Nat)
    (hlen : rd.pos + 18 ≤ rd.data.length)
    (hv : rd.data.getD (rd.pos + 17) 0 = v)
    (h0 : v ≠ 0) (h1 : v ≠ 1) :
    HircSound.read_args L rd = .error (.binrwNoVariantMatch (rd.pos + 17)) := by
  obtain ⟨l, p⟩ := rd
  simp only [] at hlen hv ⊢
  rw [HircSound.read_args,
    bind_step _ _ _ _ _ (readU32_run l p (by omega)),
    bind_step _ _ _ _ _ (readU8_run l (p + 4) (by omega)),
    bind_step _ _ _ _ _ (readU32_run l (p + 4 + 1) (by omega)),
    bind_step _ _ _ _ _ (readU32_run l (p + 4 + 1 + 4) (by omega)),
    bind_step _ _ _ _ _ (readU32_run l (p + 4 + 1 + 4 + 4) (by omega)),
    bind_step _ _ _ _ _ (mtell_run _),
    bind_step _ _ _ _ _ (readU8_run l (p + 4 + 1 + 4 + 4 + 4) (by omega)),
    leN_take_one l (p + 4 + 1 + 4 + 4 + 4) (by omega)]
  rw [show p + 4 + 1 + 4 + 4 + 4 = p + 17 from by omega] at hv ⊢
  rw [hv, HircSoundType.fromRepr_eq_none h0 h1]
  exact bind_step_err _ _ _ _ rfl

/-- C5 counterexample to the claim as stated: the error produced for an
invalid sound-type byte is the binrw no-variant-match error, not
`UnknownSoundType`. -/
theorem sound_type_error_is_not_unknown_sound_type :
    HircSound.read_args 35 ⟨c5buf, 0⟩ = .error (.binrwNoVariantMatch 17) ∧
    (BnkErr.binrwNoVariantMatch 17).isUnknownSoundTypeErr = false :=
  ⟨rfl, rfl⟩

/-- C5 witness: the amended theorem applied at `c5buf` (sound-type byte
2 at offset 17). -/
theorem sound_type_invalid_binrw_error_witness :
    HircSound.read_args 35 ⟨c5buf, 0⟩ =
      .error (.binrwNoVariantMatch ((⟨c5buf, 0⟩ : Rd).pos + 17)) :=
  sound_type_invalid_binrw_error 35 ⟨c5buf, 0⟩ 2 (by decide) (by decide)
    (by decide) (by decide)

theorem fixEntries_getElem? :
    ∀ (es : List DidxEntry) (ds : List (List Nat)) (off i : Nat)
      (e : DidxEntry) (d : List Nat),
      off + (ds.map List.length).sum < 2 ^ 32 →
      es[i]? = some e → ds[i]? = some d →
      (fixEntries es ds off)[i]? =
        some ⟨e.id, off + ((ds.take i).map List.length).sum, d.length⟩ := by
  intro es
  induction es with
  | nil =>
    intro ds off i e d hlt he hd
    simp at he
  | cons e0 es ih =>
    intro ds off i e d hlt he hd
    cases ds with
    | nil => simp at hd
    | cons d0 ds =>
      simp only [List.map_cons, List.sum_cons] at hlt
      have hl : d0.length % 2 ^ 32 = d0.length := Nat.mod_eq_of_lt (by omega)
      cases i with
      | zero =>
        rw [List.getElem?_cons_zero] at he hd
        obtain rfl := Option.some.inj he
        obtain rfl := Option.some.inj hd
        simp [fixEntries, hl]
        omega
      | succ j =>
        rw [List.getElem?_cons_succ] at he hd
        have hoff : (off + d0.length % 2 ^ 32) % 2 ^ 32 = off + d0.length := by
          rw [hl]
          exact Nat.mod_eq_of_lt (by omega)
        rw [fixEntries, List.getElem?_cons_succ, hoff,
          ih ds (off + d0.length) j e d (by omega) he hd]
        simp [Nat.add_assoc]

/-- C6: the pre-encode normalize step.  With both a `DIDX` and a `DATA`
section present, unequal entry/blob counts fail with `BadDataSize`;
equal counts rewrite the last `DIDX` section's entries so that entry `i`
keeps its id, its length becomes blob `i`'s byte length and its offset
the sum of the preceding recomputed lengths (exact as long as the blob
lengths total below `2^32`, where the `u32` arithmetic cannot wrap). -/
theorem fix_values_normalizes :
    (∀ b es ds, lastDidxEntries? b.sections = some es →
      lastDataList? b.sections = some ds → es.length ≠ ds.length →
      Bnk.fix_values b = .error (.badDataSize "DIDX entries" ds.length es.length 0)) ∧
    (∀ b es ds, lastDidxEntries? b.sections = some es →
      lastDataList? b.sections = some ds → es.length = ds.length →
      Bnk.fix_values b = .ok ⟨replaceLastDidx b.sections (fixEntries es ds 0)⟩) ∧
    (∀ (es : List DidxEntry) (ds : List (List Nat)) (i : Nat)
      (e : DidxEntry) (d : List Nat), (ds.map List.length).sum < 2 ^ 32 →
      es[i]? = some e → ds[i]? = some d →
      (fixEntries es ds 0)[i]? =
        some ⟨e.id, ((ds.take i).map List.length).sum, d.length⟩) := by
  refine ⟨?_, ?_, ?_⟩
  · intro b es ds he hd hne
    unfold Bnk.fix_values
    rw [he, hd]
    exact if_pos hne
  · intro b es ds he hd heq
    unfold Bnk.fix_values
    rw [he, hd]
    exact if_neg (not_ne_iff.mpr heq)
  · intro es ds i e d hlt he hd
    simpa using fixEntries_getElem? es ds 0 i e d (by omega) he hd

/-- C6 witness: the scenario of the specification — two index entries
recording lengths 10 and 20 at offsets 0 and 10, with the first blob
shrunk to 5 bytes, normalize to `[offset 0, length 5]`,
`[offset 5, length 20]`. -/
theorem fix_values_normalizes_witness :
    Bnk.fix_values c6bank = .ok ⟨replaceLastDidx c6bank.sections
      (fixEntries [⟨100, 0, 10⟩, ⟨200, 10, 20⟩]
        [List.replicate 5 1, List.replicate 20 2] 0)⟩ ∧
    (fixEntries [⟨100, 0, 10⟩, ⟨200, 10, 20⟩]
      [List.replicate 5 1, List.replicate 20 2] 0)[0]? = some ⟨100, 0, 5⟩ ∧
    (fixEntries [⟨100, 0, 10⟩, ⟨200, 10, 20⟩]
      [List.replicate 5 1, List.replicate 20 2] 0)[1]? = some ⟨200, 5, 20⟩ := by
  refine ⟨fix_values_normalizes.2.1 c6bank [⟨100, 0, 10⟩, ⟨200, 10, 20⟩]
    [List.replicate 5 1, List.replicate 20 2] rfl rfl rfl, ?_, ?_⟩
  · have := fix_values_normalizes.2.2 [⟨100, 0, 10⟩, ⟨200, 10, 20⟩]
      [List.replicate 5 1, List.replicate 20 2] 0 ⟨100, 0, 10⟩
      (List.replicate 5 1) (by decide) rfl rfl
    simpa using this
  · have := fix_values_normalizes.2.2 [⟨100, 0, 10⟩, ⟨200, 10, 20⟩]
      [List.replicate 5 1, List.replicate 20 2] 1 ⟨200, 10, 20⟩
      (List.replicate 20 2) (by decide) rfl rfl
    simpa using this

/-- C8 (amended): the decode loop of `Bnk::from_reader` terminates
successfully exactly when the 4-byte magic read hits end-of-stream —
which on the in-memory cursor means FEWER THAN 4 bytes remain, zero or
not.  Forward: any successful run leaves a final cursor with fewer than
4 bytes left.  Backward: whenever fewer than 4 bytes remain at the top
of the loop, it stops successfully right there with the sections decoded
so far. -/
theorem decode_loop_stops_on_short_magic :
    (∀ F fuel acc rd sections rd',
      Bnk.parse_sections F fuel acc rd = .ok (sections, rd') →
      rd'.data.length < rd'.pos + 4) ∧
    (∀ F fuel acc rd, rd.data.length < rd.pos + 4 →
      Bnk.parse_sections F (fuel + 1) acc rd = .ok (acc, rd)) := by
  constructor
  · intro F fuel
    induction fuel with
    | zero =>
      intro acc rd sections rd' h
      simp [Bnk.parse_sections, merr] at h
    | succ n ih =>
      intro acc rd sections rd' h
      simp only [Bnk.parse_sections] at h
      split at h
      · rename_i e heq
        simp only [Except.ok.injEq, Prod.mk.injEq] at h
        obtain ⟨rfl, rfl⟩ := h
        exact (readBytes_eq_error.mp heq).1
      · rename_i magic rd₁ heq
        split at h
        · obtain ⟨a, rd₂, _, h₂⟩ := M.bind_eq_ok.mp h
          exact ih (acc ++ [a]) rd₂ sections rd' h₂
        · obtain ⟨a, rd₂, _, h₂⟩ := M.bind_eq_ok.mp h
          exact ih (acc ++ [a]) rd₂ sections rd' h₂
  · intro F fuel acc rd hlt
    simp only [Bnk.parse_sections]
    rw [show readBytes 4 rd = .error .ioEof from readBytes_eq_error.mpr ⟨hlt, rfl⟩]

/-- C8 witness: on the 2-byte stream `[66, 75]` the loop stops
successfully at once, and the final cursor indeed has fewer than 4 bytes
left. -/
theorem decode_loop_stops_on_short_magic_witness :
    Bnk.parse_sections 3 1 [] ⟨[66, 75], 0⟩ = .ok ([], ⟨[66, 75], 0⟩) ∧
    (⟨[66, 75], 0⟩ : Rd).data.length < (⟨[66, 75], 0⟩ : Rd).pos + 4 :=
  ⟨decode_loop_stops_on_short_magic.2 3 0 [] ⟨[66, 75], 0⟩ (by decide),
   decode_loop_stops_on_short_magic.1 3 1 [] ⟨[66, 75], 0⟩ [] ⟨[66, 75], 0⟩
     (decode_loop_stops_on_short_magic.2 3 0 [] ⟨[66, 75], 0⟩ (by decide))⟩

/-- C8 counterexample to "zero bytes read": the stream `[66, 75]` holds
the first two bytes of a `BKHD` magic, so end-of-stream is reached with
two magic bytes available, not zero — yet decode still terminates
successfully, dropping them. -/
theorem short_magic_two_bytes_still_ok :
    Bnk.from_reader ⟨[66, 75], 0⟩ = .ok ⟨[]⟩ ∧
    (⟨[66, 75], 0⟩ : Rd).data.length ≠ (⟨[66, 75], 0⟩ : Rd).pos :=
  ⟨rfl, by decide⟩

theorem readU64_eq_ok {rd : Rd} {v : Nat} {rd' : Rd} :
    readU64 rd = .ok (v, rd') ↔
      rd.pos + 8 ≤ rd.data.length ∧ v = leN ((rd.data.drop rd.pos).take 8) ∧
        rd' = ⟨rd.data, rd.pos + 8⟩ := by
  unfold readU64
  rw [M.bind_eq_ok]
  constructor
  · rintro ⟨bs, rdm, h1, h2⟩
    rw [readBytes_eq_ok] at h1
    cases h2
    exact ⟨h1.1, by rw [h1.2.1], h1.2.2⟩
  · rintro ⟨h1, h2, h3⟩
    exact ⟨_, _, readBytes_eq_ok.mpr ⟨h1, rfl, h3⟩, by subst h2; rfl⟩

/-! ### The two-pass length patch and the in-memory length fields -/

theorem wbind_eq_ok {α β : Type} {x : W α} {f : α → W β} {w : Wr} {r : β × Wr} :
    (x >>= f) w = .ok r ↔ ∃ a w', x w = .ok (a, w') ∧ f a w' = .ok r := by
  show (match x w with | .ok (a, w') => f a w' | .error e => .error e) = _ ↔ _
  cases h : x w with
  | ok p =>
    obtain ⟨a, w'⟩ := p
    constructor
    · intro h2
      exact ⟨a, w', rfl, h2⟩
    · rintro ⟨b, w'', hb, h2⟩
      obtain ⟨h3, h4⟩ := Prod.mk.injEq .. ▸ Except.ok.inj hb
      show f a w' = .ok r
      rw [h3, h4]
      exact h2
  | error e =>
    constructor
    · intro h2
      exact Except.noConfusion h2
    · rintro ⟨b, w'', hb, h2⟩
      exact Except.noConfusion hb

theorem wpure_eq_ok {α : Type} {a b : α} {w w' : Wr} :
    (pure a : W α) w = .ok (b, w') ↔ b = a ∧ w' = w := by
  constructor
  · intro h
    obtain ⟨h1, h2⟩ := Prod.mk.injEq .. ▸ Except.ok.inj h
    exact ⟨h1.symm, h2.symm⟩
  · rintro ⟨rfl, rfl⟩
    rfl

/-- `HircEntry::write_to` leaves the entry as decoded except for the
payload normalisation of `fix_values`; in particular the stored `length`
field is untouched. -/
theorem HircEntry.write_to_eq (e : HircEntry) (w : Wr) :
    ∃ w', HircEntry.write_to e w =
      .ok ({ e with payload := e.payload.fix_values }, w') :=
  ⟨_, rfl⟩

theorem writeHircEntries_lengths :
    ∀ (es : List HircEntry) (w : Wr) (es' : List HircEntry) (w' : Wr),
      writeHircEntries es w = .ok (es', w') →
      es'.map HircEntry.length = es.map HircEntry.length := by
  intro es
  induction es with
  | nil =>
    intro w es' w' h
    obtain ⟨rfl, rfl⟩ := wpure_eq_ok.mp h
    rfl
  | cons e rest ih =>
    intro w es' w' h
    rw [writeHircEntries] at h
    obtain ⟨a, w₂, ha, h⟩ := wbind_eq_ok.mp h
    obtain ⟨b, w₃, hb, h⟩ := wbind_eq_ok.mp h
    obtain ⟨rfl, rfl⟩ := wpure_eq_ok.mp h
    obtain ⟨wx, hx⟩ := HircEntry.write_to_eq e w
    rw [hx] at ha
    obtain ⟨h4, h5⟩ := Prod.mk.injEq .. ▸ Except.ok.inj ha
    simp only [List.map_cons]
    rw [ih _ _ _ hb, ← h4]

theorem Bnk.write_section_preserves :
    ∀ (didx : Option (List DidxEntry)) (s : Section) (w : Wr)
      (s' : Section) (didx' : Option (List DidxEntry)) (w' : Wr),
      Bnk.write_section didx s w = .ok ((s', didx'), w') →
      s'.section_length = s.section_length ∧ s'.hirc_lengths = s.hirc_lengths := by
  intro didx s w s' didx' w' h
  obtain ⟨mg, sl, pl⟩ := s
  unfold Bnk.write_section at h
  obtain ⟨u1, w₁, hu1, hA⟩ := wbind_eq_ok.mp h
  obtain ⟨u2, w₂, hu2, hB⟩ := wbind_eq_ok.mp hA
  obtain ⟨sp, w₃, hsp, hC⟩ := wbind_eq_ok.mp hB
  cases pl with
  | bkhd v i u =>
    obtain ⟨a1, b1, c1, h1⟩ := wbind_eq_ok.mp hC
    obtain ⟨a2, b2, c2, h2⟩ := wbind_eq_ok.mp h1
    obtain ⟨a3, b3, c3, h3⟩ := wbind_eq_ok.mp h2
    obtain ⟨y, wy, hy, h4⟩ := wbind_eq_ok.mp h3
    obtain ⟨hpair, hwy⟩ := wpure_eq_ok.mp hy
    rw [hpair] at h4
    obtain ⟨a4, b4, c4, h5⟩ := wbind_eq_ok.mp h4
    obtain ⟨a5, b5, c5, h6⟩ := wbind_eq_ok.mp h5
    obtain ⟨a6, b6, c6, h7⟩ := wbind_eq_ok.mp h6
    obtain ⟨a7, b7, c7, h8⟩ := wbind_eq_ok.mp h7
    obtain ⟨heq, hwl⟩ := wpure_eq_ok.mp h8
    obtain ⟨hs, hd⟩ := Prod.mk.injEq .. ▸ heq
    rw [hs]
    exact ⟨rfl, rfl⟩
  | didx entries =>
    obtain ⟨a1, b1, c1, h1⟩ := wbind_eq_ok.mp hC
    obtain ⟨y, wy, hy, h4⟩ := wbind_eq_ok.mp h1
    obtain ⟨hpair, hwy⟩ := wpure_eq_ok.mp hy
    rw [hpair] at h4
    obtain ⟨a4, b4, c4, h5⟩ := wbind_eq_ok.mp h4
    obtain ⟨a5, b5, c5, h6⟩ := wbind_eq_ok.mp h5
    obtain ⟨a6, b6, c6, h7⟩ := wbind_eq_ok.mp h6
    obtain ⟨a7, b7, c7, h8⟩ := wbind_eq_ok.mp h7
    obtain ⟨heq, hwl⟩ := wpure_eq_ok.mp h8
    obtain ⟨hs, hd⟩ := Prod.mk.injEq .. ▸ heq
    rw [hs]
    exact ⟨rfl, rfl⟩
  | hirc entries =>
    obtain ⟨a1, b1, c1, h1⟩ := wbind_eq_ok.mp hC
    obtain ⟨es', wh, hes, h2⟩ := wbind_eq_ok.mp h1
    obtain ⟨y, wy, hy, h4⟩ := wbind_eq_ok.mp h2
    obtain ⟨hpair, hwy⟩ := wpure_eq_ok.mp hy
    rw [hpair] at h4
    obtain ⟨a4, b4, c4, h5⟩ := wbind_eq_ok.mp h4
    obtain ⟨a5, b5, c5, h6⟩ := wbind_eq_ok.mp h5
    obtain ⟨a6, b6, c6, h7⟩ := wbind_eq_ok.mp h6
    obtain ⟨a7, b7, c7, h8⟩ := wbind_eq_ok.mp h7
    obtain ⟨heq, hwl⟩ := wpure_eq_ok.mp h8
    obtain ⟨hs, hd⟩ := Prod.mk.injEq .. ▸ heq
    rw [hs]
    refine ⟨rfl, ?_⟩
    show es'.map HircEntry.length = entries.map HircEntry.length
    exact writeHircEntries_lengths entries _ es' _ hes
  | data data_list =>
    cases didx with
    | none => exact Except.noConfusion hC
    | some didx_entries =>
      obtain ⟨a1, b1, c1, h1⟩ := wbind_eq_ok.mp hC
      obtain ⟨a2, b2, c2, h2⟩ := wbind_eq_ok.mp h1
      obtain ⟨y, wy, hy, h4⟩ := wbind_eq_ok.mp h2
      obtain ⟨hpair, hwy⟩ := wpure_eq_ok.mp hy
      rw [hpair] at h4
      obtain ⟨a4, b4, c4, h5⟩ := wbind_eq_ok.mp h4
      obtain ⟨a5, b5, c5, h6⟩ := wbind_eq_ok.mp h5
      obtain ⟨a6, b6, c6, h7⟩ := wbind_eq_ok.mp h6
      obtain ⟨a7, b7, c7, h8⟩ := wbind_eq_ok.mp h7
      obtain ⟨heq, hwl⟩ := wpure_eq_ok.mp h8
      obtain ⟨hs, hd⟩ := Prod.mk.injEq .. ▸ heq
      rw [hs]
      exact ⟨rfl, rfl⟩
  | unk d =>
    obtain ⟨a1, b1, c1, h1⟩ := wbind_eq_ok.mp hC
    obtain ⟨y, wy, hy, h4⟩ := wbind_eq_ok.mp h1
    obtain ⟨hpair, hwy⟩ := wpure_eq_ok.mp hy
    rw [hpair] at h4
    obtain ⟨a4, b4, c4, h5⟩ := wbind_eq_ok.mp h4
    obtain ⟨a5, b5, c5, h6⟩ := wbind_eq_ok.mp h5
    obtain ⟨a6, b6, c6, h7⟩ := wbind_eq_ok.mp h6
    obtain ⟨a7, b7, c7, h8⟩ := wbind_eq_ok.mp h7
    obtain ⟨heq, hwl⟩ := wpure_eq_ok.mp h8
    obtain ⟨hs, hd⟩ := Prod.mk.injEq .. ▸ heq
    rw [hs]
    exact ⟨rfl, rfl⟩

theorem Bnk.write_sections_preserves :
    ∀ (sections : List Section) (didx : Option (List DidxEntry)) (w : Wr)
      (sections' : List Section) (w' : Wr),
      Bnk.write_sections didx sections w = .ok (sections', w') →
      sections'.map Section.section_length = sections.map Section.section_length ∧
      sections'.map Section.hirc_lengths = sections.map Section.hirc_lengths := by
  intro sections
  induction sections with
  | nil =>
    intro didx w sections' w' h
    obtain ⟨rfl, rfl⟩ := wpure_eq_ok.mp h
    exact ⟨rfl, rfl⟩
  | cons s rest ih =>
    intro didx w sections' w' h
    rw [Bnk.write_sections] at h
    obtain ⟨p, w₂, hp, h⟩ := wbind_eq_ok.mp h
    obtain ⟨sp, dp⟩ := p
    obtain ⟨rest', w₃, hrest, h⟩ := wbind_eq_ok.mp h
    obtain ⟨rfl, rfl⟩ := wpure_eq_ok.mp h
    obtain ⟨h1, h2⟩ := Bnk.write_section_preserves _ _ _ _ _ _ hp
    obtain ⟨h3, h4⟩ := ih _ _ _ _ hrest
    exact ⟨by simp [h1, h3], by simp [h2, h4]⟩

theorem replaceFirstDidx_map_section_length :
    ∀ (sections : List Section) (entries' : List DidxEntry),
      (replaceFirstDidx sections entries').map Section.section_length =
        sections.map Section.section_length := by
  intro sections entries'
  induction sections with
  | nil => rfl
  | cons s rest ih =>
    obtain ⟨mg, sl, pl⟩ := s
    cases pl <;> simp [replaceFirstDidx, ih]

theorem replaceFirstDidx_map_hirc_lengths :
    ∀ (sections : List Section) (entries' : List DidxEntry),
      (replaceFirstDidx sections entries').map Section.hirc_lengths =
        sections.map Section.hirc_lengths := by
  intro sections entries'
  induction sections with
  | nil => rfl
  | cons s rest ih =>
    obtain ⟨mg, sl, pl⟩ := s
    cases pl <;> simp [replaceFirstDidx, Section.hirc_lengths, ih]

theorem replaceLastDidx_map_section_length (sections : List Section)
    (entries' : List DidxEntry) :
    (replaceLastDidx sections entries').map Section.section_length =
      sections.map Section.section_length := by
  unfold replaceLastDidx
  rw [List.map_reverse, replaceFirstDidx_map_section_length, ← List.map_reverse,
    List.reverse_reverse]

theorem replaceLastDidx_map_hirc_lengths (sections : List Section)
    (entries' : List DidxEntry) :
    (replaceLastDidx sections entries').map Section.hirc_lengths =
      sections.map Section.hirc_lengths := by
  unfold replaceLastDidx
  rw [List.map_reverse, replaceFirstDidx_map_hirc_lengths, ← List.map_reverse,
    List.reverse_reverse]

theorem fix_values_preserves (b b₁ : Bnk) (h : Bnk.fix_values b = .ok b₁) :
    b₁.sections.map Section.section_length = b.sections.map Section.section_length ∧
    b₁.sections.map Section.hirc_lengths = b.sections.map Section.hirc_lengths := by
  unfold Bnk.fix_values at h
  split at h
  · split at h
    · exact Except.noConfusion h
    · obtain rfl := Except.ok.inj h
      exact ⟨replaceLastDidx_map_section_length _ _, replaceLastDidx_map_hirc_lengths _ _⟩
  · obtain rfl := Except.ok.inj h
    exact ⟨rfl, rfl⟩

/-- C10: encoding never mutates the stored `Section.section_length` or
`HircEntry.length` fields: when `Bnk::write_to` succeeds, the returned
in-memory bank has, section by section, the same stored
`section_length` values and the same stored HIRC-entry `length` values
as before the call — the recomputed lengths of the two-pass patch go
only to the output stream. -/
theorem write_to_preserves_stored_lengths :
    ∀ (b : Bnk) (w : Wr) (b' : Bnk) (w' : Wr),
      Bnk.write_to b w = .ok (b', w') →
      b'.sections.map Section.section_length = b.sections.map Section.section_length ∧
      b'.sections.map Section.hirc_lengths = b.sections.map Section.hirc_lengths := by
  intro b w b' w' h
  unfold Bnk.write_to at h
  obtain ⟨b₁, w₁, hb₁, h⟩ := wbind_eq_ok.mp h
  obtain ⟨sections', w₂, hsec, h⟩ := wbind_eq_ok.mp h
  obtain ⟨rfl, rfl⟩ := wpure_eq_ok.mp h
  have hfx : Bnk.fix_values b = .ok b₁ := by
    simp only [wliftE] at hb₁
    split at hb₁
    · rename_i a ha
      obtain ⟨h1, h2⟩ := Prod.mk.injEq .. ▸ Except.ok.inj hb₁
      exact h1 ▸ ha
    · exact Except.noConfusion hb₁
  obtain ⟨f1, f2⟩ := fix_values_preserves b b₁ hfx
  obtain ⟨s1, s2⟩ := Bnk.write_sections_preserves b₁.sections none _ _ _ hsec
  exact ⟨s1.trans f1, s2.trans f2⟩

/-- C10 witness: the bank whose single section stores `section_length`
99 over a 2-byte payload encodes successfully, the stream receives the
recomputed length 2 (bytes 4-7 of the output), and the returned bank
still stores 99. -/
theorem write_to_preserves_stored_lengths_witness :
    Bnk.write_to c10bank ⟨[], 0⟩ =
      .ok (⟨[⟨[88, 88, 88, 88], 99, .unk [1, 2]⟩]⟩,
        ⟨[88, 88, 88, 88, 2, 0, 0, 0, 1, 2], 10⟩) ∧
    (⟨[⟨[88, 88, 88, 88], 99, .unk [1, 2]⟩]⟩ : Bnk).sections.map Section.section_length =
      c10bank.sections.map Section.section_length ∧
    (⟨[⟨[88, 88, 88, 88], 99, .unk [1, 2]⟩]⟩ : Bnk).sections.map Section.hirc_lengths =
      c10bank.sections.map Section.hirc_lengths :=
  ⟨rfl,
   (write_to_preserves_stored_lengths c10bank ⟨[], 0⟩
     ⟨[⟨[88, 88, 88, 88], 99, .unk [1, 2]⟩]⟩
     ⟨[88, 88, 88, 88, 2, 0, 0, 0, 1, 2], 10⟩ rfl).1,
   (write_to_preserves_stored_lengths c10bank ⟨[], 0⟩
     ⟨[⟨[88, 88, 88, 88], 99, .unk [1, 2]⟩]⟩
     ⟨[88, 88, 88, 88, 2, 0, 0, 0, 1, 2], 10⟩ rfl).2⟩

/-! ### `MissingDidx` can only come from the `DATA` arm: a `NoMD`
("never `MissingDidx`") lemma for every other parser -/

theorem noMD_pure {α : Type} (a : α) : NoMD (pure a) :=
  fun _ h => Except.noConfusion h

theorem noMD_merr {α : Type} {e : BnkErr} (he : e ≠ .missingDidx) :
    NoMD (merr e : M α) :=
  fun _ h => he (Except.error.inj h)

theorem noMD_bind {α β : Type} {x : M α} {f : α → M β}
    (hx : NoMD x) (hf : ∀ a, NoMD (f a)) : NoMD (x >>= f) := by
  intro rd h
  rcases M.bind_eq_error.mp h with h1 | ⟨a, rd', _, h2⟩
  · exact hx rd h1
  · exact hf a rd' h2

theorem noMD_readBytes (n : Nat) : NoMD (readBytes n) := by
  intro rd h
  exact BnkErr.noConfusion (readBytes_eq_error.mp h).2

theorem noMD_readU8 : NoMD readU8 :=
  noMD_bind (noMD_readBytes _) fun _ => noMD_pure _

theorem noMD_readU16 : NoMD readU16 :=
  noMD_bind (noMD_readBytes _) fun _ => noMD_pure _

theorem noMD_readU32 : NoMD readU32 :=
  noMD_bind (noMD_readBytes _) fun _ => noMD_pure _

theorem noMD_readU64 : NoMD readU64 :=
  noMD_bind (noMD_readBytes _) fun _ => noMD_pure _

theorem noMD_mtell : NoMD mtell :=
  fun _ h => Except.noConfusion h

theorem noMD_mseek (p : Nat) : NoMD (mseek p) :=
  fun _ h => Except.noConfusion h

theorem noMD_okOr {α : Type} {o : Option α} {e : BnkErr}
    (he : e ≠ .missingDidx) : NoMD (okOr o e) := by
  cases o with
  | none => exact noMD_merr he
  | some a => exact noMD_pure a

theorem noMD_mreplicate {α : Type} {p : M α} :
    ∀ n, NoMD p → NoMD (mreplicate n p) := by
  intro n hp
  induction n with
  | zero => exact noMD_pure _
  | succ k ih =>
    exact noMD_bind hp fun _ => noMD_bind ih fun _ => noMD_pure _

theorem noMD_ite {α : Type} {c : Prop} [Decidable c] {x y : M α}
    (hx : NoMD x) (hy : NoMD y) : NoMD (if c then x else y) := by
  by_cases h : c
  · rw [if_pos h]; exact hx
  · rw [if_neg h]; exact hy

theorem noMD_AkPathMode : NoMD AkPathMode.read :=
  noMD_bind noMD_mtell fun _ => noMD_bind noMD_readU8 fun _ =>
    noMD_okOr (fun hh => BnkErr.noConfusion hh)

theorem noMD_AkMusicTrackType : NoMD AkMusicTrackType.read :=
  noMD_bind noMD_mtell fun _ => noMD_bind noMD_readU8 fun _ =>
    noMD_okOr (fun hh => BnkErr.noConfusion hh)

theorem noMD_AkPathVertex : NoMD AkPathVertex.read :=
  noMD_bind noMD_readU32 fun _ => noMD_bind noMD_readU32 fun _ =>
    noMD_bind noMD_readU32 fun _ => noMD_bind noMD_readU32 fun _ => noMD_pure _

theorem noMD_AkPathListItemOffset : NoMD AkPathListItemOffset.read :=
  noMD_bind noMD_readU32 fun _ => noMD_bind noMD_readU32 fun _ => noMD_pure _

theorem noMD_Ak3DAutomationParams : NoMD Ak3DAutomationParams.read :=
  noMD_bind noMD_readU32 fun _ => noMD_bind noMD_readU32 fun _ =>
    noMD_bind noMD_readU32 fun _ => noMD_pure _

theorem noMD_PositioningParams : NoMD PositioningParams.read_options := by
  unfold PositioningParams.read_options
  apply noMD_bind noMD_readU8
  intro bits
  apply noMD_ite
  · apply noMD_bind noMD_readU8
    intro b3
    apply noMD_ite
    · exact noMD_bind noMD_AkPathMode fun _ => noMD_bind noMD_readU32 fun _ =>
        noMD_bind noMD_readU32 fun _ =>
        noMD_bind (noMD_mreplicate _ noMD_AkPathVertex) fun _ =>
        noMD_bind noMD_readU32 fun _ =>
        noMD_bind (noMD_mreplicate _ noMD_AkPathListItemOffset) fun _ =>
        noMD_bind (noMD_mreplicate _ noMD_Ak3DAutomationParams) fun _ => noMD_pure _
    · exact noMD_pure _
  · apply noMD_bind (noMD_pure 0)
    intro b3
    apply noMD_ite
    · exact noMD_bind noMD_AkPathMode fun _ => noMD_bind noMD_readU32 fun _ =>
        noMD_bind noMD_readU32 fun _ =>
        noMD_bind (noMD_mreplicate _ noMD_AkPathVertex) fun _ =>
        noMD_bind noMD_readU32 fun _ =>
        noMD_bind (noMD_mreplicate _ noMD_AkPathListItemOffset) fun _ =>
        noMD_bind (noMD_mreplicate _ noMD_Ak3DAutomationParams) fun _ => noMD_pure _
    · exact noMD_pure _

theorem noMD_NodeInitialFxParams : NoMD NodeInitialFxParams.read :=
  noMD_bind noMD_readU8 fun _ => noMD_bind noMD_readU8 fun _ => noMD_pure _

theorem noMD_AkPropBundleElem : NoMD AkPropBundleElem.read :=
  noMD_bind noMD_readU8 fun _ => noMD_bind noMD_readU32 fun _ => noMD_pure _

theorem noMD_AkPropBundle : NoMD AkPropBundle.read :=
  noMD_bind noMD_readU8 fun _ =>
    noMD_bind (noMD_mreplicate _ noMD_AkPropBundleElem) fun _ => noMD_pure _

theorem noMD_NodeInitialParams : NoMD NodeInitialParams.read :=
  noMD_bind noMD_AkPropBundle fun _ =>
    noMD_bind noMD_AkPropBundle fun _ => noMD_pure _

theorem noMD_AuxParams : NoMD AuxParams.read := by
  unfold AuxParams.read
  apply noMD_bind noMD_readU8
  intro bv
  apply noMD_ite
  · exact noMD_bind (noMD_mreplicate _ noMD_readU32) fun _ =>
      noMD_bind noMD_readU32 fun _ => noMD_pure _
  · exact noMD_bind (noMD_pure _) fun _ =>
      noMD_bind noMD_readU32 fun _ => noMD_pure _

theorem noMD_AdvSettingsParams : NoMD AdvSettingsParams.read :=
  noMD_bind noMD_readU8 fun _ => noMD_bind noMD_readU8 fun _ =>
    noMD_bind noMD_readU16 fun _ => noMD_bind noMD_readU8 fun _ =>
    noMD_bind noMD_readU8 fun _ => noMD_pure _

theorem noMD_AkStatePropertyInfo : NoMD AkStatePropertyInfo.read :=
  noMD_bind noMD_readU8 fun _ => noMD_bind noMD_readU8 fun _ =>
    noMD_bind noMD_readU8 fun _ => noMD_pure _

theorem noMD_AkState : NoMD AkState.read :=
  noMD_bind noMD_readU32 fun _ => noMD_bind noMD_readU32 fun _ => noMD_pure _

theorem noMD_AkStateGroupChunk : NoMD AkStateGroupChunk.read :=
  noMD_bind noMD_readU32 fun _ => noMD_bind noMD_readU8 fun _ =>
    noMD_bind noMD_readU8 fun _ =>
    noMD_bind (noMD_mreplicate _ noMD_AkState) fun _ => noMD_pure _

theorem noMD_StateChunk : NoMD StateChunk.read :=
  noMD_bind noMD_readU8 fun _ =>
    noMD_bind (noMD_mreplicate _ noMD_AkStatePropertyInfo) fun _ =>
    noMD_bind noMD_readU8 fun _ =>
    noMD_bind (noMD_mreplicate _ noMD_AkStateGroupChunk) fun _ => noMD_pure _

theorem noMD_AkRTPCGraphPoint : NoMD AkRTPCGraphPoint.read :=
  noMD_bind noMD_readU32 fun _ => noMD_bind noMD_readU32 fun _ =>
    noMD_bind noMD_readU32 fun _ => noMD_pure _

theorem noMD_InitialRTPCCurve : NoMD InitialRTPCCurve.read :=
  noMD_bind noMD_readU32 fun _ => noMD_bind noMD_readU8 fun _ =>
    noMD_bind noMD_readU8 fun _ => noMD_bind noMD_readU8 fun _ =>
    noMD_bind noMD_readU32 fun _ => noMD_bind noMD_readU8 fun _ =>
    noMD_bind noMD_readU16 fun _ =>
    noMD_bind (noMD_mreplicate _ noMD_AkRTPCGraphPoint) fun _ => noMD_pure _

theorem noMD_InitialRTPC : NoMD InitialRTPC.read :=
  noMD_bind noMD_readU16 fun _ =>
    noMD_bind (noMD_mreplicate _ noMD_InitialRTPCCurve) fun _ => noMD_pure _

theorem noMD_NodeBaseParams : NoMD NodeBaseParams.read :=
  noMD_bind noMD_NodeInitialFxParams fun _ => noMD_bind noMD_readU8 fun _ =>
    noMD_bind noMD_readU8 fun _ => noMD_bind noMD_readU8 fun _ =>
    noMD_bind noMD_readU32 fun _ => noMD_bind noMD_readU32 fun _ =>
    noMD_bind noMD_readU8 fun _ => noMD_bind noMD_NodeInitialParams fun _ =>
    noMD_bind noMD_PositioningParams fun _ => noMD_bind noMD_AuxParams fun _ =>
    noMD_bind noMD_AdvSettingsParams fun _ => noMD_bind noMD_StateChunk fun _ =>
    noMD_bind noMD_InitialRTPC fun _ => noMD_pure _

theorem noMD_Children : NoMD Children.read :=
  noMD_bind noMD_readU32 fun _ =>
    noMD_bind (noMD_mreplicate _ noMD_readU32) fun _ => noMD_pure _

theorem noMD_AkMeterInfo : NoMD AkMeterInfo.read :=
  noMD_bind noMD_readU64 fun _ => noMD_bind noMD_readU64 fun _ =>
    noMD_bind noMD_readU32 fun _ => noMD_bind noMD_readU8 fun _ =>
    noMD_bind noMD_readU8 fun _ => noMD_pure _

theorem noMD_CAkStinger : NoMD CAkStinger.read :=
  noMD_bind noMD_readU32 fun _ => noMD_bind noMD_readU32 fun _ =>
    noMD_bind noMD_readU32 fun _ => noMD_bind noMD_readU32 fun _ =>
    noMD_bind noMD_readU32 fun _ => noMD_bind noMD_readU32 fun _ => noMD_pure _

theorem noMD_MusicNodeParams : NoMD MusicNodeParams.read :=
  noMD_bind noMD_readU8 fun _ => noMD_bind noMD_NodeBaseParams fun _ =>
    noMD_bind noMD_Children fun _ => noMD_bind noMD_AkMeterInfo fun _ =>
    noMD_bind noMD_readU8 fun _ => noMD_bind noMD_readU32 fun _ =>
    noMD_bind (noMD_mreplicate _ noMD_CAkStinger) fun _ => noMD_pure _

theorem noMD_readNullString : ∀ fuel, NoMD (readNullString fuel) := by
  intro fuel
  induction fuel with
  | zero => exact noMD_merr (fun hh => BnkErr.noConfusion hh)
  | succ n ih =>
    exact noMD_bind noMD_readU8 fun b =>
      noMD_ite (noMD_pure _) (noMD_bind ih fun _ => noMD_pure _)

theorem noMD_AkMusicMarkerWwise (fuel : Nat) : NoMD (AkMusicMarkerWwise.read fuel) :=
  noMD_bind noMD_readU32 fun _ => noMD_bind noMD_readU64 fun _ =>
    noMD_bind (noMD_readNullString fuel) fun _ => noMD_pure _

theorem noMD_MusicSegmentInitialValues (fuel : Nat) :
    NoMD (MusicSegmentInitialValues.read fuel) :=
  noMD_bind noMD_MusicNodeParams fun _ => noMD_bind noMD_readU64 fun _ =>
    noMD_bind noMD_readU32 fun _ =>
    noMD_bind (noMD_mreplicate _ (noMD_AkMusicMarkerWwise fuel)) fun _ => noMD_pure _

theorem noMD_HircMusicSegment (fuel length : Nat) :
    NoMD (HircMusicSegment.from_reader fuel length) :=
  noMD_bind noMD_mtell fun _ =>
    noMD_bind (noMD_MusicSegmentInitialValues fuel) fun _ =>
    noMD_bind noMD_mtell fun _ =>
    noMD_ite (noMD_merr (fun hh => BnkErr.noConfusion hh)) (noMD_pure _)


theorem noMD_AkMediaInformation : NoMD AkMediaInformation.read :=
  noMD_bind noMD_readU32 fun _ => noMD_bind noMD_readU32 fun _ =>
    noMD_bind noMD_readU8 fun _ => noMD_pure _

theorem noMD_AkBankSourceData : NoMD AkBankSourceData.read :=
  noMD_bind noMD_readU32 fun _ => noMD_bind noMD_readU8 fun _ =>
    noMD_bind noMD_AkMediaInformation fun _ => noMD_pure _

theorem noMD_AkTrackSrcInfo : NoMD AkTrackSrcInfo.read :=
  noMD_bind noMD_readU32 fun _ => noMD_bind noMD_readU32 fun _ =>
    noMD_bind noMD_readU32 fun _ => noMD_bind noMD_readU64 fun _ =>
    noMD_bind noMD_readU64 fun _ => noMD_bind noMD_readU64 fun _ =>
    noMD_bind noMD_readU64 fun _ => noMD_pure _

theorem noMD_AkClipAutomation : NoMD AkClipAutomation.read :=
  noMD_bind noMD_readU32 fun _ => noMD_bind noMD_readU32 fun _ =>
    noMD_bind noMD_readU32 fun _ =>
    noMD_bind (noMD_mreplicate _ noMD_AkRTPCGraphPoint) fun _ => noMD_pure _

theorem noMD_TrackSwitchAssoc : NoMD TrackSwitchAssoc.read :=
  noMD_bind noMD_readU32 fun _ => noMD_pure _

theorem noMD_SwitchParams : NoMD SwitchParams.read :=
  noMD_bind noMD_readU8 fun _ => noMD_bind noMD_readU32 fun _ =>
    noMD_bind noMD_readU32 fun _ => noMD_bind noMD_readU32 fun _ =>
    noMD_bind (noMD_mreplicate _ noMD_TrackSwitchAssoc) fun _ => noMD_pure _

theorem noMD_FadeParams : NoMD FadeParams.read :=
  noMD_bind noMD_readU32 fun _ => noMD_bind noMD_readU32 fun _ =>
    noMD_bind noMD_readU32 fun _ => noMD_pure _

theorem noMD_TransParams : NoMD TransParams.read :=
  noMD_bind noMD_FadeParams fun _ => noMD_bind noMD_readU32 fun _ =>
    noMD_bind noMD_readU32 fun _ => noMD_bind noMD_FadeParams fun _ => noMD_pure _

theorem noMD_MusicTrackInitialValues : NoMD MusicTrackInitialValues.read := by
  unfold MusicTrackInitialValues.read
  repeat
    first
    | exact noMD_readU8
    | exact noMD_readU32
    | exact noMD_pure _
    | exact noMD_AkBankSourceData
    | exact noMD_AkTrackSrcInfo
    | exact noMD_AkClipAutomation
    | exact noMD_NodeBaseParams
    | exact noMD_AkMusicTrackType
    | exact noMD_SwitchParams
    | exact noMD_TransParams
    | apply noMD_mreplicate
    | apply noMD_ite
    | apply noMD_bind
    | intro a

theorem noMD_HircMusicTrack (length : Nat) : NoMD (HircMusicTrack.from_reader length) :=
  noMD_bind noMD_mtell fun _ =>
    noMD_bind noMD_MusicTrackInitialValues fun _ =>
    noMD_bind noMD_mtell fun _ =>
    noMD_ite (noMD_merr (fun hh => BnkErr.noConfusion hh)) (noMD_pure _)

theorem noMD_AkMusicTransSrcRule : NoMD AkMusicTransSrcRule.read :=
  noMD_bind noMD_readU32 fun _ => noMD_bind noMD_readU32 fun _ =>
    noMD_bind noMD_readU32 fun _ => noMD_bind noMD_readU32 fun _ =>
    noMD_bind noMD_readU32 fun _ => noMD_bind noMD_readU8 fun _ => noMD_pure _

theorem noMD_AkMusicTransDstRule : NoMD AkMusicTransDstRule.read :=
  noMD_bind noMD_readU32 fun _ => noMD_bind noMD_readU32 fun _ =>
    noMD_bind noMD_readU32 fun _ => noMD_bind noMD_readU32 fun _ =>
    noMD_bind noMD_readU32 fun _ => noMD_bind noMD_readU16 fun _ =>
    noMD_bind noMD_readU16 fun _ => noMD_bind noMD_readU8 fun _ =>
    noMD_bind noMD_readU8 fun _ => noMD_pure _

theorem noMD_AkMusicTransitionRule : NoMD AkMusicTransitionRule.read :=
  noMD_bind noMD_readU32 fun _ => noMD_bind noMD_readU32 fun _ =>
    noMD_bind noMD_readU32 fun _ => noMD_bind noMD_readU32 fun _ =>
    noMD_bind noMD_AkMusicTransSrcRule fun _ =>
    noMD_bind noMD_AkMusicTransDstRule fun _ =>
    noMD_bind noMD_readU8 fun _ => noMD_pure _

theorem noMD_MusicTransNodeParams : NoMD MusicTransNodeParams.read :=
  noMD_bind noMD_MusicNodeParams fun _ => noMD_bind noMD_readU32 fun _ =>
    noMD_bind (noMD_mreplicate _ noMD_AkMusicTransitionRule) fun _ => noMD_pure _

theorem noMD_AkMusicRanSeqPlaylistItem :
    ∀ fuel, NoMD (AkMusicRanSeqPlaylistItem.read fuel) := by
  intro fuel
  induction fuel with
  | zero => exact noMD_merr (fun hh => BnkErr.noConfusion hh)
  | succ n ih =>
    exact noMD_bind noMD_readU32 fun _ => noMD_bind noMD_readU32 fun _ =>
      noMD_bind noMD_readU32 fun _ => noMD_bind noMD_readU32 fun _ =>
      noMD_bind noMD_readU16 fun _ => noMD_bind noMD_readU16 fun _ =>
      noMD_bind noMD_readU16 fun _ => noMD_bind noMD_readU32 fun _ =>
      noMD_bind noMD_readU16 fun _ => noMD_bind noMD_readU8 fun _ =>
      noMD_bind noMD_readU8 fun _ =>
      noMD_bind (noMD_mreplicate _ ih) fun _ => noMD_pure _

theorem noMD_readPlaylistItems (N : Nat) :
    ∀ fuel acc, NoMD (readPlaylistItems N fuel acc) := by
  intro fuel
  induction fuel with
  | zero =>
    intro acc
    exact noMD_merr (fun hh => BnkErr.noConfusion hh)
  | succ n ih =>
    intro acc
    exact noMD_bind (noMD_AkMusicRanSeqPlaylistItem (n + 1)) fun item =>
      noMD_ite (ih _)
        (noMD_ite (noMD_pure _)
          (noMD_bind noMD_mtell fun p =>
            noMD_merr (fun hh => BnkErr.noConfusion hh)))

theorem noMD_MusicRanSecCntrInitialValues (fuel : Nat) :
    NoMD (MusicRanSecCntrInitialValues.read_options fuel) :=
  noMD_bind noMD_MusicTransNodeParams fun _ =>
    noMD_bind noMD_readU32 fun n =>
    noMD_bind (noMD_readPlaylistItems n fuel []) fun _ => noMD_pure _

theorem noMD_HircMusicRanSecCntr (fuel length : Nat) :
    NoMD (HircMusicRanSecCntr.from_reader fuel length) :=
  noMD_bind noMD_mtell fun _ =>
    noMD_bind (noMD_MusicRanSecCntrInitialValues fuel) fun _ =>
    noMD_bind noMD_mtell fun _ =>
    noMD_ite (noMD_merr (fun hh => BnkErr.noConfusion hh)) (noMD_pure _)

theorem noMD_HircUnmanagedEntry (data_length : Nat) :
    NoMD (HircUnmanagedEntry.from_reader data_length) :=
  noMD_bind (noMD_readBytes _) fun _ => noMD_pure _

theorem noMD_HircSound (data_length : Nat) : NoMD (HircSound.read_args data_length) :=
  noMD_bind noMD_readU32 fun _ => noMD_bind noMD_readU8 fun _ =>
    noMD_bind noMD_readU32 fun _ => noMD_bind noMD_readU32 fun _ =>
    noMD_bind noMD_readU32 fun _ => noMD_bind noMD_mtell fun _ =>
    noMD_bind noMD_readU8 fun _ =>
    noMD_bind (noMD_okOr (fun hh => BnkErr.noConfusion hh)) fun _ =>
    noMD_bind noMD_readU32 fun _ => noMD_bind noMD_readU8 fun _ =>
    noMD_bind noMD_readU32 fun _ =>
    noMD_bind (noMD_readBytes _) fun _ => noMD_pure _

theorem noMD_HircEventAction (length : Nat) :
    NoMD (HircEventAction.from_reader length) :=
  noMD_bind noMD_readU8 fun _ => noMD_bind noMD_mtell fun _ =>
    noMD_bind (noMD_okOr (fun hh => BnkErr.noConfusion hh)) fun _ =>
    noMD_bind noMD_readU8 fun _ => noMD_bind noMD_readU32 fun _ =>
    noMD_bind noMD_readU8 fun _ => noMD_bind noMD_readU8 fun _ =>
    noMD_bind (noMD_mreplicate _ (noMD_bind noMD_readU8 fun _ => noMD_pure _)) fun _ =>
    noMD_bind (noMD_readBytes _) fun _ => noMD_bind noMD_readU8 fun _ =>
    noMD_bind (noMD_readBytes _) fun _ => noMD_pure _

set_option maxHeartbeats 1600000 in
theorem noMD_HircEntry (fuel : Nat) (t : HircEntryType) :
    NoMD (HircEntry.from_reader fuel t) := by
  cases t <;>
    (unfold HircEntry.from_reader
     repeat
       first
       | exact noMD_readU8
       | exact noMD_readU32
       | exact noMD_pure _
       | exact noMD_HircUnmanagedEntry _
       | exact noMD_HircSound _
       | exact noMD_HircEventAction _
       | exact noMD_HircMusicSegment _ _
       | exact noMD_HircMusicTrack _
       | exact noMD_HircMusicRanSecCntr _ _
       | apply noMD_mreplicate
       | apply noMD_bind
       | intro a)

theorem noMD_readHircEntries (F : Nat) : ∀ n, NoMD (readHircEntries F n) := by
  intro n
  induction n with
  | zero => exact noMD_pure _
  | succ k ih =>
    exact noMD_bind noMD_readU8 fun v =>
      noMD_bind (noMD_HircEntry F _) fun e =>
      noMD_bind ih fun rest => noMD_pure _

theorem noMD_DidxEntry : NoMD DidxEntry.read :=
  noMD_bind noMD_readU32 fun _ => noMD_bind noMD_readU32 fun _ =>
    noMD_bind noMD_readU32 fun _ => noMD_pure _

theorem noMD_Section_from_reader (F : Nat) (magic : List Nat) :
    NoMD (Section.from_reader F magic) :=
  noMD_bind noMD_readU32 fun sl =>
    noMD_ite
      (noMD_bind noMD_readU32 fun _ => noMD_bind noMD_readU32 fun _ =>
        noMD_bind (noMD_readBytes _) fun _ => noMD_pure _)
      (noMD_ite
        (noMD_bind (noMD_mreplicate _ noMD_DidxEntry) fun _ => noMD_pure _)
        (noMD_ite
          (noMD_bind noMD_readU32 fun cnt =>
            noMD_bind (noMD_readHircEntries F cnt) fun _ => noMD_pure _)
          (noMD_ite (noMD_merr (fun hh => BnkErr.noConfusion hh))
            (noMD_bind (noMD_readBytes _) fun _ => noMD_pure _))))

theorem noMD_readDataBlobs (start : Nat) :
    ∀ entries, NoMD (readDataBlobs start entries) := by
  intro entries
  induction entries with
  | nil => exact noMD_pure _
  | cons e rest ih =>
    exact noMD_bind (noMD_mseek _) fun _ =>
      noMD_bind (noMD_readBytes _) fun _ =>
      noMD_bind ih fun _ => noMD_pure _


theorem parse_data_section_none {sections : List Section} {rd : Rd} {v : Nat}
    {rd₁ : Rd} (hnone : firstDidxEntries? sections = none)
    (hru : readU32 rd = .ok (v, rd₁)) :
    parse_data_section sections rd = .error .missingDidx := by
  unfold parse_data_section
  rw [M.run_bind, hru, hnone]
  rfl

theorem parse_data_section_missingDidx {sections : List Section} {rd : Rd}
    (h : parse_data_section sections rd = .error .missingDidx) :
    firstDidxEntries? sections = none := by
  cases hfd : firstDidxEntries? sections with
  | none => rfl
  | some entries =>
    exfalso
    unfold parse_data_section at h
    rcases M.bind_eq_error.mp h with h1 | ⟨v, rd₁, hv, h2⟩
    · exact noMD_readU32 rd h1
    · rw [hfd] at h2
      have hn : NoMD (do
          let data_start_pos ← mtell
          let data_list ← readDataBlobs data_start_pos entries
          mseek (data_start_pos + v)
          pure (⟨[68, 65, 84, 65], v, .data data_list⟩ : Section)) :=
        noMD_bind noMD_mtell fun s =>
          noMD_bind (noMD_readDataBlobs s entries) fun _ =>
          noMD_bind (noMD_mseek _) fun _ => noMD_pure _
      exact hn rd₁ h2

theorem parse_sections_stop {F fuel : Nat} {acc : List Section} {rd : Rd}
    {e : BnkErr} (h : readBytes 4 rd = .error e) :
    Bnk.parse_sections F (fuel + 1) acc rd = .ok (acc, rd) := by
  simp only [Bnk.parse_sections]
  rw [h]

theorem parse_sections_step {F fuel : Nat} {acc : List Section} {rd : Rd}
    {magic : List Nat} {rd₁ : Rd} (h : readBytes 4 rd = .ok (magic, rd₁)) :
    Bnk.parse_sections F (fuel + 1) acc rd =
      (if magic = [68, 65, 84, 65] then
        parse_data_section acc >>= fun sec =>
          Bnk.parse_sections F fuel (acc ++ [sec])
      else
        Section.from_reader F magic >>= fun sec =>
          Bnk.parse_sections F fuel (acc ++ [sec])) rd₁ := by
  simp only [Bnk.parse_sections]
  rw [h]

theorem reach_error_propagates {F : Nat} {acc : List Section} {rd : Rd}
    {acc' : List Section} {rd' : Rd} (hreach : LoopReach F acc rd acc' rd') :
    ∀ {e : BnkErr} {fuel : Nat},
      Bnk.parse_sections F fuel acc' rd' = .error e →
      ∃ fuel', Bnk.parse_sections F fuel' acc rd = .error e := by
  induction hreach with
  | refl =>
    intro e fuel h
    exact ⟨fuel, h⟩
  | step hrb hsec tail ih =>
    intro e fuel h
    obtain ⟨f', hf⟩ := ih h
    refine ⟨f' + 1, ?_⟩
    rw [parse_sections_step hrb]
    split
    · rename_i hc
      rw [if_pos hc] at hsec
      rw [M.run_bind, hsec]
      exact hf
    · rename_i hc
      rw [if_neg hc] at hsec
      rw [M.run_bind, hsec]
      exact hf

/-- C7 (amended): `MissingDidx` arises exactly at a `DATA` magic with no
previously decoded `DIDX` section, with the proviso that the 4-byte
section length following the magic is still readable (if the stream ends
inside it the failure is the IO error instead).  Completeness: a
`MissingDidx` failure means the loop reached a `DATA` magic with a
`DIDX`-free section list.  Soundness: reaching such a state with the
length readable fails the decode with `MissingDidx`.  No parser other
than the `DATA` arm can raise `MissingDidx`, and the `DATA` arm raises
it only with no `DIDX` decoded.  With a `DIDX` present, blob `i` is read
at `data_start + offset_i` for `length_i` bytes. -/
theorem missing_didx_iff_data_before_didx :
    (∀ F fuel acc rd, Bnk.parse_sections F fuel acc rd = .error .missingDidx →
      ∃ acc' rd' rd₁, LoopReach F acc rd acc' rd' ∧
        readBytes 4 rd' = .ok ([68, 65, 84, 65], rd₁) ∧
        firstDidxEntries? acc' = none) ∧
    (∀ F acc rd acc' rd' rd₁ v rd₂, LoopReach F acc rd acc' rd' →
      readBytes 4 rd' = .ok ([68, 65, 84, 65], rd₁) →
      firstDidxEntries? acc' = none →
      readU32 rd₁ = .ok (v, rd₂) →
      ∃ fuel, Bnk.parse_sections F fuel acc rd = .error .missingDidx) ∧
    (∀ F magic rd, Section.from_reader F magic rd ≠ .error .missingDidx) ∧
    (∀ sections rd, parse_data_section sections rd = .error .missingDidx →
      firstDidxEntries? sections = none) ∧
    (∀ entries start rd ds rd',
      readDataBlobs start entries rd = .ok (ds, rd') →
      ds = entries.map fun e =>
        listSlice rd.data (start + e.offset) (start + e.offset + e.length)) := by
  refine ⟨?_, ?_, ?_, ?_, ?_⟩
  · intro F fuel
    induction fuel with
    | zero =>
      intro acc rd h
      simp [Bnk.parse_sections, merr] at h
    | succ n ih =>
      intro acc rd h
      rcases hrb : readBytes 4 rd with e | ⟨magic, rd₁⟩
      · rw [parse_sections_stop hrb] at h
        exact Except.noConfusion h
      · rw [parse_sections_step hrb] at h
        split at h
        · rename_i hc
          subst hc
          rcases M.bind_eq_error.mp h with h1 | ⟨sec, rd₂, hok, herr⟩
          · exact ⟨acc, rd, rd₁, .refl, hrb, parse_data_section_missingDidx h1⟩
          · obtain ⟨acc', rd'', rd₁', hre, hm, hfd⟩ := ih (acc ++ [sec]) rd₂ herr
            refine ⟨acc', rd'', rd₁', .step hrb ?_ hre, hm, hfd⟩
            rw [if_pos rfl]
            exact hok
        · rename_i hc
          rcases M.bind_eq_error.mp h with h1 | ⟨sec, rd₂, hok, herr⟩
          · exact absurd h1 (noMD_Section_from_reader F magic rd₁)
          · obtain ⟨acc', rd'', rd₁', hre, hm, hfd⟩ := ih (acc ++ [sec]) rd₂ herr
            refine ⟨acc', rd'', rd₁', .step hrb ?_ hre, hm, hfd⟩
            rw [if_neg hc]
            exact hok
  · intro F acc rd acc' rd' rd₁ v rd₂ hreach hm hnone hru
    have hbase : Bnk.parse_sections F 1 acc' rd' = .error .missingDidx := by
      rw [show (1 : Nat) = 0 + 1 from rfl, parse_sections_step hm, if_pos rfl,
        M.run_bind, parse_data_section_none hnone hru]
    exact reach_error_propagates hreach hbase
  · intro F magic rd
    exact noMD_Section_from_reader F magic rd
  · intro sections rd h
    exact parse_data_section_missingDidx h
  · intro entries
    induction entries with
    | nil =>
      intro start rd ds rd' h
      obtain ⟨rfl, rfl⟩ := pure_eq_ok.mp h
      rfl
    | cons e rest ih =>
      intro start rd ds rd' h
      rw [readDataBlobs] at h
      obtain ⟨u, rdm, hs, h⟩ := M.bind_eq_ok.mp h
      obtain ⟨d, rd₂, hd, h⟩ := M.bind_eq_ok.mp h
      obtain ⟨ds', rd₃, hds, h⟩ := M.bind_eq_ok.mp h
      obtain ⟨rfl, rfl⟩ := pure_eq_ok.mp h
      obtain ⟨hu, hm⟩ := Prod.mk.injEq .. ▸ Except.ok.inj hs
      subst hm
      obtain ⟨hb1, hb2, hb3⟩ := readBytes_eq_ok.mp hd
      subst hb3
      rw [List.map_cons]
      congr 1
      · rw [hb2]
        show (rd.data.drop (start + e.offset)).take e.length =
          (rd.data.drop (start + e.offset)).take
            (start + e.offset + e.length - (start + e.offset))
        congr 1
        omega
      · exact ih start ⟨rd.data, start + e.offset + e.length⟩ ds' _ hds

/-- C7 counterexample to the unqualified "iff": the 4-byte stream
holding just a `DATA` magic meets the right-hand side (a `DATA` magic
with no previously decoded `DIDX`), yet decode fails with the IO
end-of-stream error from the section-length read, not `MissingDidx`. -/
theorem data_magic_eof_not_missing_didx :
    Bnk.from_reader ⟨[68, 65, 84, 65], 0⟩ = .error .ioEof ∧
    BnkErr.ioEof ≠ BnkErr.missingDidx :=
  ⟨rfl, fun h => BnkErr.noConfusion h⟩

/-- C7 witness: on `DATA` followed by a zero length word the loop fails
with `MissingDidx` from the start state, and a `BKHD` section parse on
zeroes does not produce `MissingDidx`. -/
theorem missing_didx_iff_data_before_didx_witness :
    (∃ fuel, Bnk.parse_sections 3 fuel [] ⟨[68, 65, 84, 65, 0, 0, 0, 0], 0⟩ =
      .error .missingDidx) ∧
    Section.from_reader 3 [66, 75, 72, 68] ⟨[0, 0, 0, 0, 0, 0, 0, 0], 0⟩ ≠
      .error .missingDidx :=
  ⟨missing_didx_iff_data_before_didx.2.1 3 [] ⟨[68, 65, 84, 65, 0, 0, 0, 0], 0⟩
      [] ⟨[68, 65, 84, 65, 0, 0, 0, 0], 0⟩ ⟨[68, 65, 84, 65, 0, 0, 0, 0], 4⟩ 0
      ⟨[68, 65, 84, 65, 0, 0, 0, 0], 8⟩ .refl rfl rfl rfl,
   missing_didx_iff_data_before_didx.2.2.1 3 [66, 75, 72, 68]
      ⟨[0, 0, 0, 0, 0, 0, 0, 0], 0⟩⟩


/-! ### Round-trip lemmas for the `PositioningParams` codec -/

theorem slice_append (l : List Nat) (i j k : Nat) (h1 : i ≤ j) (h2 : j ≤ k) :
    listSlice l i j ++ listSlice l j k = listSlice l i k := by
  unfold listSlice
  rw [show k - i = (j - i) + (k - j) from by omega, List.take_add,
    List.drop_drop, show i + (j - i) = j from by omega]

theorem natLE_leN : ∀ bs : List Nat, (∀ b ∈ bs, b < 256) →
    natLE bs.length (leN bs) = bs := by
  intro bs
  induction bs with
  | nil => intro h; rfl
  | cons b rest ih =>
    intro h
    have hb : b < 256 := h b (List.mem_cons_self ..)
    show natLE (rest.length + 1) (leN (b :: rest)) = b :: rest
    rw [natLE]
    congr 1
    · show (b + 256 * leN rest) % 256 = b
      omega
    · show natLE rest.length ((b + 256 * leN rest) / 256) = rest
      rw [show (b + 256 * leN rest) / 256 = leN rest from by omega]
      exact ih (fun x hx => h x (List.mem_cons_of_mem _ hx))

theorem RT_readN (n : Nat) :
    RT (readBytes n >>= fun bs => pure (leN bs)) (natLE n) := by
  intro rd v rd' hb h
  obtain ⟨bs, rdm, h1, h2⟩ := M.bind_eq_ok.mp h
  obtain ⟨hle, hbs, hrdm⟩ := readBytes_eq_ok.mp h1
  obtain ⟨hv, hrd'⟩ := pure_eq_ok.mp h2
  subst hrdm
  subst hrd'
  subst hv
  refine ⟨rfl, by show rd.pos ≤ rd.pos + n; omega, ?_⟩
  have hlen : bs.length = n := by
    rw [hbs, List.length_take, List.length_drop]
    omega
  have hmem : ∀ b ∈ bs, b < 256 := fun b hm =>
    hb b (List.drop_subset _ _ (List.take_subset _ _ (hbs ▸ hm)))
  calc natLE n (leN bs) = natLE bs.length (leN bs) := by rw [hlen]
    _ = bs := natLE_leN bs hmem
    _ = listSlice rd.data rd.pos (rd.pos + n) := by
        rw [hbs]
        unfold listSlice
        congr 1
        omega

theorem RT_readU8 : RT readU8 (fun v => [v % 256]) := RT_readN 1

theorem RT_readU32 : RT readU32 (natLE 4) := RT_readN 4

theorem mreplicate_length {α : Type} {p : M α} :
    ∀ (n : Nat) (rd : Rd) (as : List α) (rd' : Rd),
      mreplicate n p rd = .ok (as, rd') → as.length = n := by
  intro n
  induction n with
  | zero =>
    intro rd as rd' h
    obtain ⟨rfl, rfl⟩ := pure_eq_ok.mp h
    rfl
  | succ k ih =>
    intro rd as rd' h
    rw [mreplicate] at h
    obtain ⟨a, rd₁, h1, h⟩ := M.bind_eq_ok.mp h
    obtain ⟨rest, rd₂, h2, h⟩ := M.bind_eq_ok.mp h
    obtain ⟨ha, hr⟩ := pure_eq_ok.mp h
    subst ha
    simp [ih _ _ _ h2]

theorem RT_mreplicate {α : Type} {p : M α} {wf : α → List Nat} (hp : RT p wf) :
    ∀ n, RT (mreplicate n p) (fun as => (as.map wf).flatten) := by
  intro n
  induction n with
  | zero =>
    intro rd as rd' hb h
    obtain ⟨ha, hr⟩ := pure_eq_ok.mp h
    subst ha
    rw [hr]
    refine ⟨rfl, le_refl _, ?_⟩
    show ([] : List Nat) = (rd.data.drop rd.pos).take (rd.pos - rd.pos)
    rw [Nat.sub_self, List.take_zero]
  | succ k ih =>
    intro rd as rd' hb h
    rw [mreplicate] at h
    obtain ⟨a, rd₁, h1, h⟩ := M.bind_eq_ok.mp h
    obtain ⟨rest, rd₂, h2, h⟩ := M.bind_eq_ok.mp h
    obtain ⟨ha, hr⟩ := pure_eq_ok.mp h
    subst ha
    rw [hr]
    obtain ⟨e1, l1, w1⟩ := hp rd a rd₁ hb h1
    obtain ⟨e2, l2, w2⟩ := ih rd₁ rest rd₂ (e1.symm ▸ hb) h2
    refine ⟨by rw [e2, e1], le_trans l1 l2, ?_⟩
    show wf a ++ (rest.map wf).flatten = listSlice rd.data rd.pos rd₂.pos
    rw [w1, show (rest.map wf).flatten = listSlice rd.data rd₁.pos rd₂.pos from
      by rw [← e1]; exact w2]
    exact slice_append rd.data rd.pos rd₁.pos rd₂.pos l1 l2

theorem AkPathMode.toNat_fromRepr {v : Nat} {m : AkPathMode}
    (h : AkPathMode.fromRepr v = some m) : m.toNat = v := by
  unfold AkPathMode.fromRepr at h
  split at h
  all_goals first
    | exact Option.noConfusion h
    | (obtain rfl := Option.some.inj h; rfl)

theorem RT_AkPathMode : RT AkPathMode.read (fun m => [m.toNat % 256]) := by
  intro rd m rd' hb h
  unfold AkPathMode.read at h
  obtain ⟨p0, rdt, ht, h⟩ := M.bind_eq_ok.mp h
  obtain ⟨v, rd₁, h1, h⟩ := M.bind_eq_ok.mp h
  obtain ⟨ho, hrd'⟩ := okOr_eq_ok.mp h
  obtain ⟨hp0, hrdt⟩ := mtell_eq_ok.mp ht
  rw [hrd']
  rw [hrdt] at h1
  obtain ⟨e1, l1, w1⟩ := RT_readU8 rd v rd₁ hb h1
  refine ⟨e1, l1, ?_⟩
  show [m.toNat % 256] = listSlice rd.data rd.pos rd₁.pos
  rw [show m.toNat = v from AkPathMode.toNat_fromRepr ho]
  exact w1

theorem RT_AkPathVertex : RT AkPathVertex.read AkPathVertex.write := by
  intro rd a rd' hb h
  unfold AkPathVertex.read at h
  obtain ⟨x, rd₁, h1, h⟩ := M.bind_eq_ok.mp h
  obtain ⟨y, rd₂, h2, h⟩ := M.bind_eq_ok.mp h
  obtain ⟨z, rd₃, h3, h⟩ := M.bind_eq_ok.mp h
  obtain ⟨d, rd₄, h4, h⟩ := M.bind_eq_ok.mp h
  obtain ⟨ha, hr⟩ := pure_eq_ok.mp h
  subst ha
  rw [hr]
  obtain ⟨e1, l1, w1⟩ := RT_readU32 rd x rd₁ hb h1
  obtain ⟨e2, l2, w2⟩ := RT_readU32 rd₁ y rd₂ (e1.symm ▸ hb) h2
  obtain ⟨e3, l3, w3⟩ := RT_readU32 rd₂ z rd₃ (e2.symm ▸ e1.symm ▸ hb) h3
  obtain ⟨e4, l4, w4⟩ := RT_readU32 rd₃ d rd₄ (e3.symm ▸ e2.symm ▸ e1.symm ▸ hb) h4
  refine ⟨by rw [e4, e3, e2, e1], by omega, ?_⟩
  show natLE 4 x ++ natLE 4 y ++ natLE 4 z ++ natLE 4 d =
    listSlice rd.data rd.pos rd₄.pos
  rw [w1,
    show natLE 4 y = listSlice rd.data rd₁.pos rd₂.pos from by rw [w2, e1],
    show natLE 4 z = listSlice rd.data rd₂.pos rd₃.pos from by rw [w3, e2, e1],
    show natLE 4 d = listSlice rd.data rd₃.pos rd₄.pos from by rw [w4, e3, e2, e1],
    slice_append rd.data rd.pos rd₁.pos rd₂.pos l1 l2,
    slice_append rd.data rd.pos rd₂.pos rd₃.pos (le_trans l1 l2) l3,
    slice_append rd.data rd.pos rd₃.pos rd₄.pos (le_trans (le_trans l1 l2) l3) l4]

theorem RT_AkPathListItemOffset :
    RT AkPathListItemOffset.read AkPathListItemOffset.write := by
  intro rd a rd' hb h
  unfold AkPathListItemOffset.read at h
  obtain ⟨x, rd₁, h1, h⟩ := M.bind_eq_ok.mp h
  obtain ⟨y, rd₂, h2, h⟩ := M.bind_eq_ok.mp h
  obtain ⟨ha, hr⟩ := pure_eq_ok.mp h
  subst ha
  rw [hr]
  obtain ⟨e1, l1, w1⟩ := RT_readU32 rd x rd₁ hb h1
  obtain ⟨e2, l2, w2⟩ := RT_readU32 rd₁ y rd₂ (e1.symm ▸ hb) h2
  refine ⟨by rw [e2, e1], le_trans l1 l2, ?_⟩
  show natLE 4 x ++ natLE 4 y = listSlice rd.data rd.pos rd₂.pos
  rw [w1,
    show natLE 4 y = listSlice rd.data rd₁.pos rd₂.pos from by rw [w2, e1],
    slice_append rd.data rd.pos rd₁.pos rd₂.pos l1 l2]

theorem RT_Ak3DAutomationParams :
    RT Ak3DAutomationParams.read Ak3DAutomationParams.write := by
  intro rd a rd' hb h
  unfold Ak3DAutomationParams.read at h
  obtain ⟨x, rd₁, h1, h⟩ := M.bind_eq_ok.mp h
  obtain ⟨y, rd₂, h2, h⟩ := M.bind_eq_ok.mp h
  obtain ⟨z, rd₃, h3, h⟩ := M.bind_eq_ok.mp h
  obtain ⟨ha, hr⟩ := pure_eq_ok.mp h
  subst ha
  rw [hr]
  obtain ⟨e1, l1, w1⟩ := RT_readU32 rd x rd₁ hb h1
  obtain ⟨e2, l2, w2⟩ := RT_readU32 rd₁ y rd₂ (e1.symm ▸ hb) h2
  obtain ⟨e3, l3, w3⟩ := RT_readU32 rd₂ z rd₃ (e2.symm ▸ e1.symm ▸ hb) h3
  refine ⟨by rw [e3, e2, e1], by omega, ?_⟩
  show natLE 4 x ++ natLE 4 y ++ natLE 4 z = listSlice rd.data rd.pos rd₃.pos
  rw [w1,
    show natLE 4 y = listSlice rd.data rd₁.pos rd₂.pos from by rw [w2, e1],
    show natLE 4 z = listSlice rd.data rd₂.pos rd₃.pos from by rw [w3, e2, e1],
    slice_append rd.data rd.pos rd₁.pos rd₂.pos l1 l2,
    slice_append rd.data rd.pos rd₂.pos rd₃.pos (le_trans l1 l2) l3]


/-- C3 (amended): the `PositioningParams` codec round-trips on every
flag combination EXCEPT positioning-without-3D (bit 0 set, bit 1 clear),
where the decoder skips the `bits_3d` byte but the encoder emits one.
On byte-valued input, whenever decode succeeds and the flags are not in
that mismatched combination, encode reproduces exactly the consumed
slice — including the automation block with its vertex and
playlist-item counts. -/
theorem positioning_flag_roundtrip :
    ∀ rd p rd', (∀ b ∈ rd.data, b < 256) →
      PositioningParams.read_options rd = .ok (p, rd') →
      p.bits_positioning % 2 = 0 ∨ p.bits_positioning / 2 % 2 ≠ 0 →
      PositioningParams.write_options p = listSlice rd.data rd.pos rd'.pos := by
  intro rd p rd' hb h hcond
  unfold PositioningParams.read_options at h
  obtain ⟨bits, rd₁, h1, h⟩ := M.bind_eq_ok.mp h
  obtain ⟨e1, l1, w1⟩ := RT_readU8 rd bits rd₁ hb h1
  have W1 : [bits % 256] = listSlice rd.data rd.pos rd₁.pos := w1
  split at h
  · rename_i hc1
    rw [Bool.and_eq_true] at hc1
    obtain ⟨hc1a, hc1b⟩ := hc1
    obtain ⟨b3, rd₂, h2, h⟩ := M.bind_eq_ok.mp h
    obtain ⟨e2, l2, w2⟩ := RT_readU8 rd₁ b3 rd₂ (e1.symm ▸ hb) h2
    have E2 : rd₂.data = rd.data := e2.trans e1
    have W2 : [b3 % 256] = listSlice rd.data rd₁.pos rd₂.pos := by
      rw [← e1]
      exact w2
    dsimp only at h
    split at h
    · rename_i hc2
      obtain ⟨m, rd₃, h3, h⟩ := M.bind_eq_ok.mp h
      obtain ⟨tt, rd₄, h4, h⟩ := M.bind_eq_ok.mp h
      obtain ⟨nv, rd₅, h5, h⟩ := M.bind_eq_ok.mp h
      obtain ⟨vs, rd₆, h6, h⟩ := M.bind_eq_ok.mp h
      obtain ⟨np, rd₇, h7, h⟩ := M.bind_eq_ok.mp h
      obtain ⟨plo, rd₈, h8, h⟩ := M.bind_eq_ok.mp h
      obtain ⟨prm, rd₉, h9, h⟩ := M.bind_eq_ok.mp h
      obtain ⟨hp, hr⟩ := pure_eq_ok.mp h
      subst hp
      rw [hr]
      obtain ⟨e3, l3, w3⟩ := RT_AkPathMode rd₂ m rd₃ (E2.symm ▸ hb) h3
      have E3 : rd₃.data = rd.data := e3.trans E2
      obtain ⟨e4, l4, w4⟩ := RT_readU32 rd₃ tt rd₄ (E3.symm ▸ hb) h4
      have E4 : rd₄.data = rd.data := e4.trans E3
      obtain ⟨e5, l5, w5⟩ := RT_readU32 rd₄ nv rd₅ (E4.symm ▸ hb) h5
      have E5 : rd₅.data = rd.data := e5.trans E4
      obtain ⟨e6, l6, w6⟩ := RT_mreplicate RT_AkPathVertex nv rd₅ vs rd₆
        (E5.symm ▸ hb) h6
      have E6 : rd₆.data = rd.data := e6.trans E5
      obtain ⟨e7, l7, w7⟩ := RT_readU32 rd₆ np rd₇ (E6.symm ▸ hb) h7
      have E7 : rd₇.data = rd.data := e7.trans E6
      obtain ⟨e8, l8, w8⟩ := RT_mreplicate RT_AkPathListItemOffset np rd₇ plo rd₈
        (E7.symm ▸ hb) h8
      have E8 : rd₈.data = rd.data := e8.trans E7
      obtain ⟨e9, l9, w9⟩ := RT_mreplicate RT_Ak3DAutomationParams np rd₈ prm rd₉
        (E8.symm ▸ hb) h9
      have hlen6 : vs.length = nv := mreplicate_length nv rd₅ vs rd₆ h6
      have hlen8 : plo.length = np := mreplicate_length np rd₇ plo rd₈ h8
      have W3 : [m.toNat % 256] = listSlice rd.data rd₂.pos rd₃.pos := by
        rw [← E2]
        exact w3
      have W4 : natLE 4 tt = listSlice rd.data rd₃.pos rd₄.pos := by
        rw [← E3]
        exact w4
      have W5 : natLE 4 nv = listSlice rd.data rd₄.pos rd₅.pos := by
        rw [← E4]
        exact w5
      have W6 : (vs.map AkPathVertex.write).flatten =
          listSlice rd.data rd₅.pos rd₆.pos := by
        rw [← E5]
        exact w6
      have W7 : natLE 4 np = listSlice rd.data rd₆.pos rd₇.pos := by
        rw [← E6]
        exact w7
      have W8 : (plo.map AkPathListItemOffset.write).flatten =
          listSlice rd.data rd₇.pos rd₈.pos := by
        rw [← E7]
        exact w8
      have W9 : (prm.map Ak3DAutomationParams.write).flatten =
          listSlice rd.data rd₈.pos rd₉.pos := by
        rw [← E8]
        exact w9
      have L24 : rd₂.pos ≤ rd₄.pos := le_trans l3 l4
      have L25 : rd₂.pos ≤ rd₅.pos := le_trans L24 l5
      have L26 : rd₂.pos ≤ rd₆.pos := le_trans L25 l6
      have L27 : rd₂.pos ≤ rd₇.pos := le_trans L26 l7
      have L28 : rd₂.pos ≤ rd₈.pos := le_trans L27 l8
      have L29 : rd₂.pos ≤ rd₉.pos := le_trans L28 l9
      simp only [PositioningParams.write_options]
      rw [if_pos hc1a, if_pos hc2, hlen6, hlen8]
      rw [W1, W2, W3, W4, W5, W6, W7, W8, W9]
      rw [slice_append rd.data rd₂.pos rd₃.pos rd₄.pos l3 l4,
        slice_append rd.data rd₂.pos rd₄.pos rd₅.pos L24 l5,
        slice_append rd.data rd₂.pos rd₅.pos rd₆.pos L25 l6,
        slice_append rd.data rd₂.pos rd₆.pos rd₇.pos L26 l7,
        slice_append rd.data rd₂.pos rd₇.pos rd₈.pos L27 l8,
        slice_append rd.data rd₂.pos rd₈.pos rd₉.pos L28 l9,
        slice_append rd.data rd.pos rd₁.pos rd₂.pos l1 l2,
        slice_append rd.data rd.pos rd₂.pos rd₉.pos (le_trans l1 l2) L29]
    · rename_i hc2
      obtain ⟨hp, hr⟩ := pure_eq_ok.mp h
      subst hp
      rw [hr]
      simp only [PositioningParams.write_options]
      rw [if_pos hc1a, if_neg hc2, List.append_nil]
      rw [W1, W2, slice_append rd.data rd.pos rd₁.pos rd₂.pos l1 l2]
  · rename_i hc1
    obtain ⟨b3, rd₂, h2, h⟩ := M.bind_eq_ok.mp h
    obtain ⟨hb3, hrd₂⟩ := pure_eq_ok.mp h2
    subst hb3
    rw [hrd₂] at h
    dsimp only at h
    split at h
    · rename_i hc2
      obtain ⟨m, rd₃, h3, h⟩ := M.bind_eq_ok.mp h
      obtain ⟨tt, rd₄, h4, h⟩ := M.bind_eq_ok.mp h
      obtain ⟨nv, rd₅, h5, h⟩ := M.bind_eq_ok.mp h
      obtain ⟨vs, rd₆, h6, h⟩ := M.bind_eq_ok.mp h
      obtain ⟨np, rd₇, h7, h⟩ := M.bind_eq_ok.mp h
      obtain ⟨plo, rd₈, h8, h⟩ := M.bind_eq_ok.mp h
      obtain ⟨prm, rd₉, h9, h⟩ := M.bind_eq_ok.mp h
      obtain ⟨hp, hr⟩ := pure_eq_ok.mp h
      subst hp
      rw [hr]
      have hcond' : bits % 2 = 0 ∨ bits / 2 % 2 ≠ 0 := hcond
      have hb0 : bits % 2 = 0 := by
        by_contra hne
        apply hc1
        rw [show (bits % 2 != 0) = true from by simpa using hne,
          show (bits / 2 % 2 != 0) = true from by
            rcases hcond' with h0 | hh1
            · exact absurd h0 hne
            · simpa using hh1]
        rfl
      have hgate : ¬((bits % 2 != 0) = true) := by simp [hb0]
      obtain ⟨e3, l3, w3⟩ := RT_AkPathMode rd₁ m rd₃ (e1.symm ▸ hb) h3
      have E3 : rd₃.data = rd.data := e3.trans e1
      obtain ⟨e4, l4, w4⟩ := RT_readU32 rd₃ tt rd₄ (E3.symm ▸ hb) h4
      have E4 : rd₄.data = rd.data := e4.trans E3
      obtain ⟨e5, l5, w5⟩ := RT_readU32 rd₄ nv rd₅ (E4.symm ▸ hb) h5
      have E5 : rd₅.data = rd.data := e5.trans E4
      obtain ⟨e6, l6, w6⟩ := RT_mreplicate RT_AkPathVertex nv rd₅ vs rd₆
        (E5.symm ▸ hb) h6
      have E6 : rd₆.data = rd.data := e6.trans E5
      obtain ⟨e7, l7, w7⟩ := RT_readU32 rd₆ np rd₇ (E6.symm ▸ hb) h7
      have E7 : rd₇.data = rd.data := e7.trans E6
      obtain ⟨e8, l8, w8⟩ := RT_mreplicate RT_AkPathListItemOffset np rd₇ plo rd₈
        (E7.symm ▸ hb) h8
      have E8 : rd₈.data = rd.data := e8.trans E7
      obtain ⟨e9, l9, w9⟩ := RT_mreplicate RT_Ak3DAutomationParams np rd₈ prm rd₉
        (E8.symm ▸ hb) h9
      have hlen6 : vs.length = nv := mreplicate_length nv rd₅ vs rd₆ h6
      have hlen8 : plo.length = np := mreplicate_length np rd₇ plo rd₈ h8
      have W3 : [m.toNat % 256] = listSlice rd.data rd₁.pos rd₃.pos := by
        rw [← e1]
        exact w3
      have W4 : natLE 4 tt = listSlice rd.data rd₃.pos rd₄.pos := by
        rw [← E3]
        exact w4
      have W5 : natLE 4 nv = listSlice rd.data rd₄.pos rd₅.pos := by
        rw [← E4]
        exact w5
      have W6 : (vs.map AkPathVertex.write).flatten =
          listSlice rd.data rd₅.pos rd₆.pos := by
        rw [← E5]
        exact w6
      have W7 : natLE 4 np = listSlice rd.data rd₆.pos rd₇.pos := by
        rw [← E6]
        exact w7
      have W8 : (plo.map AkPathListItemOffset.write).flatten =
          listSlice rd.data rd₇.pos rd₈.pos := by
        rw [← E7]
        exact w8
      have W9 : (prm.map Ak3DAutomationParams.write).flatten =
          listSlice rd.data rd₈.pos rd₉.pos := by
        rw [← E8]
        exact w9
      have L14 : rd₁.pos ≤ rd₄.pos := le_trans l3 l4
      have L15 : rd₁.pos ≤ rd₅.pos := le_trans L14 l5
      have L16 : rd₁.pos ≤ rd₆.pos := le_trans L15 l6
      have L17 : rd₁.pos ≤ rd₇.pos := le_trans L16 l7
      have L18 : rd₁.pos ≤ rd₈.pos := le_trans L17 l8
      have L19 : rd₁.pos ≤ rd₉.pos := le_trans L18 l9
      simp only [PositioningParams.write_options]
      rw [if_neg hgate, if_pos hc2, hlen6, hlen8, List.append_nil]
      rw [W1, W3, W4, W5, W6, W7, W8, W9]
      rw [slice_append rd.data rd₁.pos rd₃.pos rd₄.pos l3 l4,
        slice_append rd.data rd₁.pos rd₄.pos rd₅.pos L14 l5,
        slice_append rd.data rd₁.pos rd₅.pos rd₆.pos L15 l6,
        slice_append rd.data rd₁.pos rd₆.pos rd₇.pos L16 l7,
        slice_append rd.data rd₁.pos rd₇.pos rd₈.pos L17 l8,
        slice_append rd.data rd₁.pos rd₈.pos rd₉.pos L18 l9,
        slice_append rd.data rd.pos rd₁.pos rd₉.pos l1 L19]
    · rename_i hc2
      obtain ⟨hp, hr⟩ := pure_eq_ok.mp h
      subst hp
      rw [hr]
      have hcond' : bits % 2 = 0 ∨ bits / 2 % 2 ≠ 0 := hcond
      have hb0 : bits % 2 = 0 := by
        by_contra hne
        apply hc1
        rw [show (bits % 2 != 0) = true from by simpa using hne,
          show (bits / 2 % 2 != 0) = true from by
            rcases hcond' with h0 | hh1
            · exact absurd h0 hne
            · simpa using hh1]
        rfl
      have hgate : ¬((bits % 2 != 0) = true) := by simp [hb0]
      simp only [PositioningParams.write_options]
      rw [if_neg hgate, if_neg hc2, List.append_nil, List.append_nil]
      exact W1


/-- C3 counterexample: flag byte `0x01` (positioning bit set, 3D bit
clear).  The decoder consumes only that one byte — it reads `bits_3d`
only when bits 0 AND 1 are both set — but the encoder emits the
`bits_3d` byte whenever bit 0 alone is set, so encoding the decoded
value yields `[1, 0]`, one byte longer than the consumed input. -/
theorem positioning_bit0_only_writes_extra_byte :
    PositioningParams.read_options ⟨[1], 0⟩ =
      .ok (⟨1, 0, 0, .stepSequence, 0, [], [], []⟩, ⟨[1], 1⟩) ∧
    PositioningParams.write_options ⟨1, 0, 0, .stepSequence, 0, [], [], []⟩ =
      [1, 0] ∧
    [1, 0] ≠ listSlice [1] 0 1 :=
  ⟨rfl, rfl, by decide⟩

/-- C3 witness: the 51-byte automation buffer `c3buf` (bits 0, 1 and 5
set, one vertex, one playlist item) decodes to `c3params` and encodes
back to exactly the consumed 51-byte slice, the element counts
surviving the round trip. -/
theorem positioning_flag_roundtrip_witness :
    PositioningParams.read_options ⟨c3buf, 0⟩ = .ok (c3params, ⟨c3buf, 51⟩) ∧
    c3params.vertices.length = 1 ∧ c3params.play_list_items.length = 1 ∧
    PositioningParams.write_options c3params = listSlice c3buf 0 51 :=
  ⟨rfl, rfl, rfl,
   positioning_flag_roundtrip ⟨c3buf, 0⟩ c3params ⟨c3buf, 51⟩ (by decide) rfl
     (by decide)⟩

end ReSound
